import Mathlib

/-!
# OpenModbus: a shallow embedding of the Modbus RTU slave engine

The development follows `src/modbus_slave.h`, `src/modbus_bytes.h`,
`src/modbus_slave.c` and `src/modbus_slave_handlers.c`.

Conventions of the embedding

* A byte (`uint8_t`) and a 16-bit word (`uint16_t`) are natural numbers; where the
  C code stores a wider value into such a variable the store is written with an
  explicit `% 256` or `% 65536`.
* A byte buffer reached through a pointer is a function from index to byte
  (`Buf`); the pointer `&buf[k]` is the view `Buf.offset buf k`.
* A user callback is a function of its decoded arguments and of the memory it can
  reach through its pointer arguments; every invocation of a callback (the
  transmit callback included) is recorded, in order, as a `Call`.
-/

namespace OpenModbus

/-! ## modbus_slave.h -/

def MODBUS_MIN_FRAME_LENGTH : Nat := 4
def MODBUS_MAX_FRAME_LENGTH : Nat := 256
def MODBUS_MAX_PDU_LENGTH : Nat := 253
def MODBUS_FC_EXCEPTION_MASK : Nat := 0x80

/-- The enum `ModbusState`. -/
inductive ModbusState
  | UNINITIALIZED
  | IDLE
  | RECEPTION
  | CONTROL_AND_WAITING
  deriving DecidableEq

/-- The enum `ModbusExceptionCode`. -/
inductive ModbusExceptionCode
  | MODBUS_EX_NONE
  | MODBUS_EX_ILLEGAL_FUNCTION
  | MODBUS_EX_ILLEGAL_DATA_ADDRESS
  | MODBUS_EX_ILLEGAL_DATA_VALUE
  | MODBUS_EX_SLAVE_DEVICE_FAILURE
  deriving DecidableEq

open ModbusState ModbusExceptionCode

/-- The numeric value of an exception code, as declared in the enum. -/
def ModbusExceptionCode.toNat : ModbusExceptionCode → Nat
  | MODBUS_EX_NONE => 0x00
  | MODBUS_EX_ILLEGAL_FUNCTION => 0x01
  | MODBUS_EX_ILLEGAL_DATA_ADDRESS => 0x02
  | MODBUS_EX_ILLEGAL_DATA_VALUE => 0x03
  | MODBUS_EX_SLAVE_DEVICE_FAILURE => 0x04

/-- The function codes of the enum `ModbusFunctionCode`. -/
def MODBUS_FC_READ_COILS : Nat := 0x01
def MODBUS_FC_READ_DISCRETE_INPUTS : Nat := 0x02
def MODBUS_FC_READ_HOLDING_REGISTERS : Nat := 0x03
def MODBUS_FC_READ_INPUT_REGISTERS : Nat := 0x04
def MODBUS_FC_WRITE_SINGLE_COIL : Nat := 0x05
def MODBUS_FC_WRITE_SINGLE_REGISTER : Nat := 0x06
def MODBUS_FC_WRITE_MULTIPLE_COILS : Nat := 0x0F
def MODBUS_FC_WRITE_MULTIPLE_REGISTERS : Nat := 0x10
def MODBUS_FC_READ_EXCEPTION_STATUS : Nat := 0x07
def MODBUS_FC_DIAGNOSTICS : Nat := 0x08
def MODBUS_FC_READ_WRITE_MULTIPLE_REGS : Nat := 0x17
def MODBUS_FC_MASK_WRITE_REGISTER : Nat := 0x16

/-- A byte buffer seen through a pointer: index to byte. -/
abbrev Buf := Nat → Nat

/-- The view `&buf[k]`. -/
def Buf.offset (buf : Buf) (k : Nat) : Buf := fun i => buf (k + i)

/-- The store `buf[k] = v`. -/
def Buf.set (buf : Buf) (k v : Nat) : Buf := fun i => if i = k then v else buf i

/-- The memory after a callee wrote through the pointer `&buf[k]`: below `k` the
buffer is as before, from `k` on it holds what the callee left there. -/
def Buf.splice (buf : Buf) (k : Nat) (dest : Buf) : Buf :=
  fun i => if i < k then buf i else dest (i - k)

/-- The bytes `buf[0], ..., buf[n-1]`, what a callee receiving `(buf, n)` reads. -/
def Buf.bytes (buf : Buf) (n : Nat) : List Nat := (List.range n).map buf

/-- The buffer whose first bytes are those of a list (zero beyond its end). -/
def Buf.ofList (l : List Nat) : Buf := fun i => l.getD i 0

/-- Callbacks `(addr, count, dest)`: the arguments and the memory at `dest` before the
call give the returned code and the memory at `dest` after the call. -/
abbrev ModbusReadCb := Nat → Nat → Buf → ModbusExceptionCode × Buf

/-- Callbacks `ModbusWriteSingleCoilCb` and `ModbusWriteSingleRegisterCb`. -/
abbrev ModbusWriteSingleCb := Nat → Nat → ModbusExceptionCode

/-- Callbacks `(addr, count, src)` with `src` read-only. -/
abbrev ModbusWriteMultipleCb := Nat → Nat → Buf → ModbusExceptionCode

/-- Callback `ModbusMaskWriteRegisterCb`. -/
abbrev ModbusMaskWriteRegisterCb := Nat → Nat → Nat → ModbusExceptionCode

/-- Callback `(read_addr, read_count, write_addr, write_count, write_data, read_data)`. -/
abbrev ModbusReadWriteMultipleRegistersCb :=
  Nat → Nat → Nat → Nat → Buf → Buf → ModbusExceptionCode × Buf

/-- The struct `ModbusSlaveConfig`. A function pointer that may be NULL is an `Option`;
for the transmit callback `write`, whose effect is the recorded `Call.write`, only
its presence is kept. -/
structure ModbusSlaveConfig where
  address : Nat
  write : Bool
  read_coils : Option ModbusReadCb
  read_discrete_inputs : Option ModbusReadCb
  read_holding_registers : Option ModbusReadCb
  read_input_registers : Option ModbusReadCb
  write_single_coil : Option ModbusWriteSingleCb
  write_single_register : Option ModbusWriteSingleCb
  write_multiple_coils : Option ModbusWriteMultipleCb
  write_multiple_registers : Option ModbusWriteMultipleCb
  mask_write_register : Option ModbusMaskWriteRegisterCb
  read_write_multiple_registers : Option ModbusReadWriteMultipleRegistersCb

/-- The struct `ModbusSlave`. -/
structure ModbusSlave where
  config : ModbusSlaveConfig
  state : ModbusState
  frame : Buf
  frame_len : Nat
  frame_ok : Bool
  frame_available : Bool
  processing_frame : Bool

/-- One invocation of a callback of the configuration, with its scalar arguments. A
pointer argument is recorded as the offset it points to: into the frame buffer for a
source, into the response PDU for a destination. -/
inductive Call
  | write (data : List Nat)
  | read_coils (addr count dest : Nat)
  | read_discrete_inputs (addr count dest : Nat)
  | read_holding_registers (addr count dest : Nat)
  | read_input_registers (addr count dest : Nat)
  | write_single_coil (addr value : Nat)
  | write_single_register (addr value : Nat)
  | write_multiple_coils (addr count src : Nat)
  | write_multiple_registers (addr count src : Nat)
  | mask_write_register (addr and_mask or_mask : Nat)
  | read_write_multiple_registers (read_addr read_count write_addr write_count
      write_data read_data : Nat)
  deriving DecidableEq

/-- Whether a recorded call is the transmit callback. -/
def Call.isWrite : Call → Bool
  | Call.write _ => true
  | _ => false

/-! ## modbus_bytes.h -/

/-- The helper `modbus_be16_get(&buf[k])`. -/
def modbus_be16_get (buf : Buf) (k : Nat) : Nat :=
  (((buf k) <<< 8) ||| (buf (k + 1))) % 65536

/-- The helper `modbus_be16_set(&buf[k], value)`. -/
def modbus_be16_set (buf : Buf) (k value : Nat) : Buf :=
  (buf.set k ((value >>> 8) % 256)).set (k + 1) ((value &&& 0xFF) % 256)

/-- The helper `modbus_le16_get(&buf[k])`. -/
def modbus_le16_get (buf : Buf) (k : Nat) : Nat :=
  (((buf (k + 1)) <<< 8) ||| (buf k)) % 65536

/-- The helper `modbus_le16_set(&buf[k], value)`. -/
def modbus_le16_set (buf : Buf) (k value : Nat) : Buf :=
  (buf.set k ((value &&& 0xFF) % 256)).set (k + 1) ((value >>> 8) % 256)

/-! ## modbus_crc16 -/

/-- One shift-and-conditional-XOR step of the CRC register. -/
def crc16_shift (crc : Nat) : Nat :=
  if crc % 2 = 1 then (crc >>> 1) ^^^ 0xA001 else crc >>> 1

/-- One data byte: XOR into the low byte, then eight shift steps. -/
def crc16_byte (crc byte : Nat) : Nat :=
  crc16_shift (crc16_shift (crc16_shift (crc16_shift
    (crc16_shift (crc16_shift (crc16_shift (crc16_shift (crc ^^^ byte))))))))

/-- Modelled from the spec: `modbus_crc16` (its source file `modbus_crc16.c` is not
among the sources; only its header is included and its tests are present). The spec:
initial value 0xFFFF, reflected polynomial 0xA001, each data byte XORed into the low
byte followed by eight shift-and-conditional-XOR steps, no final XOR. The result is a
`uint16_t`. -/
def modbus_crc16 (data : List Nat) : Nat :=
  (data.foldl crc16_byte 0xFFFF) % 65536

/-! ## modbus_slave.c: initialisation and receiver -/

/-- The function `modbus_slave_init`. A NULL pointer is `none`; the result is the return
value and the memory of the instance after the call. -/
def modbus_slave_init (slave : Option ModbusSlave) (cfg : Option ModbusSlaveConfig) :
    Int × Option ModbusSlave :=
  match slave, cfg with
  | some s, some c =>
    if c.write = false then (-1, some s)
    else if c.address = 0x00 then (-1, some s)
    else (0, some { s with
      config := c, state := IDLE, frame_len := 0, frame_ok := true,
      frame_available := false, processing_frame := false })
  | _, _ => (-1, slave)

/-- The function `modbus_slave_rx_byte`. -/
def modbus_slave_rx_byte (slave : ModbusSlave) (byte : Nat) : ModbusSlave :=
  if slave.processing_frame then slave
  else
    let s1 : ModbusSlave :=
      if slave.state = IDLE then
        { slave with state := RECEPTION, frame_len := 0, frame_ok := true }
      else slave
    if s1.state = RECEPTION then
      if s1.frame_len < MODBUS_MAX_FRAME_LENGTH then
        { s1 with frame := s1.frame.set s1.frame_len byte,
                  frame_len := (s1.frame_len + 1) % 65536 }
      else
        { s1 with frame_ok := false, state := CONTROL_AND_WAITING }
    else s1

/-- The function `modbus_slave_1_5t_elapsed`. -/
def modbus_slave_1_5t_elapsed (slave : ModbusSlave) : ModbusSlave :=
  if slave.state = RECEPTION then { slave with state := CONTROL_AND_WAITING } else slave

/-- The function `modbus_slave_3_5t_elapsed`. -/
def modbus_slave_3_5t_elapsed (slave : ModbusSlave) : ModbusSlave :=
  if slave.state ≠ CONTROL_AND_WAITING then slave
  else
    let s1 : ModbusSlave :=
      if slave.frame_ok then { slave with frame_available := true } else slave
    { s1 with state := IDLE }

/-- The function `modbus_validate_frame`: 0 if valid, -1 if invalid. -/
def modbus_validate_frame (slave : ModbusSlave) : Int :=
  if slave.frame_len < MODBUS_MIN_FRAME_LENGTH then -1
  else
    let address := slave.frame 0
    if address ≠ 0x00 ∧ address ≠ slave.config.address then -1
    else
      let received_crc := modbus_le16_get slave.frame (slave.frame_len - 2)
      let expected_crc := modbus_crc16 (slave.frame.bytes (slave.frame_len - 2))
      if received_crc ≠ expected_crc then -1
      else 0


/-! ## modbus_slave_handlers.c -/

/-- What a handler leaves behind: the returned exception code, the response PDU
buffer and `*response_len` after the call, and the callbacks it invoked. -/
structure HandlerResult where
  ex : ModbusExceptionCode
  response : Buf
  response_len : Nat
  calls : List Call

/-- The loop `for (int i = 0; i < n; ++i) response[i] = slave->frame[1 + i];`. -/
def echo_request (slave : ModbusSlave) (response : Buf) (n : Nat) : Buf :=
  (List.range n).foldl (fun r i => r.set i (slave.frame (1 + i))) response

/-- The function `handle_read_coils` (function code 0x01). -/
def handle_read_coils (slave : ModbusSlave) (response : Buf) (response_len : Nat) :
    HandlerResult :=
  match slave.config.read_coils with
  | none => ⟨MODBUS_EX_ILLEGAL_FUNCTION, response, response_len, []⟩
  | some cb =>
    let addr := modbus_be16_get slave.frame 2
    let count := modbus_be16_get slave.frame 4
    if count < 0x0001 ∨ count > 0x07D0 then
      ⟨MODBUS_EX_ILLEGAL_DATA_VALUE, response, response_len, []⟩
    else
      let r := cb addr count (response.offset 2)
      let response1 := response.splice 2 r.2
      let calls := [Call.read_coils addr count 2]
      if r.1 ≠ MODBUS_EX_NONE then ⟨r.1, response1, response_len, calls⟩
      else
        let response2 := response1.set 0 (slave.frame 1)
        let response3 := response2.set 1 (((count + 7) / 8) % 256)
        ⟨MODBUS_EX_NONE, response3, (response_len + (2 + response3 1)) % 65536, calls⟩

/-- The function `handle_read_discrete_inputs` (function code 0x02). -/
def handle_read_discrete_inputs (slave : ModbusSlave) (response : Buf) (response_len : Nat) :
    HandlerResult :=
  match slave.config.read_discrete_inputs with
  | none => ⟨MODBUS_EX_ILLEGAL_FUNCTION, response, response_len, []⟩
  | some cb =>
    let addr := modbus_be16_get slave.frame 2
    let count := modbus_be16_get slave.frame 4
    if count < 0x0001 ∨ count > 0x07D0 then
      ⟨MODBUS_EX_ILLEGAL_DATA_VALUE, response, response_len, []⟩
    else
      let r := cb addr count (response.offset 2)
      let response1 := response.splice 2 r.2
      let calls := [Call.read_discrete_inputs addr count 2]
      if r.1 ≠ MODBUS_EX_NONE then ⟨r.1, response1, response_len, calls⟩
      else
        let response2 := response1.set 0 (slave.frame 1)
        let response3 := response2.set 1 (((count + 7) / 8) % 256)
        ⟨MODBUS_EX_NONE, response3, (response_len + (2 + response3 1)) % 65536, calls⟩

/-- The function `handle_read_holding_registers` (function code 0x03). -/
def handle_read_holding_registers (slave : ModbusSlave) (response : Buf) (response_len : Nat) :
    HandlerResult :=
  match slave.config.read_holding_registers with
  | none => ⟨MODBUS_EX_ILLEGAL_FUNCTION, response, response_len, []⟩
  | some cb =>
    let addr := modbus_be16_get slave.frame 2
    let count := modbus_be16_get slave.frame 4
    if count < 0x0001 ∨ count > 0x007D then
      ⟨MODBUS_EX_ILLEGAL_DATA_VALUE, response, response_len, []⟩
    else
      let r := cb addr count (response.offset 2)
      let response1 := response.splice 2 r.2
      let calls := [Call.read_holding_registers addr count 2]
      if r.1 ≠ MODBUS_EX_NONE then ⟨r.1, response1, response_len, calls⟩
      else
        let response2 := response1.set 0 (slave.frame 1)
        let response3 := response2.set 1 ((count * 2) % 256)
        ⟨MODBUS_EX_NONE, response3, (response_len + (2 + response3 1)) % 65536, calls⟩

/-- The function `handle_read_input_registers` (function code 0x04). -/
def handle_read_input_registers (slave : ModbusSlave) (response : Buf) (response_len : Nat) :
    HandlerResult :=
  match slave.config.read_input_registers with
  | none => ⟨MODBUS_EX_ILLEGAL_FUNCTION, response, response_len, []⟩
  | some cb =>
    let addr := modbus_be16_get slave.frame 2
    let count := modbus_be16_get slave.frame 4
    if count < 0x0001 ∨ count > 0x007D then
      ⟨MODBUS_EX_ILLEGAL_DATA_VALUE, response, response_len, []⟩
    else
      let r := cb addr count (response.offset 2)
      let response1 := response.splice 2 r.2
      let calls := [Call.read_input_registers addr count 2]
      if r.1 ≠ MODBUS_EX_NONE then ⟨r.1, response1, response_len, calls⟩
      else
        let response2 := response1.set 0 (slave.frame 1)
        let response3 := response2.set 1 ((count * 2) % 256)
        ⟨MODBUS_EX_NONE, response3, (response_len + (2 + response3 1)) % 65536, calls⟩

/-- The function `handle_write_single_coil` (function code 0x05). -/
def handle_write_single_coil (slave : ModbusSlave) (response : Buf) (response_len : Nat) :
    HandlerResult :=
  match slave.config.write_single_coil with
  | none => ⟨MODBUS_EX_ILLEGAL_FUNCTION, response, response_len, []⟩
  | some cb =>
    let addr := modbus_be16_get slave.frame 2
    let value := modbus_be16_get slave.frame 4
    if value ≠ 0x0000 ∧ value ≠ 0xFF00 then
      ⟨MODBUS_EX_ILLEGAL_DATA_VALUE, response, response_len, []⟩
    else
      let coil := if value = 0xFF00 then 1 else 0
      let ex := cb addr coil
      let calls := [Call.write_single_coil addr coil]
      if ex ≠ MODBUS_EX_NONE then ⟨ex, response, response_len, calls⟩
      else
        ⟨MODBUS_EX_NONE, echo_request slave response 4, (response_len + 4) % 65536, calls⟩

/-- The function `handle_write_single_register` (function code 0x06). -/
def handle_write_single_register (slave : ModbusSlave) (response : Buf)
    (response_len : Nat) : HandlerResult :=
  match slave.config.write_single_register with
  | none => ⟨MODBUS_EX_ILLEGAL_FUNCTION, response, response_len, []⟩
  | some cb =>
    let addr := modbus_be16_get slave.frame 2
    let value := modbus_be16_get slave.frame 4
    let ex := cb addr value
    let calls := [Call.write_single_register addr value]
    if ex ≠ MODBUS_EX_NONE then ⟨ex, response, response_len, calls⟩
    else
      ⟨MODBUS_EX_NONE, echo_request slave response 4, (response_len + 4) % 65536, calls⟩

/-- The function `handle_write_multiple_coils` (function code 0x0F). -/
def handle_write_multiple_coils (slave : ModbusSlave) (response : Buf) (response_len : Nat) :
    HandlerResult :=
  match slave.config.write_multiple_coils with
  | none => ⟨MODBUS_EX_ILLEGAL_FUNCTION, response, response_len, []⟩
  | some cb =>
    let addr := modbus_be16_get slave.frame 2
    let count := modbus_be16_get slave.frame 4
    let byte_count := slave.frame 6
    if count < 0x0001 ∨ count > 0x07B0 then
      ⟨MODBUS_EX_ILLEGAL_DATA_VALUE, response, response_len, []⟩
    else if byte_count ≠ (count + 7) / 8 then
      ⟨MODBUS_EX_ILLEGAL_DATA_VALUE, response, response_len, []⟩
    else
      let ex := cb addr count (slave.frame.offset 7)
      let calls := [Call.write_multiple_coils addr count 7]
      if ex ≠ MODBUS_EX_NONE then ⟨ex, response, response_len, calls⟩
      else
        ⟨MODBUS_EX_NONE, echo_request slave response 4, (response_len + 4) % 65536, calls⟩

/-- The function `handle_write_multiple_registers` (function code 0x10). -/
def handle_write_multiple_registers (slave : ModbusSlave) (response : Buf) (response_len : Nat) :
    HandlerResult :=
  match slave.config.write_multiple_registers with
  | none => ⟨MODBUS_EX_ILLEGAL_FUNCTION, response, response_len, []⟩
  | some cb =>
    let addr := modbus_be16_get slave.frame 2
    let count := modbus_be16_get slave.frame 4
    let byte_count := slave.frame 6
    if count < 0x0001 ∨ count > 0x007B then
      ⟨MODBUS_EX_ILLEGAL_DATA_VALUE, response, response_len, []⟩
    else if byte_count ≠ count * 2 then
      ⟨MODBUS_EX_ILLEGAL_DATA_VALUE, response, response_len, []⟩
    else
      let ex := cb addr count (slave.frame.offset 7)
      let calls := [Call.write_multiple_registers addr count 7]
      if ex ≠ MODBUS_EX_NONE then ⟨ex, response, response_len, calls⟩
      else
        ⟨MODBUS_EX_NONE, echo_request slave response 4, (response_len + 4) % 65536, calls⟩

/-- The function `handle_mask_write_register` (function code 0x16). -/
def handle_mask_write_register (slave : ModbusSlave) (response : Buf)
    (response_len : Nat) : HandlerResult :=
  match slave.config.mask_write_register with
  | none => ⟨MODBUS_EX_ILLEGAL_FUNCTION, response, response_len, []⟩
  | some cb =>
    let addr := modbus_be16_get slave.frame 2
    let and_mask := modbus_be16_get slave.frame 4
    let or_mask := modbus_be16_get slave.frame 6
    let ex := cb addr and_mask or_mask
    let calls := [Call.mask_write_register addr and_mask or_mask]
    if ex ≠ MODBUS_EX_NONE then ⟨ex, response, response_len, calls⟩
    else
      ⟨MODBUS_EX_NONE, echo_request slave response 6, (response_len + 6) % 65536, calls⟩

/-- The function `handle_read_write_multiple_registers` (function code 0x17). -/
def handle_read_write_multiple_registers (slave : ModbusSlave) (response : Buf)
    (response_len : Nat) : HandlerResult :=
  match slave.config.read_write_multiple_registers with
  | none => ⟨MODBUS_EX_ILLEGAL_FUNCTION, response, response_len, []⟩
  | some cb =>
    let read_addr := modbus_be16_get slave.frame 2
    let read_count := modbus_be16_get slave.frame 4
    let write_addr := modbus_be16_get slave.frame 6
    let write_count := modbus_be16_get slave.frame 8
    let write_byte_count := slave.frame 10
    if read_count < 0x0001 ∨ read_count > 0x007D then
      ⟨MODBUS_EX_ILLEGAL_DATA_VALUE, response, response_len, []⟩
    else if write_count < 0x0001 ∨ write_count > 0x0079 then
      ⟨MODBUS_EX_ILLEGAL_DATA_VALUE, response, response_len, []⟩
    else if write_byte_count ≠ write_count * 2 then
      ⟨MODBUS_EX_ILLEGAL_DATA_VALUE, response, response_len, []⟩
    else
      let r := cb read_addr read_count write_addr write_count
        (slave.frame.offset 11) (response.offset 2)
      let response1 := response.splice 2 r.2
      let calls :=
        [Call.read_write_multiple_registers read_addr read_count write_addr write_count 11 2]
      if r.1 ≠ MODBUS_EX_NONE then ⟨r.1, response1, response_len, calls⟩
      else
        let response2 := response1.set 0 (slave.frame 1)
        let response3 := response2.set 1 ((read_count * 2) % 256)
        ⟨MODBUS_EX_NONE, response3, (response_len + (2 + response3 1)) % 65536, calls⟩

/-! ## modbus_slave.c: frame processor and poll -/

/-- The `switch (request[1])` of `modbus_process_frame`: the handler selected by the
function code, run on the response PDU buffer and `response_len`. -/
def dispatch (slave : ModbusSlave) (response_pdu : Buf) (response_len : Nat) :
    HandlerResult :=
  let fc := slave.frame 1
  if fc = MODBUS_FC_READ_COILS then
    handle_read_coils slave response_pdu response_len
  else if fc = MODBUS_FC_READ_DISCRETE_INPUTS then
    handle_read_discrete_inputs slave response_pdu response_len
  else if fc = MODBUS_FC_READ_HOLDING_REGISTERS then
    handle_read_holding_registers slave response_pdu response_len
  else if fc = MODBUS_FC_READ_INPUT_REGISTERS then
    handle_read_input_registers slave response_pdu response_len
  else if fc = MODBUS_FC_WRITE_SINGLE_COIL then
    handle_write_single_coil slave response_pdu response_len
  else if fc = MODBUS_FC_WRITE_SINGLE_REGISTER then
    handle_write_single_register slave response_pdu response_len
  else if fc = MODBUS_FC_WRITE_MULTIPLE_COILS then
    handle_write_multiple_coils slave response_pdu response_len
  else if fc = MODBUS_FC_WRITE_MULTIPLE_REGISTERS then
    handle_write_multiple_registers slave response_pdu response_len
  else if fc = MODBUS_FC_MASK_WRITE_REGISTER then
    handle_mask_write_register slave response_pdu response_len
  else if fc = MODBUS_FC_READ_WRITE_MULTIPLE_REGS then
    handle_read_write_multiple_registers slave response_pdu response_len
  else
    ⟨MODBUS_EX_ILLEGAL_FUNCTION, response_pdu, response_len, []⟩

/-- The response ADU assembled by `modbus_process_frame` after the switch, for a
request that is not a broadcast: the address is reassigned, an exception overrides the
PDU, the CRC is appended; the result is the byte sequence handed to
`slave->config.write`. The argument `response` is the local array after the handler
ran. -/
def frame_response (slave : ModbusSlave) (response : Buf) (h : HandlerResult) : List Nat :=
  let request := slave.frame
  let response1 := response.set 0 (request 0)
  let response_len1 := (h.response_len + 1) % 65536
  let response2 :=
    if h.ex ≠ MODBUS_EX_NONE then
      (response1.set 1 ((request 1 ||| MODBUS_FC_EXCEPTION_MASK) % 256)).set 2
        (h.ex.toNat % 256)
    else response1
  let response_len2 := if h.ex ≠ MODBUS_EX_NONE then 3 else response_len1
  let crc := modbus_crc16 (response2.bytes response_len2)
  let response3 := modbus_le16_set response2 response_len2 crc
  let response_len3 := (response_len2 + 2) % 65536
  response3.bytes response_len3

/-- The function `modbus_process_frame`: the callbacks it invokes, in order. The
argument `response0` is the indeterminate initial content of the local array
`uint8_t response[MODBUS_MAX_FRAME_LENGTH]`. -/
def modbus_process_frame (slave : ModbusSlave) (response0 : Buf) : List Call :=
  if modbus_validate_frame slave ≠ 0 then []
  else
    let request := slave.frame
    let h := dispatch slave (response0.offset 1) 0
    let response := response0.splice 1 h.response
    if request 0 = 0x00 then h.calls
    else h.calls ++ [Call.write (frame_response slave response h)]

/-- The function `modbus_slave_poll`: the instance after the call and the callbacks
invoked, in order. -/
def modbus_slave_poll (slave : ModbusSlave) (response0 : Buf) : ModbusSlave × List Call :=
  if slave.frame_available = false then (slave, [])
  else
    let s1 : ModbusSlave := { slave with processing_frame := true, frame_available := false }
    let calls := modbus_process_frame s1 response0
    ({ s1 with frame_len := 0, processing_frame := false }, calls)

/-! ## Fixtures: the configuration and instance of the integration tests -/

/-- The callback `mock_read_holding_registers` of `test_modbus_integration.c`. -/
def mock_read_holding_registers : ModbusReadCb := fun addr count dest =>
  if addr > 1000 then (MODBUS_EX_ILLEGAL_DATA_ADDRESS, dest)
  else
    (MODBUS_EX_NONE,
      (List.range count).foldl (fun d i => modbus_be16_set d (i * 2) ((500 + i) % 65536)) dest)

/-- A configuration with own address 1 and no data-access callback. -/
def bare_config : ModbusSlaveConfig :=
  { address := 0x01, write := true, read_coils := none, read_discrete_inputs := none,
    read_holding_registers := none, read_input_registers := none,
    write_single_coil := none, write_single_register := none,
    write_multiple_coils := none, write_multiple_registers := none,
    mask_write_register := none, read_write_multiple_registers := none }

/-- The configuration of `TEST_SETUP(modbus_integration)`. -/
def test_config : ModbusSlaveConfig :=
  { bare_config with read_holding_registers := some mock_read_holding_registers }

/-- The instance after `memset(&slave, 0, sizeof(slave))`. -/
def zeroed_slave : ModbusSlave :=
  { config := { bare_config with address := 0, write := false }, state := UNINITIALIZED,
    frame := fun _ => 0, frame_len := 0, frame_ok := false, frame_available := false,
    processing_frame := false }

/-- The instance a successful `modbus_slave_init` leaves from zeroed memory. -/
def init_slave (cfg : ModbusSlaveConfig) : ModbusSlave :=
  { zeroed_slave with config := cfg, state := IDLE, frame_ok := true }

/-- The receiver driven as in the tests: the bytes in wire order, then the 1.5t and
the 3.5t event. -/
def receive_frame (slave : ModbusSlave) (b : List Nat) : ModbusSlave :=
  modbus_slave_3_5t_elapsed (modbus_slave_1_5t_elapsed (b.foldl modbus_slave_rx_byte slave))

/-- A request with its CRC appended little-endian, as the tests build it. -/
def with_crc (body : List Nat) : List Nat :=
  body ++ [modbus_crc16 body &&& 0xFF, (modbus_crc16 body >>> 8) &&& 0xFF]

/-- A configuration with own address 1 in which all ten data-access callbacks are
configured; each returns MODBUS_EX_NONE and leaves its destination as it was. -/
def full_config : ModbusSlaveConfig :=
  { address := 0x01, write := true,
    read_coils := some (fun _ _ dest => (MODBUS_EX_NONE, dest)),
    read_discrete_inputs := some (fun _ _ dest => (MODBUS_EX_NONE, dest)),
    read_holding_registers := some (fun _ _ dest => (MODBUS_EX_NONE, dest)),
    read_input_registers := some (fun _ _ dest => (MODBUS_EX_NONE, dest)),
    write_single_coil := some (fun _ _ => MODBUS_EX_NONE),
    write_single_register := some (fun _ _ => MODBUS_EX_NONE),
    write_multiple_coils := some (fun _ _ _ => MODBUS_EX_NONE),
    write_multiple_registers := some (fun _ _ _ => MODBUS_EX_NONE),
    mask_write_register := some (fun _ _ _ => MODBUS_EX_NONE),
    read_write_multiple_registers := some (fun _ _ _ _ _ dest => (MODBUS_EX_NONE, dest)) }

/-- An instance holding the read-coils request with quantity 0 of
test_handle_read_coils_invalid_count_low, in a configuration without any callback. -/
def quantity_zero_slave : ModbusSlave :=
  { init_slave bare_config with
    frame := Buf.ofList [0x01, 0x01, 0x00, 0x00, 0x00, 0x00], frame_len := 6 }

/-- An initialised instance whose frame buffer holds the given request, as the handler
tests set it up with memcpy (the bytes after the request are zero). -/
def latched (cfg : ModbusSlaveConfig) (request : List Nat) : ModbusSlave :=
  { init_slave cfg with frame := Buf.ofList request, frame_len := request.length }

/-- A configuration with own address 1 whose read_coils callback refuses every request
with MODBUS_EX_ILLEGAL_DATA_VALUE. -/
def refusing_config : ModbusSlaveConfig :=
  { bare_config with read_coils := some (fun _ _ dest => (MODBUS_EX_ILLEGAL_DATA_VALUE, dest)) }

/-- The callback `mock_read_coils` of `test_modbus_handler_read_coils.c`. -/
def mock_read_coils : ModbusReadCb := fun addr count dest =>
  if addr > 1000 then (MODBUS_EX_ILLEGAL_DATA_ADDRESS, dest)
  else if count > 200 then (MODBUS_EX_ILLEGAL_DATA_ADDRESS, dest)
  else
    (MODBUS_EX_NONE, (List.range ((count + 7) / 8)).foldl (fun d i => d.set i 0xAA) dest)

/-- The callback `mock_write_single_coil` of `test_modbus_handler_write_single_coil.c`. -/
def mock_write_single_coil : ModbusWriteSingleCb := fun addr _ =>
  if addr > 1000 then MODBUS_EX_ILLEGAL_DATA_ADDRESS else MODBUS_EX_NONE

/-- The callback `mock_write_multiple_coils` of
`test_modbus_handler_write_multiple_coils.c`. -/
def mock_write_multiple_coils : ModbusWriteMultipleCb := fun addr count _ =>
  if addr > 1000 then MODBUS_EX_ILLEGAL_DATA_ADDRESS
  else if count > 100 then MODBUS_EX_ILLEGAL_DATA_VALUE
  else MODBUS_EX_NONE

/-- The callback `mock_read_write_multiple_registers` of
`test_modbus_handler_read_write_multiple_registers.c`. -/
def mock_read_write_multiple_registers : ModbusReadWriteMultipleRegistersCb :=
  fun read_addr read_count write_addr _ _ read_data =>
    if read_addr > 1000 then (MODBUS_EX_ILLEGAL_DATA_ADDRESS, read_data)
    else if write_addr > 1000 then (MODBUS_EX_ILLEGAL_DATA_ADDRESS, read_data)
    else
      (MODBUS_EX_NONE,
        (List.range read_count).foldl
          (fun d i => modbus_be16_set d (i * 2) ((3000 + i) % 65536)) read_data)

/-- The configuration of the handler tests: own address 1 and the mock callbacks of
the test files for read coils, write single coil, write multiple coils and read/write
multiple registers. -/
def mock_config : ModbusSlaveConfig :=
  { bare_config with
    read_coils := some mock_read_coils,
    write_single_coil := some mock_write_single_coil,
    write_multiple_coils := some mock_write_multiple_coils,
    read_write_multiple_registers := some mock_read_write_multiple_registers }

/-- A configuration with own address 1 whose write_multiple_registers and
read_write_multiple_registers callbacks refuse every request with
MODBUS_EX_ILLEGAL_DATA_VALUE. -/
def refusing_write_config : ModbusSlaveConfig :=
  { bare_config with
    write_multiple_registers := some (fun _ _ _ => MODBUS_EX_ILLEGAL_DATA_VALUE),
    read_write_multiple_registers :=
      some (fun _ _ _ _ _ dest => (MODBUS_EX_ILLEGAL_DATA_VALUE, dest)) }

/-! ## The public interface as a transition system -/

/-- One call of the public interface on an initialised instance. For a call of
`modbus_slave_poll` the argument is the indeterminate initial content of the local
response array of `modbus_process_frame`. -/
inductive Event
  | rx_byte (byte : Nat)
  | t1_5_elapsed
  | t3_5_elapsed
  | poll (response0 : Buf)

/-- The instance after one call of the public interface. -/
def step (slave : ModbusSlave) : Event → ModbusSlave
  | Event.rx_byte byte => modbus_slave_rx_byte slave byte
  | Event.t1_5_elapsed => modbus_slave_1_5t_elapsed slave
  | Event.t3_5_elapsed => modbus_slave_3_5t_elapsed slave
  | Event.poll response0 => (modbus_slave_poll slave response0).1

/-- The instance after a finite sequence of calls, in order. -/
def run (slave : ModbusSlave) (events : List Event) : ModbusSlave :=
  events.foldl step slave

/-- The index of the store `slave->frame[slave->frame_len++] = byte` of
`modbus_slave_rx_byte`, when the call executes it: the guards of the function, with the
store replaced by its index. -/
def rx_byte_write_index (slave : ModbusSlave) : Option Nat :=
  if slave.processing_frame then none
  else
    let s1 : ModbusSlave :=
      if slave.state = IDLE then
        { slave with state := RECEPTION, frame_len := 0, frame_ok := true }
      else slave
    if s1.state = RECEPTION then
      if s1.frame_len < MODBUS_MAX_FRAME_LENGTH then some s1.frame_len
      else none
    else none

/-- The request of test_complete_frame_processing: read two holding registers from
address 0, with its CRC. -/
def read_request : List Nat := [0x01, 0x03, 0x00, 0x00, 0x00, 0x02, 0xC4, 0x0B]

/-- The stream of test_rx_frame_overflow: 256 bytes `i & 0xFF` and one more byte. -/
def overflow_stream : List Nat := (List.range 256).map (fun i => i % 256) ++ [0xFF]

/-- The calls of test_rx_frame_overflow continued: the overflowing stream, the two
timing events, a poll, and the request of test_complete_frame_processing received and
polled afterwards. -/
def overflow_session : List Event :=
  overflow_stream.map Event.rx_byte ++
    [Event.t1_5_elapsed, Event.t3_5_elapsed, Event.poll (fun _ => 0)] ++
    read_request.map Event.rx_byte ++
    [Event.t1_5_elapsed, Event.t3_5_elapsed, Event.poll (fun _ => 0)]

/-- One byte followed by the two timing events: the shortest session that latches a
frame. -/
def one_byte_session : List Event :=
  [Event.rx_byte 0x01, Event.t1_5_elapsed, Event.t3_5_elapsed]

/-- What the tests of the echoing handlers assert of a handler result, for a handler
run on the response PDU buffer `response` and the length `response_len`: no exception,
the first `n` response bytes are `frame[1 .. 1+n)`, every other response byte is as
before, and the length grew by `n`. -/
def EchoResult (slave : ModbusSlave) (response : Buf) (response_len n : Nat)
    (h : HandlerResult) : Prop :=
  h.ex = MODBUS_EX_NONE ∧
  (∀ i, i < n → h.response i = slave.frame (1 + i)) ∧
  (∀ i, n ≤ i → h.response i = response i) ∧
  h.response_len = response_len + n

/-- For a recorded call of a read callback: where the data region reserved for it ends
(exclusive), as an index into the local array `response` of `modbus_process_frame`. The
region starts at the recorded destination offset of the response PDU, which itself
starts at index 1 of the array, and holds the byte count the handler stores in the
response: `(count + 7) / 8` for bits, `count * 2` for registers. 0 for every other
call. -/
def Call.read_data_end : Call → Nat
  | Call.read_coils _ count dest => 1 + dest + (count + 7) / 8
  | Call.read_discrete_inputs _ count dest => 1 + dest + (count + 7) / 8
  | Call.read_holding_registers _ count dest => 1 + dest + count * 2
  | Call.read_input_registers _ count dest => 1 + dest + count * 2
  | Call.read_write_multiple_registers _ read_count _ _ _ read_data =>
    1 + read_data + read_count * 2
  | _ => 0

/-- What every handler guarantees of its result when started with `*response_len = 0`:
the PDU length is at most 252; on success it is at least 3 and the PDU starts with the
function code of the request; and the data region of a read callback ends at or before
index 253 of the local response array. -/
def ResponseBound (slave : ModbusSlave) (h : HandlerResult) : Prop :=
  h.response_len ≤ 252 ∧
  (h.ex = MODBUS_EX_NONE → 3 ≤ h.response_len ∧ h.response 0 = slave.frame 1) ∧
  (h.ex ≠ MODBUS_EX_NONE → h.response_len = 0) ∧
  ∀ c ∈ h.calls, c.read_data_end ≤ 253 ∧
    (h.ex = MODBUS_EX_NONE → c.read_data_end ≠ 0 → c.read_data_end = 1 + h.response_len)

/-- A frame of four bytes: own address 1, function code 0x03 and the CRC of these two
bytes (0x2140, low byte first). -/
def short_request : List Nat := [0x01, 0x03, 0x40, 0x21]

/-- The calls by which a frame is received: its bytes in wire order, then the 1.5t and
the 3.5t event. -/
def frame_events (b : List Nat) : List Event :=
  b.map Event.rx_byte ++ [Event.t1_5_elapsed, Event.t3_5_elapsed]

/-! # Theorems -/

/-! ## Buffers and byte-order helpers -/

@[simp] theorem Buf.set_same (buf : Buf) (k v : Nat) : buf.set k v k = v := by
  simp [Buf.set]

theorem Buf.set_other (buf : Buf) (k v i : Nat) (h : i ≠ k) : buf.set k v i = buf i := by
  simp [Buf.set, h]

@[simp] theorem Buf.bytes_length (buf : Buf) (n : Nat) : (buf.bytes n).length = n := by
  simp [Buf.bytes]

theorem Buf.bytes_congr (b1 b2 : Buf) (n : Nat) (h : ∀ i, i < n → b1 i = b2 i) :
    b1.bytes n = b2.bytes n := by
  unfold Buf.bytes
  apply List.map_congr_left
  intro i hi
  exact h i (List.mem_range.mp hi)

theorem modbus_crc16_lt (data : List Nat) : modbus_crc16 data < 65536 := by
  unfold modbus_crc16
  omega

theorem le16_join (v : Nat) (hv : v < 65536) :
    ((((v >>> 8) % 256) <<< 8) ||| ((v &&& 0xFF) % 256)) % 65536 = v := by
  have h1 : v &&& 0xFF = v % 256 := Nat.and_pow_two_sub_one_eq_mod v 8
  have h2 : v >>> 8 = v / 256 := Nat.shiftRight_eq_div_pow v 8
  have h3 : (v / 256 % 256) <<< 8 = 2 ^ 8 * (v / 256 % 256) := by
    rw [Nat.shiftLeft_eq, Nat.mul_comm]
  have h4 : v % 256 % 256 < 2 ^ 8 := by omega
  rw [h1, h2, h3, ← Nat.mul_add_lt_is_or h4]
  omega

theorem modbus_le16_get_set (buf : Buf) (k v : Nat) (hv : v < 65536) :
    modbus_le16_get (modbus_le16_set buf k v) k = v := by
  unfold modbus_le16_get modbus_le16_set
  rw [Buf.set_same, Buf.set_other _ _ _ _ (by omega), Buf.set_same]
  exact le16_join v hv

/-! ## The receiver -/

theorem rx_byte_idle (s : ModbusSlave) (byte : Nat) (hp : s.processing_frame = false)
    (hs : s.state = IDLE) :
    modbus_slave_rx_byte s byte =
      { s with state := RECEPTION, frame_len := 1, frame_ok := true,
               frame := s.frame.set 0 byte } := by
  simp [modbus_slave_rx_byte, hp, hs, MODBUS_MAX_FRAME_LENGTH]

theorem rx_byte_reception (s : ModbusSlave) (byte : Nat) (hp : s.processing_frame = false)
    (hs : s.state = RECEPTION) (hl : s.frame_len < 256) :
    modbus_slave_rx_byte s byte =
      { s with frame := s.frame.set s.frame_len byte, frame_len := s.frame_len + 1 } := by
  have : (s.frame_len + 1) % 65536 = s.frame_len + 1 := by omega
  simp [modbus_slave_rx_byte, hp, hs, MODBUS_MAX_FRAME_LENGTH, hl, this]

/-- Bytes received in RECEPTION while the buffer has room are appended in order. -/
theorem rx_bytes_reception (b : List Nat) : ∀ s : ModbusSlave,
    s.processing_frame = false → s.state = RECEPTION → s.frame_len + b.length ≤ 256 →
    (b.foldl modbus_slave_rx_byte s).state = RECEPTION ∧
    (b.foldl modbus_slave_rx_byte s).processing_frame = false ∧
    (b.foldl modbus_slave_rx_byte s).frame_ok = s.frame_ok ∧
    (b.foldl modbus_slave_rx_byte s).frame_available = s.frame_available ∧
    (b.foldl modbus_slave_rx_byte s).config = s.config ∧
    (b.foldl modbus_slave_rx_byte s).frame_len = s.frame_len + b.length ∧
    (∀ i, i < s.frame_len → (b.foldl modbus_slave_rx_byte s).frame i = s.frame i) ∧
    (∀ i (h : i < b.length),
      (b.foldl modbus_slave_rx_byte s).frame (s.frame_len + i) = b[i]) := by
  induction b with
  | nil =>
    intro s hp hs _
    simp [hp, hs]
  | cons x xs ih =>
    intro s hp hs hl
    simp only [List.length_cons] at hl
    have hstep := rx_byte_reception s x hp hs (by omega)
    simp only [List.foldl_cons, hstep]
    obtain ⟨h1, h2, h3, h4, h5, h6, h7, h8⟩ :=
      ih { s with frame := s.frame.set s.frame_len x, frame_len := s.frame_len + 1 }
        hp hs (by simp only []; omega)
    simp only [] at h1 h2 h3 h4 h5 h6 h7 h8
    refine ⟨h1, h2, h3, h4, h5, ?_, ?_, ?_⟩
    · rw [h6, List.length_cons]; omega
    · intro i hi
      rw [h7 i (by omega), Buf.set_other _ _ _ _ (by omega)]
    · intro i hi
      cases i with
      | zero =>
        rw [h7 _ (by omega)]
        simp [Buf.set]
      | succ j =>
        have hj : j < xs.length := by simpa using hi
        have := h8 j hj
        rw [show s.frame_len + (j + 1) = s.frame_len + 1 + j by omega, this]
        simp

theorem init_slave_eq (cfg : ModbusSlaveConfig) (hw : cfg.write = true)
    (ha : cfg.address ≠ 0) :
    modbus_slave_init (some zeroed_slave) (some cfg) = (0, some (init_slave cfg)) := by
  simp [modbus_slave_init, hw, ha, init_slave, zeroed_slave]

/-- C1. Receiver hand-off: from a slave in state IDLE with processing_frame false (as
modbus_slave_init leaves it), receiving the bytes b[0..n) with 1 <= n <= 256 in order,
then the 1.5t event, then the 3.5t event, leaves state = IDLE, frame_available = true,
frame_len = n and frame[i] = b[i] for every i < n. -/
theorem C1_receiver_handoff (s : ModbusSlave) (b : List Nat)
    (hs : s.state = IDLE) (hp : s.processing_frame = false)
    (h1 : 1 ≤ b.length) (h256 : b.length ≤ 256) :
    (receive_frame s b).state = IDLE ∧
    (receive_frame s b).frame_available = true ∧
    (receive_frame s b).frame_len = b.length ∧
    ∀ i (h : i < b.length), (receive_frame s b).frame i = b[i] := by
  cases b with
  | nil => simp at h1
  | cons x xs =>
    simp only [List.length_cons] at h256
    obtain ⟨r1, r2, r3, r4, r5, r6, r7, r8⟩ :=
      rx_bytes_reception xs
        { s with state := RECEPTION, frame_len := 1, frame_ok := true,
                 frame := s.frame.set 0 x }
        hp rfl (by simp only []; omega)
    simp only [] at r1 r2 r3 r4 r5 r6 r7 r8
    simp only [receive_frame, List.foldl_cons, rx_byte_idle s x hp hs]
    refine ⟨?_, ?_, ?_, ?_⟩
    · simp [modbus_slave_3_5t_elapsed, modbus_slave_1_5t_elapsed, r1]
    · simp [modbus_slave_3_5t_elapsed, modbus_slave_1_5t_elapsed, r1, r3]
    · simp [modbus_slave_3_5t_elapsed, modbus_slave_1_5t_elapsed, r1, r3, r6]
      omega
    · intro i hi
      have hf : (modbus_slave_3_5t_elapsed (modbus_slave_1_5t_elapsed
          (List.foldl modbus_slave_rx_byte
            { s with state := RECEPTION, frame_len := 1, frame_ok := true,
                     frame := s.frame.set 0 x } xs))).frame =
          (List.foldl modbus_slave_rx_byte
            { s with state := RECEPTION, frame_len := 1, frame_ok := true,
                     frame := s.frame.set 0 x } xs).frame := by
        simp [modbus_slave_3_5t_elapsed, modbus_slave_1_5t_elapsed, r1, r3]
      rw [hf]
      cases i with
      | zero =>
        rw [r7 0 (by omega)]
        simp [Buf.set]
      | succ j =>
        have hj : j < xs.length := by simpa using hi
        have := r8 j hj
        rw [Nat.add_comm] at this
        rw [this]
        simp

/-- C1 at the request of test_complete_frame_processing, received by the instance that
modbus_slave_init leaves from the test configuration. -/
theorem C1_receiver_handoff_witness :
    modbus_slave_init (some zeroed_slave) (some test_config) = (0, some (init_slave test_config)) ∧
    (receive_frame (init_slave test_config) [0x01, 0x03, 0x00, 0x00, 0x00, 0x02, 0xC4, 0x0B]).state
      = IDLE ∧
    (receive_frame (init_slave test_config)
      [0x01, 0x03, 0x00, 0x00, 0x00, 0x02, 0xC4, 0x0B]).frame_available = true ∧
    (receive_frame (init_slave test_config)
      [0x01, 0x03, 0x00, 0x00, 0x00, 0x02, 0xC4, 0x0B]).frame_len = 8 ∧
    ∀ i (h : i < 8), (receive_frame (init_slave test_config)
      [0x01, 0x03, 0x00, 0x00, 0x00, 0x02, 0xC4, 0x0B]).frame i =
        [0x01, 0x03, 0x00, 0x00, 0x00, 0x02, 0xC4, 0x0B][i] :=
  ⟨init_slave_eq test_config rfl (by decide),
   C1_receiver_handoff (init_slave test_config)
    [0x01, 0x03, 0x00, 0x00, 0x00, 0x02, 0xC4, 0x0B] rfl rfl (by decide) (by decide)⟩

/-! ## The frame validator -/

/-- The three conditions under which a latched frame is accepted. -/
theorem validate_frame_eq_zero_iff (s : ModbusSlave) :
    modbus_validate_frame s = 0 ↔
      (4 ≤ s.frame_len ∧ (s.frame 0 = 0 ∨ s.frame 0 = s.config.address) ∧
        modbus_le16_get s.frame (s.frame_len - 2) =
          modbus_crc16 (s.frame.bytes (s.frame_len - 2))) := by
  unfold modbus_validate_frame MODBUS_MIN_FRAME_LENGTH
  by_cases h1 : s.frame_len < 4
  · simp [h1]
  · by_cases h2 : s.frame 0 = 0
    · by_cases h3 : modbus_le16_get s.frame (s.frame_len - 2) =
          modbus_crc16 (s.frame.bytes (s.frame_len - 2))
      · simp [h1, h2, h3]; omega
      · simp [h1, h2, h3]
    · by_cases h4 : s.frame 0 = s.config.address
      · by_cases h3 : modbus_le16_get s.frame (s.frame_len - 2) =
            modbus_crc16 (s.frame.bytes (s.frame_len - 2))
        · simp [h1, h2, h4, h3]; omega
        · simp [h1, h2, h4, h3]
      · simp [h1, h2, h4]

theorem validate_frame_values (s : ModbusSlave) :
    modbus_validate_frame s = 0 ∨ modbus_validate_frame s = -1 := by
  unfold modbus_validate_frame
  by_cases h1 : s.frame_len < MODBUS_MIN_FRAME_LENGTH
  · simp [h1]
  · by_cases h2 : s.frame 0 ≠ 0x00 ∧ s.frame 0 ≠ s.config.address
    · simp [h1, h2]
    · by_cases h3 : modbus_le16_get s.frame (s.frame_len - 2) ≠
          modbus_crc16 (s.frame.bytes (s.frame_len - 2))
      · right
        rw [if_neg h1, if_neg h2, if_pos h3]
      · left
        rw [if_neg h1, if_neg h2, if_neg h3]

/-- C2. modbus_validate_frame accepts (returns 0) if and only if frame_len >= 4, frame[0]
is 0 or the configured own address, and the little-endian 16-bit value in the last two
bytes equals the CRC-16 of the first frame_len-2 bytes; in every other case it rejects
(returns -1). -/
theorem C2_validate_frame (s : ModbusSlave) :
    (modbus_validate_frame s = 0 ↔
      (s.frame_len ≥ 4 ∧ (s.frame 0 = 0 ∨ s.frame 0 = s.config.address) ∧
        modbus_le16_get s.frame (s.frame_len - 2) =
          modbus_crc16 (s.frame.bytes (s.frame_len - 2)))) ∧
    (¬ (s.frame_len ≥ 4 ∧ (s.frame 0 = 0 ∨ s.frame 0 = s.config.address) ∧
        modbus_le16_get s.frame (s.frame_len - 2) =
          modbus_crc16 (s.frame.bytes (s.frame_len - 2))) →
      modbus_validate_frame s = -1) := by
  refine ⟨validate_frame_eq_zero_iff s, ?_⟩
  intro h
  rcases validate_frame_values s with h0 | h0
  · exact absurd ((validate_frame_eq_zero_iff s).mp h0) h
  · exact h0

/-! ## Poll and the frame processor -/

theorem poll_calls (s : ModbusSlave) (response0 : Buf) (h : s.frame_available = true) :
    (modbus_slave_poll s response0).2 = modbus_process_frame s response0 := by
  simp [modbus_slave_poll, h]
  rfl

theorem process_frame_invalid (s : ModbusSlave) (response0 : Buf)
    (h : modbus_validate_frame s ≠ 0) : modbus_process_frame s response0 = [] := by
  simp [modbus_process_frame, h]

theorem process_frame_broadcast (s : ModbusSlave) (response0 : Buf)
    (h : modbus_validate_frame s = 0) (hb : s.frame 0 = 0) :
    modbus_process_frame s response0 = (dispatch s (response0.offset 1) 0).calls := by
  simp [modbus_process_frame, h, hb]

theorem process_frame_unicast (s : ModbusSlave) (response0 : Buf)
    (h : modbus_validate_frame s = 0) (hb : s.frame 0 ≠ 0) :
    modbus_process_frame s response0 =
      (dispatch s (response0.offset 1) 0).calls ++
        [Call.write (frame_response s
          (response0.splice 1 (dispatch s (response0.offset 1) 0).response)
          (dispatch s (response0.offset 1) 0))] := by
  simp [modbus_process_frame, h, hb]

/-- C3. Framing silence: when the latched frame has length < 4, or an address byte that
is neither 0 nor the own address, or a trailing CRC that does not match,
modbus_slave_poll invokes no callback at all: neither the transmit callback nor any
user data-access callback. -/
theorem C3_framing_silence (s : ModbusSlave) (response0 : Buf)
    (havail : s.frame_available = true)
    (hbad : s.frame_len < 4 ∨ (s.frame 0 ≠ 0 ∧ s.frame 0 ≠ s.config.address) ∨
      modbus_le16_get s.frame (s.frame_len - 2) ≠
        modbus_crc16 (s.frame.bytes (s.frame_len - 2))) :
    (modbus_slave_poll s response0).2 = [] := by
  rw [poll_calls s response0 havail]
  apply process_frame_invalid
  intro h0
  obtain ⟨h1, h2, h3⟩ := (validate_frame_eq_zero_iff s).mp h0
  rcases hbad with hb | hb | hb
  · omega
  · rcases h2 with h2 | h2
    · exact hb.1 h2
    · exact hb.2 h2
  · exact hb h3

set_option maxRecDepth 100000 in
/-- C3 at the frame of test_frame_invalid_crc (trailing bytes 12 34), with every
response byte initially 0xEE. -/
theorem C3_framing_silence_witness :
    (modbus_slave_poll (receive_frame (init_slave test_config)
      [0x01, 0x03, 0x00, 0x00, 0x00, 0x02, 0x12, 0x34]) (fun _ => 0xEE)).2 = [] :=
  C3_framing_silence _ _ (by rfl) (by
    right; right
    decide)

/-! ## The handlers -/

theorem handle_read_coils_not_write (s : ModbusSlave) (r : Buf) (n : Nat) :
    ∀ c ∈ (handle_read_coils s r n).calls, c.isWrite = false := by
  unfold handle_read_coils
  cases s.config.read_coils <;> simp only [] <;>
    first | (split_ifs <;> simp [Call.isWrite]) | simp

theorem handle_read_discrete_inputs_not_write (s : ModbusSlave) (r : Buf) (n : Nat) :
    ∀ c ∈ (handle_read_discrete_inputs s r n).calls, c.isWrite = false := by
  unfold handle_read_discrete_inputs
  cases s.config.read_discrete_inputs <;> simp only [] <;>
    first | (split_ifs <;> simp [Call.isWrite]) | simp

theorem handle_read_holding_registers_not_write (s : ModbusSlave) (r : Buf) (n : Nat) :
    ∀ c ∈ (handle_read_holding_registers s r n).calls, c.isWrite = false := by
  unfold handle_read_holding_registers
  cases s.config.read_holding_registers <;> simp only [] <;>
    first | (split_ifs <;> simp [Call.isWrite]) | simp

theorem handle_read_input_registers_not_write (s : ModbusSlave) (r : Buf) (n : Nat) :
    ∀ c ∈ (handle_read_input_registers s r n).calls, c.isWrite = false := by
  unfold handle_read_input_registers
  cases s.config.read_input_registers <;> simp only [] <;>
    first | (split_ifs <;> simp [Call.isWrite]) | simp

theorem handle_write_single_coil_not_write (s : ModbusSlave) (r : Buf) (n : Nat) :
    ∀ c ∈ (handle_write_single_coil s r n).calls, c.isWrite = false := by
  unfold handle_write_single_coil
  cases s.config.write_single_coil <;> simp only [] <;>
    first | (split_ifs <;> simp [Call.isWrite]) | simp

theorem handle_write_single_register_not_write (s : ModbusSlave) (r : Buf) (n : Nat) :
    ∀ c ∈ (handle_write_single_register s r n).calls, c.isWrite = false := by
  unfold handle_write_single_register
  cases s.config.write_single_register <;> simp only [] <;>
    first | (split_ifs <;> simp [Call.isWrite]) | simp

theorem handle_write_multiple_coils_not_write (s : ModbusSlave) (r : Buf) (n : Nat) :
    ∀ c ∈ (handle_write_multiple_coils s r n).calls, c.isWrite = false := by
  unfold handle_write_multiple_coils
  cases s.config.write_multiple_coils <;> simp only [] <;>
    first | (split_ifs <;> simp [Call.isWrite]) | simp

theorem handle_write_multiple_registers_not_write (s : ModbusSlave) (r : Buf) (n : Nat) :
    ∀ c ∈ (handle_write_multiple_registers s r n).calls, c.isWrite = false := by
  unfold handle_write_multiple_registers
  cases s.config.write_multiple_registers <;> simp only [] <;>
    first | (split_ifs <;> simp [Call.isWrite]) | simp

theorem handle_mask_write_register_not_write (s : ModbusSlave) (r : Buf) (n : Nat) :
    ∀ c ∈ (handle_mask_write_register s r n).calls, c.isWrite = false := by
  unfold handle_mask_write_register
  cases s.config.mask_write_register <;> simp only [] <;>
    first | (split_ifs <;> simp [Call.isWrite]) | simp

theorem handle_read_write_multiple_registers_not_write (s : ModbusSlave) (r : Buf)
    (n : Nat) :
    ∀ c ∈ (handle_read_write_multiple_registers s r n).calls, c.isWrite = false := by
  unfold handle_read_write_multiple_registers
  cases s.config.read_write_multiple_registers <;> simp only [] <;>
    first | (split_ifs <;> simp [Call.isWrite]) | simp

/-- Case analysis on the switch: what holds of every handler's result and of the
default branch holds of the result of the switch. -/
theorem dispatch_cases (P : HandlerResult → Prop) (s : ModbusSlave) (r : Buf) (n : Nat)
    (h1 : P (handle_read_coils s r n))
    (h2 : P (handle_read_discrete_inputs s r n))
    (h3 : P (handle_read_holding_registers s r n))
    (h4 : P (handle_read_input_registers s r n))
    (h5 : P (handle_write_single_coil s r n))
    (h6 : P (handle_write_single_register s r n))
    (h7 : P (handle_write_multiple_coils s r n))
    (h8 : P (handle_write_multiple_registers s r n))
    (h9 : P (handle_mask_write_register s r n))
    (h10 : P (handle_read_write_multiple_registers s r n))
    (hd : P ⟨MODBUS_EX_ILLEGAL_FUNCTION, r, n, []⟩) :
    P (dispatch s r n) := by
  unfold dispatch
  simp only []
  by_cases c1 : s.frame 1 = MODBUS_FC_READ_COILS
  · rw [if_pos c1]; exact h1
  rw [if_neg c1]
  by_cases c2 : s.frame 1 = MODBUS_FC_READ_DISCRETE_INPUTS
  · rw [if_pos c2]; exact h2
  rw [if_neg c2]
  by_cases c3 : s.frame 1 = MODBUS_FC_READ_HOLDING_REGISTERS
  · rw [if_pos c3]; exact h3
  rw [if_neg c3]
  by_cases c4 : s.frame 1 = MODBUS_FC_READ_INPUT_REGISTERS
  · rw [if_pos c4]; exact h4
  rw [if_neg c4]
  by_cases c5 : s.frame 1 = MODBUS_FC_WRITE_SINGLE_COIL
  · rw [if_pos c5]; exact h5
  rw [if_neg c5]
  by_cases c6 : s.frame 1 = MODBUS_FC_WRITE_SINGLE_REGISTER
  · rw [if_pos c6]; exact h6
  rw [if_neg c6]
  by_cases c7 : s.frame 1 = MODBUS_FC_WRITE_MULTIPLE_COILS
  · rw [if_pos c7]; exact h7
  rw [if_neg c7]
  by_cases c8 : s.frame 1 = MODBUS_FC_WRITE_MULTIPLE_REGISTERS
  · rw [if_pos c8]; exact h8
  rw [if_neg c8]
  by_cases c9 : s.frame 1 = MODBUS_FC_MASK_WRITE_REGISTER
  · rw [if_pos c9]; exact h9
  rw [if_neg c9]
  by_cases c10 : s.frame 1 = MODBUS_FC_READ_WRITE_MULTIPLE_REGS
  · rw [if_pos c10]; exact h10
  rw [if_neg c10]
  exact hd

/-- The switch never invokes the transmit callback. -/
theorem dispatch_not_write (s : ModbusSlave) (r : Buf) (n : Nat) :
    ∀ c ∈ (dispatch s r n).calls, c.isWrite = false := by
  apply dispatch_cases (fun h => ∀ c ∈ h.calls, c.isWrite = false)
  · exact handle_read_coils_not_write s r n
  · exact handle_read_discrete_inputs_not_write s r n
  · exact handle_read_holding_registers_not_write s r n
  · exact handle_read_input_registers_not_write s r n
  · exact handle_write_single_coil_not_write s r n
  · exact handle_write_single_register_not_write s r n
  · exact handle_write_multiple_coils_not_write s r n
  · exact handle_write_multiple_registers_not_write s r n
  · exact handle_mask_write_register_not_write s r n
  · exact handle_read_write_multiple_registers_not_write s r n
  · simp

/-! ### The handlers do not read the address byte -/

theorem Buf.set_zero_offset (f : Buf) (a k : Nat) (hk : 0 < k) :
    (f.set 0 a).offset k = f.offset k := by
  funext i
  simp only [Buf.offset, Buf.set]
  rw [if_neg (by omega)]

theorem be16_get_set_zero (f : Buf) (a k : Nat) (hk : 0 < k) :
    modbus_be16_get (f.set 0 a) k = modbus_be16_get f k := by
  simp only [modbus_be16_get, Buf.set]
  rw [if_neg (by omega), if_neg (by omega)]

theorem echo_request_set_zero (s : ModbusSlave) (a : Nat) (r : Buf) (n : Nat) :
    echo_request { s with frame := s.frame.set 0 a } r n = echo_request s r n := by
  simp only [echo_request, Buf.set]
  congr 1
  funext r i
  simp

theorem handle_read_coils_set_zero (s : ModbusSlave) (a : Nat) (r : Buf) (n : Nat) :
    handle_read_coils { s with frame := s.frame.set 0 a } r n = handle_read_coils s r n := by
  simp only [handle_read_coils, be16_get_set_zero _ _ _ (by decide : 0 < 2),
    be16_get_set_zero _ _ _ (by decide : 0 < 4), Buf.set_other _ 0 a 1 (by decide)]

theorem handle_read_discrete_inputs_set_zero (s : ModbusSlave) (a : Nat) (r : Buf)
    (n : Nat) :
    handle_read_discrete_inputs { s with frame := s.frame.set 0 a } r n =
      handle_read_discrete_inputs s r n := by
  simp only [handle_read_discrete_inputs, be16_get_set_zero _ _ _ (by decide : 0 < 2),
    be16_get_set_zero _ _ _ (by decide : 0 < 4), Buf.set_other _ 0 a 1 (by decide)]

theorem handle_read_holding_registers_set_zero (s : ModbusSlave) (a : Nat) (r : Buf)
    (n : Nat) :
    handle_read_holding_registers { s with frame := s.frame.set 0 a } r n =
      handle_read_holding_registers s r n := by
  simp only [handle_read_holding_registers, be16_get_set_zero _ _ _ (by decide : 0 < 2),
    be16_get_set_zero _ _ _ (by decide : 0 < 4), Buf.set_other _ 0 a 1 (by decide)]

theorem handle_read_input_registers_set_zero (s : ModbusSlave) (a : Nat) (r : Buf)
    (n : Nat) :
    handle_read_input_registers { s with frame := s.frame.set 0 a } r n =
      handle_read_input_registers s r n := by
  simp only [handle_read_input_registers, be16_get_set_zero _ _ _ (by decide : 0 < 2),
    be16_get_set_zero _ _ _ (by decide : 0 < 4), Buf.set_other _ 0 a 1 (by decide)]

theorem handle_write_single_coil_set_zero (s : ModbusSlave) (a : Nat) (r : Buf) (n : Nat) :
    handle_write_single_coil { s with frame := s.frame.set 0 a } r n =
      handle_write_single_coil s r n := by
  simp only [handle_write_single_coil, be16_get_set_zero _ _ _ (by decide : 0 < 2),
    be16_get_set_zero _ _ _ (by decide : 0 < 4), echo_request_set_zero]

theorem handle_write_single_register_set_zero (s : ModbusSlave) (a : Nat) (r : Buf)
    (n : Nat) :
    handle_write_single_register { s with frame := s.frame.set 0 a } r n =
      handle_write_single_register s r n := by
  simp only [handle_write_single_register, be16_get_set_zero _ _ _ (by decide : 0 < 2),
    be16_get_set_zero _ _ _ (by decide : 0 < 4), echo_request_set_zero]

theorem handle_write_multiple_coils_set_zero (s : ModbusSlave) (a : Nat) (r : Buf)
    (n : Nat) :
    handle_write_multiple_coils { s with frame := s.frame.set 0 a } r n =
      handle_write_multiple_coils s r n := by
  simp only [handle_write_multiple_coils, be16_get_set_zero _ _ _ (by decide : 0 < 2),
    be16_get_set_zero _ _ _ (by decide : 0 < 4), echo_request_set_zero,
    Buf.set_other _ 0 a 6 (by decide), Buf.set_zero_offset _ _ _ (by decide : 0 < 7)]

theorem handle_write_multiple_registers_set_zero (s : ModbusSlave) (a : Nat) (r : Buf)
    (n : Nat) :
    handle_write_multiple_registers { s with frame := s.frame.set 0 a } r n =
      handle_write_multiple_registers s r n := by
  simp only [handle_write_multiple_registers, be16_get_set_zero _ _ _ (by decide : 0 < 2),
    be16_get_set_zero _ _ _ (by decide : 0 < 4), echo_request_set_zero,
    Buf.set_other _ 0 a 6 (by decide), Buf.set_zero_offset _ _ _ (by decide : 0 < 7)]

theorem handle_mask_write_register_set_zero (s : ModbusSlave) (a : Nat) (r : Buf)
    (n : Nat) :
    handle_mask_write_register { s with frame := s.frame.set 0 a } r n =
      handle_mask_write_register s r n := by
  simp only [handle_mask_write_register, be16_get_set_zero _ _ _ (by decide : 0 < 2),
    be16_get_set_zero _ _ _ (by decide : 0 < 4), be16_get_set_zero _ _ _ (by decide : 0 < 6),
    echo_request_set_zero]

theorem handle_read_write_multiple_registers_set_zero (s : ModbusSlave) (a : Nat)
    (r : Buf) (n : Nat) :
    handle_read_write_multiple_registers { s with frame := s.frame.set 0 a } r n =
      handle_read_write_multiple_registers s r n := by
  simp only [handle_read_write_multiple_registers,
    be16_get_set_zero _ _ _ (by decide : 0 < 2), be16_get_set_zero _ _ _ (by decide : 0 < 4),
    be16_get_set_zero _ _ _ (by decide : 0 < 6), be16_get_set_zero _ _ _ (by decide : 0 < 8),
    Buf.set_other _ 0 a 1 (by decide), Buf.set_other _ 0 a 10 (by decide),
    Buf.set_zero_offset _ _ _ (by decide : 0 < 11)]

/-- The switch does not depend on the address byte of the request: replacing frame[0]
changes neither the handler selected nor anything it does. -/
theorem dispatch_set_zero (s : ModbusSlave) (a : Nat) (r : Buf) (n : Nat) :
    dispatch { s with frame := s.frame.set 0 a } r n = dispatch s r n := by
  simp only [dispatch, Buf.set_other _ 0 a 1 (by decide), handle_read_coils_set_zero,
    handle_read_discrete_inputs_set_zero, handle_read_holding_registers_set_zero,
    handle_read_input_registers_set_zero, handle_write_single_coil_set_zero,
    handle_write_single_register_set_zero, handle_write_multiple_coils_set_zero,
    handle_write_multiple_registers_set_zero, handle_mask_write_register_set_zero,
    handle_read_write_multiple_registers_set_zero]

/-! ## Broadcast and exception responses -/

/-- C4. Broadcast silence: for a frame accepted by the validator whose address byte is 0,
the callbacks invoked by modbus_slave_poll are exactly those of the switch on the function
code (the handler and its decoded arguments), the transmit callback is never among them
whatever the handler returns, and the switch does not depend on the address byte: with
any other address byte in frame[0] it selects the same handler with the same arguments,
which is also what poll runs for a valid unicast frame before it transmits. -/
theorem C4_broadcast_silence (s : ModbusSlave) (response0 : Buf)
    (havail : s.frame_available = true) (hvalid : modbus_validate_frame s = 0)
    (hb : s.frame 0 = 0) :
    (modbus_slave_poll s response0).2 = (dispatch s (response0.offset 1) 0).calls ∧
    (∀ c ∈ (modbus_slave_poll s response0).2, c.isWrite = false) ∧
    (∀ a, dispatch { s with frame := s.frame.set 0 a } (response0.offset 1) 0 =
      dispatch s (response0.offset 1) 0) ∧
    (∀ t : ModbusSlave, t.frame_available = true → modbus_validate_frame t = 0 →
      t.frame 0 ≠ 0 →
      ∃ d, (modbus_slave_poll t response0).2 =
        (dispatch t (response0.offset 1) 0).calls ++ [Call.write d]) := by
  have hp : (modbus_slave_poll s response0).2 = (dispatch s (response0.offset 1) 0).calls := by
    rw [poll_calls s response0 havail, process_frame_broadcast s response0 hvalid hb]
  refine ⟨hp, ?_, ?_, ?_⟩
  · rw [hp]
    exact dispatch_not_write s _ _
  · intro a
    exact dispatch_set_zero s a _ _
  · intro t ha hv hu
    exact ⟨_, by rw [poll_calls t response0 ha, process_frame_unicast t response0 hv hu]⟩

set_option maxRecDepth 100000 in
/-- C4 at the broadcast request 00 06 00 05 00 2A + CRC: write_single_register is invoked
with addr = 5 and value = 0x2A, and nothing is transmitted. -/
theorem C4_broadcast_silence_witness :
    (modbus_slave_poll (receive_frame (init_slave full_config)
        (with_crc [0x00, 0x06, 0x00, 0x05, 0x00, 0x2A])) (fun _ => 0xEE)).2 =
      [Call.write_single_register 5 0x2A] ∧
    (∀ c ∈ (modbus_slave_poll (receive_frame (init_slave full_config)
        (with_crc [0x00, 0x06, 0x00, 0x05, 0x00, 0x2A])) (fun _ => 0xEE)).2,
      c.isWrite = false) :=
  ⟨by decide,
   (C4_broadcast_silence (receive_frame (init_slave full_config)
      (with_crc [0x00, 0x06, 0x00, 0x05, 0x00, 0x2A])) (fun _ => 0xEE)
      (by rfl) (by decide) (by rfl)).2.1⟩

theorem ModbusExceptionCode.toNat_mod (e : ModbusExceptionCode) : e.toNat % 256 = e.toNat := by
  cases e <;> rfl

theorem crc_lo_eq (v : Nat) : (v &&& 0xFF) % 256 = v % 256 := by
  have h1 : v &&& 0xFF = v % 256 := Nat.and_pow_two_sub_one_eq_mod v 8
  rw [h1]
  omega

theorem crc_hi_eq (v : Nat) (hv : v < 65536) : (v >>> 8) % 256 = v / 256 := by
  have h2 : v >>> 8 = v / 256 := Nat.shiftRight_eq_div_pow v 8
  rw [h2]
  omega

theorem byte_or_mask_lt (b : Nat) (hb : b < 256) : b ||| 0x80 < 256 :=
  Nat.or_lt_two_pow (n := 8) hb (by decide)

/-- The exception response: address, function code with the exception bit, exception
code, CRC low byte, CRC high byte. -/
theorem frame_response_exception (s : ModbusSlave) (response : Buf) (h : HandlerResult)
    (he : h.ex ≠ MODBUS_EX_NONE) (hfc : s.frame 1 < 256) :
    frame_response s response h =
      [s.frame 0, s.frame 1 ||| 0x80, h.ex.toNat,
        modbus_crc16 [s.frame 0, s.frame 1 ||| 0x80, h.ex.toNat] % 256,
        modbus_crc16 [s.frame 0, s.frame 1 ||| 0x80, h.ex.toNat] / 256] := by
  have h5 : List.range 5 = [0, 1, 2, 3, 4] := rfl
  have h3 : List.range 3 = [0, 1, 2] := rfl
  have hm : (s.frame 1 ||| 0x80) % 256 = s.frame 1 ||| 0x80 :=
    Nat.mod_eq_of_lt (byte_or_mask_lt _ hfc)
  simp only [frame_response, he, ne_eq, not_false_eq_true, if_true, MODBUS_FC_EXCEPTION_MASK,
    Buf.bytes, h5, h3, modbus_le16_set, Buf.set, List.map_cons, List.map_nil,
    ModbusExceptionCode.toNat_mod, hm, crc_lo_eq,
    crc_hi_eq _ (modbus_crc16_lt _)]
  simp

theorem filter_isWrite_append (l : List Call) (d : List Nat)
    (h : ∀ c ∈ l, c.isWrite = false) :
    (l ++ [Call.write d]).filter Call.isWrite = [Call.write d] := by
  rw [List.filter_append]
  have : l.filter Call.isWrite = [] := by
    rw [List.filter_eq_nil_iff]
    intro c hc
    simp [h c hc]
  rw [this]
  simp [Call.isWrite]

/-- C5. Exception encoding: for a valid unicast frame for which the switch yields an
exception code e other than MODBUS_EX_NONE (from the default branch, a missing callback,
a bounds check or the user callback), modbus_slave_poll invokes, after the data-access
callbacks of the switch, the transmit callback exactly once, with exactly the 5 bytes
[frame[0], frame[1] | 0x80, e, crc_lo, crc_hi], whatever the callback left in the
response area and whatever the local response array held. -/
theorem C5_exception_encoding (s : ModbusSlave) (response0 : Buf)
    (havail : s.frame_available = true) (hvalid : modbus_validate_frame s = 0)
    (hu : s.frame 0 ≠ 0) (hfc : s.frame 1 < 256)
    (he : (dispatch s (response0.offset 1) 0).ex ≠ MODBUS_EX_NONE) :
    (modbus_slave_poll s response0).2 =
      (dispatch s (response0.offset 1) 0).calls ++
        [Call.write [s.frame 0, s.frame 1 ||| 0x80, (dispatch s (response0.offset 1) 0).ex.toNat,
          modbus_crc16 [s.frame 0, s.frame 1 ||| 0x80,
            (dispatch s (response0.offset 1) 0).ex.toNat] % 256,
          modbus_crc16 [s.frame 0, s.frame 1 ||| 0x80,
            (dispatch s (response0.offset 1) 0).ex.toNat] / 256]] ∧
    (modbus_slave_poll s response0).2.filter Call.isWrite =
        [Call.write [s.frame 0, s.frame 1 ||| 0x80, (dispatch s (response0.offset 1) 0).ex.toNat,
          modbus_crc16 [s.frame 0, s.frame 1 ||| 0x80,
            (dispatch s (response0.offset 1) 0).ex.toNat] % 256,
          modbus_crc16 [s.frame 0, s.frame 1 ||| 0x80,
            (dispatch s (response0.offset 1) 0).ex.toNat] / 256]] := by
  have hp := poll_calls s response0 havail
  rw [process_frame_unicast s response0 hvalid hu,
    frame_response_exception s _ _ he hfc] at hp
  refine ⟨hp, ?_⟩
  rw [hp]
  exact filter_isWrite_append _ _ (dispatch_not_write s _ _)

set_option maxRecDepth 100000 in
/-- C5 at own address 1 and the request 01 42 00 00 00 01 + CRC: the response is
01 C2 01 followed by its CRC (B0 A0). -/
theorem C5_exception_encoding_witness :
    (modbus_slave_poll (receive_frame (init_slave full_config)
        (with_crc [0x01, 0x42, 0x00, 0x00, 0x00, 0x01])) (fun _ => 0xEE)).2 =
      [Call.write [0x01, 0xC2, 0x01, 0xB0, 0xA0]] ∧
    (modbus_slave_poll (receive_frame (init_slave full_config)
        (with_crc [0x01, 0x42, 0x00, 0x00, 0x00, 0x01])) (fun _ => 0xEE)).2.filter
        Call.isWrite =
      [Call.write [0x01, 0x42 ||| 0x80, MODBUS_EX_ILLEGAL_FUNCTION.toNat,
        modbus_crc16 [0x01, 0x42 ||| 0x80, MODBUS_EX_ILLEGAL_FUNCTION.toNat] % 256,
        modbus_crc16 [0x01, 0x42 ||| 0x80, MODBUS_EX_ILLEGAL_FUNCTION.toNat] / 256]] :=
  ⟨by decide,
   (C5_exception_encoding (receive_frame (init_slave full_config)
      (with_crc [0x01, 0x42, 0x00, 0x00, 0x00, 0x01])) (fun _ => 0xEE)
      (by rfl) (by decide) (by decide) (by decide) (by decide)).2⟩

/-! ## The CRC of a response -/

theorem Buf.ofList_bytes (buf : Buf) (n i : Nat) (h : i < n) :
    Buf.ofList (buf.bytes n) i = buf i := by
  simp [Buf.ofList, Buf.bytes, List.getD, h]

theorem Buf.bytes_take (buf : Buf) (n m : Nat) (h : m ≤ n) :
    (buf.bytes n).take m = buf.bytes m := by
  simp [Buf.bytes, ← List.map_take, List.take_range, h]

theorem Buf.ofList_bytes_eq_take (l : List Nat) (m : Nat) (h : m ≤ l.length) :
    (Buf.ofList l).bytes m = l.take m := by
  apply List.ext_getElem
  · simp [h]
  · intro i h1 h2
    simp only [Buf.bytes_length] at h1
    simp [Buf.bytes, Buf.ofList, List.getD]
    rw [List.getElem?_eq_getElem (by omega)]
    simp

/-- Appending the CRC: the bytes handed on are the given ones followed by a
little-endian word that reads back as their CRC. -/
theorem crc_append (buf : Buf) (n : Nat) :
    ((modbus_le16_set buf n (modbus_crc16 (buf.bytes n))).bytes (n + 2)).length = n + 2 ∧
    ((modbus_le16_set buf n (modbus_crc16 (buf.bytes n))).bytes (n + 2)).take n =
      buf.bytes n ∧
    modbus_le16_get
      (Buf.ofList ((modbus_le16_set buf n (modbus_crc16 (buf.bytes n))).bytes (n + 2))) n =
      modbus_crc16 (buf.bytes n) ∧
    (0 < n → Buf.ofList
      ((modbus_le16_set buf n (modbus_crc16 (buf.bytes n))).bytes (n + 2)) 0 = buf 0) := by
  refine ⟨Buf.bytes_length _ _, ?_, ?_, ?_⟩
  · rw [Buf.bytes_take _ _ _ (by omega)]
    apply Buf.bytes_congr
    intro i hi
    simp only [modbus_le16_set]
    rw [Buf.set_other _ _ _ _ (by omega), Buf.set_other _ _ _ _ (by omega)]
  · have h := modbus_le16_get_set buf n _ (modbus_crc16_lt (buf.bytes n))
    unfold modbus_le16_get at h ⊢
    rw [Buf.ofList_bytes _ _ _ (by omega), Buf.ofList_bytes _ _ _ (by omega)]
    exact h
  · intro hn
    rw [Buf.ofList_bytes _ _ _ (by omega)]
    simp only [modbus_le16_set]
    rw [Buf.set_other _ _ _ _ (by omega), Buf.set_other _ _ _ _ (by omega)]

/-! ### The length a handler reports -/

theorem handle_read_coils_len (s : ModbusSlave) (r : Buf) :
    (handle_read_coils s r 0).response_len ≤ 257 ∧
    ((handle_read_coils s r 0).ex = MODBUS_EX_NONE → 2 ≤ (handle_read_coils s r 0).response_len) := by
  unfold handle_read_coils
  cases s.config.read_coils <;> simp only [] <;>
    first
    | (split_ifs <;> simp <;> first | assumption | omega)
    | simp

theorem handle_read_discrete_inputs_len (s : ModbusSlave) (r : Buf) :
    (handle_read_discrete_inputs s r 0).response_len ≤ 257 ∧
    ((handle_read_discrete_inputs s r 0).ex = MODBUS_EX_NONE → 2 ≤ (handle_read_discrete_inputs s r 0).response_len) := by
  unfold handle_read_discrete_inputs
  cases s.config.read_discrete_inputs <;> simp only [] <;>
    first
    | (split_ifs <;> simp <;> first | assumption | omega)
    | simp

theorem handle_read_holding_registers_len (s : ModbusSlave) (r : Buf) :
    (handle_read_holding_registers s r 0).response_len ≤ 257 ∧
    ((handle_read_holding_registers s r 0).ex = MODBUS_EX_NONE → 2 ≤ (handle_read_holding_registers s r 0).response_len) := by
  unfold handle_read_holding_registers
  cases s.config.read_holding_registers <;> simp only [] <;>
    first
    | (split_ifs <;> simp <;> first | assumption | omega)
    | simp

theorem handle_read_input_registers_len (s : ModbusSlave) (r : Buf) :
    (handle_read_input_registers s r 0).response_len ≤ 257 ∧
    ((handle_read_input_registers s r 0).ex = MODBUS_EX_NONE → 2 ≤ (handle_read_input_registers s r 0).response_len) := by
  unfold handle_read_input_registers
  cases s.config.read_input_registers <;> simp only [] <;>
    first
    | (split_ifs <;> simp <;> first | assumption | omega)
    | simp

theorem handle_write_single_coil_len (s : ModbusSlave) (r : Buf) :
    (handle_write_single_coil s r 0).response_len ≤ 257 ∧
    ((handle_write_single_coil s r 0).ex = MODBUS_EX_NONE → 2 ≤ (handle_write_single_coil s r 0).response_len) := by
  unfold handle_write_single_coil
  cases s.config.write_single_coil <;> simp only [] <;>
    first
    | (split_ifs <;> simp <;> assumption)
    | simp

theorem handle_write_single_register_len (s : ModbusSlave) (r : Buf) :
    (handle_write_single_register s r 0).response_len ≤ 257 ∧
    ((handle_write_single_register s r 0).ex = MODBUS_EX_NONE → 2 ≤ (handle_write_single_register s r 0).response_len) := by
  unfold handle_write_single_register
  cases s.config.write_single_register <;> simp only [] <;>
    first
    | (split_ifs <;> simp <;> assumption)
    | simp

theorem handle_write_multiple_coils_len (s : ModbusSlave) (r : Buf) :
    (handle_write_multiple_coils s r 0).response_len ≤ 257 ∧
    ((handle_write_multiple_coils s r 0).ex = MODBUS_EX_NONE → 2 ≤ (handle_write_multiple_coils s r 0).response_len) := by
  unfold handle_write_multiple_coils
  cases s.config.write_multiple_coils <;> simp only [] <;>
    first
    | (split_ifs <;> simp <;> assumption)
    | simp

theorem handle_write_multiple_registers_len (s : ModbusSlave) (r : Buf) :
    (handle_write_multiple_registers s r 0).response_len ≤ 257 ∧
    ((handle_write_multiple_registers s r 0).ex = MODBUS_EX_NONE → 2 ≤ (handle_write_multiple_registers s r 0).response_len) := by
  unfold handle_write_multiple_registers
  cases s.config.write_multiple_registers <;> simp only [] <;>
    first
    | (split_ifs <;> simp <;> assumption)
    | simp

theorem handle_mask_write_register_len (s : ModbusSlave) (r : Buf) :
    (handle_mask_write_register s r 0).response_len ≤ 257 ∧
    ((handle_mask_write_register s r 0).ex = MODBUS_EX_NONE → 2 ≤ (handle_mask_write_register s r 0).response_len) := by
  unfold handle_mask_write_register
  cases s.config.mask_write_register <;> simp only [] <;>
    first
    | (split_ifs <;> simp <;> assumption)
    | simp

theorem handle_read_write_multiple_registers_len (s : ModbusSlave) (r : Buf) :
    (handle_read_write_multiple_registers s r 0).response_len ≤ 257 ∧
    ((handle_read_write_multiple_registers s r 0).ex = MODBUS_EX_NONE → 2 ≤ (handle_read_write_multiple_registers s r 0).response_len) := by
  unfold handle_read_write_multiple_registers
  cases s.config.read_write_multiple_registers <;> simp only [] <;>
    first
    | (split_ifs <;> simp <;> first | assumption | omega)
    | simp

/-- With response_len initially 0, the switch reports a PDU length of at most 257
(no 16-bit wrap-around), and of at least 2 when it reports success. -/
theorem dispatch_len (s : ModbusSlave) (r : Buf) :
    (dispatch s r 0).response_len ≤ 257 ∧
    ((dispatch s r 0).ex = MODBUS_EX_NONE → 2 ≤ (dispatch s r 0).response_len) := by
  apply dispatch_cases
    (fun h => h.response_len ≤ 257 ∧ (h.ex = MODBUS_EX_NONE → 2 ≤ h.response_len))
  · exact handle_read_coils_len s r
  · exact handle_read_discrete_inputs_len s r
  · exact handle_read_holding_registers_len s r
  · exact handle_read_input_registers_len s r
  · exact handle_write_single_coil_len s r
  · exact handle_write_single_register_len s r
  · exact handle_write_multiple_coils_len s r
  · exact handle_write_multiple_registers_len s r
  · exact handle_mask_write_register_len s r
  · exact handle_read_write_multiple_registers_len s r
  · simp

/-- The assembled response ends in the CRC of what precedes it, is at least 5 bytes
long and starts with the address byte of the request. -/
theorem frame_response_crc (s : ModbusSlave) (response : Buf) (h : HandlerResult)
    (hl : h.response_len ≤ 257) (h2 : h.ex = MODBUS_EX_NONE → 2 ≤ h.response_len) :
    5 ≤ (frame_response s response h).length ∧
    modbus_le16_get (Buf.ofList (frame_response s response h))
        ((frame_response s response h).length - 2) =
      modbus_crc16 ((frame_response s response h).take
        ((frame_response s response h).length - 2)) ∧
    Buf.ofList (frame_response s response h) 0 = s.frame 0 := by
  by_cases he : h.ex = MODBUS_EX_NONE
  · have hn : (h.response_len + 1) % 65536 = h.response_len + 1 := by omega
    have hn2 : (h.response_len + 1 + 2) % 65536 = h.response_len + 1 + 2 := by omega
    have key : frame_response s response h =
        (modbus_le16_set (response.set 0 (s.frame 0)) (h.response_len + 1)
          (modbus_crc16 ((response.set 0 (s.frame 0)).bytes (h.response_len + 1)))).bytes
          (h.response_len + 1 + 2) := by
      simp [frame_response, he, hn, hn2]
    obtain ⟨c1, c2, c3, c4⟩ := crc_append (response.set 0 (s.frame 0)) (h.response_len + 1)
    have := h2 he
    rw [key, c1, show h.response_len + 1 + 2 - 2 = h.response_len + 1 by omega, c2, c3,
      c4 (by omega)]
    exact ⟨by omega, rfl, Buf.set_same _ _ _⟩
  · have key : frame_response s response h =
        (modbus_le16_set (((response.set 0 (s.frame 0)).set 1
            ((s.frame 1 ||| MODBUS_FC_EXCEPTION_MASK) % 256)).set 2 (h.ex.toNat % 256)) 3
          (modbus_crc16 ((((response.set 0 (s.frame 0)).set 1
            ((s.frame 1 ||| MODBUS_FC_EXCEPTION_MASK) % 256)).set 2
              (h.ex.toNat % 256)).bytes 3))).bytes (3 + 2) := by
      simp [frame_response, he]
    obtain ⟨c1, c2, c3, c4⟩ := crc_append (((response.set 0 (s.frame 0)).set 1
            ((s.frame 1 ||| MODBUS_FC_EXCEPTION_MASK) % 256)).set 2 (h.ex.toNat % 256)) 3
    rw [key, c1, show 3 + 2 - 2 = 3 by rfl, c2, c3, c4 (by omega)]
    refine ⟨by omega, rfl, ?_⟩
    rw [Buf.set_other _ _ _ _ (by omega), Buf.set_other _ _ _ _ (by omega), Buf.set_same]

/-- Whatever poll hands to the transmit callback is an assembled response to a valid
unicast frame. -/
theorem poll_write_mem (s : ModbusSlave) (response0 : Buf) (r : List Nat)
    (hr : Call.write r ∈ (modbus_slave_poll s response0).2) :
    s.frame_available = true ∧ modbus_validate_frame s = 0 ∧ s.frame 0 ≠ 0 ∧
    r = frame_response s
      (response0.splice 1 (dispatch s (response0.offset 1) 0).response)
      (dispatch s (response0.offset 1) 0) := by
  have ha : s.frame_available = true := by
    by_contra hna
    simp [modbus_slave_poll, hna] at hr
  rw [poll_calls s response0 ha] at hr
  have hv : modbus_validate_frame s = 0 := by
    by_contra hnv
    rw [process_frame_invalid s response0 hnv] at hr
    simp at hr
  have hu : s.frame 0 ≠ 0 := by
    intro hb
    rw [process_frame_broadcast s response0 hv hb] at hr
    have := dispatch_not_write s _ _ _ hr
    simp [Call.isWrite] at this
  rw [process_frame_unicast s response0 hv hu, List.mem_append] at hr
  refine ⟨ha, hv, hu, ?_⟩
  rcases hr with hr | hr
  · have := dispatch_not_write s _ _ _ hr
    simp [Call.isWrite] at this
  · simpa using hr

/-- C6. CRC round-trip: every byte sequence r of length L that modbus_slave_poll hands
to the transmit callback satisfies modbus_le16_get(r[L-2..L)) = modbus_crc16(r[0..L-2));
consequently the response, latched as a frame of length L, passes the CRC step of
modbus_validate_frame, and with it the whole validator for the slave's own address. -/
theorem C6_crc_round_trip (s : ModbusSlave) (response0 : Buf) (r : List Nat)
    (hr : Call.write r ∈ (modbus_slave_poll s response0).2) :
    modbus_le16_get (Buf.ofList r) (r.length - 2) = modbus_crc16 (r.take (r.length - 2)) ∧
    modbus_le16_get (Buf.ofList r) (r.length - 2) =
      modbus_crc16 ((Buf.ofList r).bytes (r.length - 2)) ∧
    modbus_validate_frame { s with frame := Buf.ofList r, frame_len := r.length } = 0 := by
  obtain ⟨_, hv, hu, hreq⟩ := poll_write_mem s response0 r hr
  obtain ⟨hl, h2⟩ := dispatch_len s (response0.offset 1)
  obtain ⟨c1, c2, c3⟩ := frame_response_crc s
    (response0.splice 1 (dispatch s (response0.offset 1) 0).response)
    (dispatch s (response0.offset 1) 0) hl h2
  rw [← hreq] at c1 c2 c3
  have c4 : modbus_le16_get (Buf.ofList r) (r.length - 2) =
      modbus_crc16 ((Buf.ofList r).bytes (r.length - 2)) := by
    rw [Buf.ofList_bytes_eq_take r _ (by omega)]
    exact c2
  refine ⟨c2, c4, ?_⟩
  rw [validate_frame_eq_zero_iff]
  obtain ⟨_, haddr, _⟩ := (validate_frame_eq_zero_iff s).mp hv
  refine ⟨by simp only []; omega, ?_, c4⟩
  right
  simp only [c3]
  rcases haddr with h0 | h0
  · exact absurd h0 hu
  · exact h0

set_option maxRecDepth 100000 in
/-- C6 at the read-holding-registers request of the integration test: the transmitted
response 01 03 04 01 F4 01 F5 7B EA ends in the CRC of its first seven bytes. -/
theorem C6_crc_round_trip_witness :
    Call.write [0x01, 0x03, 0x04, 0x01, 0xF4, 0x01, 0xF5, 0x7B, 0xEA] ∈
      (modbus_slave_poll (receive_frame (init_slave test_config)
        [0x01, 0x03, 0x00, 0x00, 0x00, 0x02, 0xC4, 0x0B]) (fun _ => 0xEE)).2 ∧
    modbus_le16_get (Buf.ofList [0x01, 0x03, 0x04, 0x01, 0xF4, 0x01, 0xF5, 0x7B, 0xEA]) (9 - 2) =
      modbus_crc16 ([0x01, 0x03, 0x04, 0x01, 0xF4, 0x01, 0xF5, 0x7B, 0xEA].take (9 - 2)) :=
  ⟨by decide,
   (C6_crc_round_trip (receive_frame (init_slave test_config)
        [0x01, 0x03, 0x00, 0x00, 0x00, 0x02, 0xC4, 0x0B]) (fun _ => 0xEE)
      [0x01, 0x03, 0x04, 0x01, 0xF4, 0x01, 0xF5, 0x7B, 0xEA] (by decide)).1⟩

/-! ## Unsupported function codes, missing callbacks, bounds -/

theorem dispatch_default (s : ModbusSlave) (r : Buf) (n : Nat)
    (hfc : s.frame 1 ≠ 0x01 ∧ s.frame 1 ≠ 0x02 ∧ s.frame 1 ≠ 0x03 ∧ s.frame 1 ≠ 0x04 ∧
      s.frame 1 ≠ 0x05 ∧ s.frame 1 ≠ 0x06 ∧ s.frame 1 ≠ 0x0F ∧ s.frame 1 ≠ 0x10 ∧
      s.frame 1 ≠ 0x16 ∧ s.frame 1 ≠ 0x17) :
    dispatch s r n = ⟨MODBUS_EX_ILLEGAL_FUNCTION, r, n, []⟩ := by
  obtain ⟨h1, h2, h3, h4, h5, h6, h7, h8, h9, h10⟩ := hfc
  simp only [dispatch, MODBUS_FC_READ_COILS, MODBUS_FC_READ_DISCRETE_INPUTS,
    MODBUS_FC_READ_HOLDING_REGISTERS, MODBUS_FC_READ_INPUT_REGISTERS,
    MODBUS_FC_WRITE_SINGLE_COIL, MODBUS_FC_WRITE_SINGLE_REGISTER,
    MODBUS_FC_WRITE_MULTIPLE_COILS, MODBUS_FC_WRITE_MULTIPLE_REGISTERS,
    MODBUS_FC_MASK_WRITE_REGISTER, MODBUS_FC_READ_WRITE_MULTIPLE_REGS]
  rw [if_neg h1, if_neg h2, if_neg h3, if_neg h4, if_neg h5, if_neg h6, if_neg h7,
    if_neg h8, if_neg h9, if_neg h10]

/-- C7. For every frame whose function code is not one of 0x01, 0x02, 0x03, 0x04, 0x05,
0x06, 0x0F, 0x10, 0x16, 0x17, the switch yields MODBUS_EX_ILLEGAL_FUNCTION (0x01) without
invoking any callback and without touching the response, whatever the configuration;
hence every callback modbus_slave_poll invokes for such a frame is the transmit
callback, never a user data-access callback. -/
theorem C7_illegal_function (s : ModbusSlave) (response0 : Buf)
    (hfc : s.frame 1 ≠ 0x01 ∧ s.frame 1 ≠ 0x02 ∧ s.frame 1 ≠ 0x03 ∧ s.frame 1 ≠ 0x04 ∧
      s.frame 1 ≠ 0x05 ∧ s.frame 1 ≠ 0x06 ∧ s.frame 1 ≠ 0x0F ∧ s.frame 1 ≠ 0x10 ∧
      s.frame 1 ≠ 0x16 ∧ s.frame 1 ≠ 0x17) :
    (∀ r n, dispatch s r n = ⟨MODBUS_EX_ILLEGAL_FUNCTION, r, n, []⟩) ∧
    MODBUS_EX_ILLEGAL_FUNCTION.toNat = 0x01 ∧
    (∀ c ∈ (modbus_slave_poll s response0).2, c.isWrite = true) := by
  refine ⟨fun r n => dispatch_default s r n hfc, rfl, ?_⟩
  intro c hc
  by_cases ha : s.frame_available = true
  · rw [poll_calls s response0 ha] at hc
    by_cases hv : modbus_validate_frame s = 0
    · by_cases hb : s.frame 0 = 0
      · rw [process_frame_broadcast s response0 hv hb, dispatch_default s _ _ hfc] at hc
        simp at hc
      · rw [process_frame_unicast s response0 hv hb, dispatch_default s _ _ hfc] at hc
        simp only [List.nil_append, List.mem_singleton] at hc
        rw [hc]
        rfl
    · rw [process_frame_invalid s response0 hv] at hc
      simp at hc
  · simp [modbus_slave_poll, ha] at hc

set_option maxRecDepth 100000 in
/-- C7 at the enum-declared but unsupported codes 0x07 and 0x08, with all ten callbacks
configured: the only callback invoked is the transmit of the exception response. -/
theorem C7_illegal_function_witness :
    ((modbus_slave_poll (receive_frame (init_slave full_config)
        (with_crc [0x01, 0x07, 0x00, 0x00, 0x00, 0x01])) (fun _ => 0xEE)).2 =
      [Call.write [0x01, 0x87, 0x01, 0x82, 0x30]] ∧
     ∀ c ∈ (modbus_slave_poll (receive_frame (init_slave full_config)
        (with_crc [0x01, 0x07, 0x00, 0x00, 0x00, 0x01])) (fun _ => 0xEE)).2,
       c.isWrite = true) ∧
    ((modbus_slave_poll (receive_frame (init_slave full_config)
        (with_crc [0x01, 0x08, 0x00, 0x00, 0x00, 0x01])) (fun _ => 0xEE)).2 =
      [Call.write [0x01, 0x88, 0x01, 0x87, 0xC0]] ∧
     ∀ c ∈ (modbus_slave_poll (receive_frame (init_slave full_config)
        (with_crc [0x01, 0x08, 0x00, 0x00, 0x00, 0x01])) (fun _ => 0xEE)).2,
       c.isWrite = true) :=
  ⟨⟨by decide, (C7_illegal_function (receive_frame (init_slave full_config)
        (with_crc [0x01, 0x07, 0x00, 0x00, 0x00, 0x01])) (fun _ => 0xEE) (by decide)).2.2⟩,
   ⟨by decide, (C7_illegal_function (receive_frame (init_slave full_config)
        (with_crc [0x01, 0x08, 0x00, 0x00, 0x00, 0x01])) (fun _ => 0xEE) (by decide)).2.2⟩⟩

/-- C8. Missing handler: for each of the ten handle_* functions, if the corresponding user
callback of the configuration is absent, the handler returns MODBUS_EX_ILLEGAL_FUNCTION
for every frame content (also when the request parameters violate the bounds), invokes
nothing, and leaves the response bytes and *response_len unchanged. -/
theorem C8_missing_handler (s : ModbusSlave) (response : Buf) (response_len : Nat) :
    (s.config.read_coils = none →
      handle_read_coils s response response_len =
        ⟨MODBUS_EX_ILLEGAL_FUNCTION, response, response_len, []⟩) ∧
    (s.config.read_discrete_inputs = none →
      handle_read_discrete_inputs s response response_len =
        ⟨MODBUS_EX_ILLEGAL_FUNCTION, response, response_len, []⟩) ∧
    (s.config.read_holding_registers = none →
      handle_read_holding_registers s response response_len =
        ⟨MODBUS_EX_ILLEGAL_FUNCTION, response, response_len, []⟩) ∧
    (s.config.read_input_registers = none →
      handle_read_input_registers s response response_len =
        ⟨MODBUS_EX_ILLEGAL_FUNCTION, response, response_len, []⟩) ∧
    (s.config.write_single_coil = none →
      handle_write_single_coil s response response_len =
        ⟨MODBUS_EX_ILLEGAL_FUNCTION, response, response_len, []⟩) ∧
    (s.config.write_single_register = none →
      handle_write_single_register s response response_len =
        ⟨MODBUS_EX_ILLEGAL_FUNCTION, response, response_len, []⟩) ∧
    (s.config.write_multiple_coils = none →
      handle_write_multiple_coils s response response_len =
        ⟨MODBUS_EX_ILLEGAL_FUNCTION, response, response_len, []⟩) ∧
    (s.config.write_multiple_registers = none →
      handle_write_multiple_registers s response response_len =
        ⟨MODBUS_EX_ILLEGAL_FUNCTION, response, response_len, []⟩) ∧
    (s.config.mask_write_register = none →
      handle_mask_write_register s response response_len =
        ⟨MODBUS_EX_ILLEGAL_FUNCTION, response, response_len, []⟩) ∧
    (s.config.read_write_multiple_registers = none →
      handle_read_write_multiple_registers s response response_len =
        ⟨MODBUS_EX_ILLEGAL_FUNCTION, response, response_len, []⟩) := by
  refine ⟨?_, ?_, ?_, ?_, ?_, ?_, ?_, ?_, ?_, ?_⟩ <;> intro h
  · simp only [handle_read_coils, h]
  · simp only [handle_read_discrete_inputs, h]
  · simp only [handle_read_holding_registers, h]
  · simp only [handle_read_input_registers, h]
  · simp only [handle_write_single_coil, h]
  · simp only [handle_write_single_register, h]
  · simp only [handle_write_multiple_coils, h]
  · simp only [handle_write_multiple_registers, h]
  · simp only [handle_mask_write_register, h]
  · simp only [handle_read_write_multiple_registers, h]

/-- C8 at a request with quantity 0 and no callback configured: each of the ten
handlers answers MODBUS_EX_ILLEGAL_FUNCTION, not MODBUS_EX_ILLEGAL_DATA_VALUE, and
reports the length it was given. -/
theorem C8_missing_handler_witness :
    modbus_be16_get quantity_zero_slave.frame 4 = 0 ∧
    ((handle_read_coils quantity_zero_slave (fun _ => 0xEE) 7).ex = MODBUS_EX_ILLEGAL_FUNCTION ∧
     (handle_read_coils quantity_zero_slave (fun _ => 0xEE) 7).response_len = 7) ∧
    ((handle_read_discrete_inputs quantity_zero_slave (fun _ => 0xEE) 7).ex = MODBUS_EX_ILLEGAL_FUNCTION ∧
     (handle_read_discrete_inputs quantity_zero_slave (fun _ => 0xEE) 7).response_len = 7) ∧
    ((handle_read_holding_registers quantity_zero_slave (fun _ => 0xEE) 7).ex = MODBUS_EX_ILLEGAL_FUNCTION ∧
     (handle_read_holding_registers quantity_zero_slave (fun _ => 0xEE) 7).response_len = 7) ∧
    ((handle_read_input_registers quantity_zero_slave (fun _ => 0xEE) 7).ex = MODBUS_EX_ILLEGAL_FUNCTION ∧
     (handle_read_input_registers quantity_zero_slave (fun _ => 0xEE) 7).response_len = 7) ∧
    ((handle_write_single_coil quantity_zero_slave (fun _ => 0xEE) 7).ex = MODBUS_EX_ILLEGAL_FUNCTION ∧
     (handle_write_single_coil quantity_zero_slave (fun _ => 0xEE) 7).response_len = 7) ∧
    ((handle_write_single_register quantity_zero_slave (fun _ => 0xEE) 7).ex = MODBUS_EX_ILLEGAL_FUNCTION ∧
     (handle_write_single_register quantity_zero_slave (fun _ => 0xEE) 7).response_len = 7) ∧
    ((handle_write_multiple_coils quantity_zero_slave (fun _ => 0xEE) 7).ex = MODBUS_EX_ILLEGAL_FUNCTION ∧
     (handle_write_multiple_coils quantity_zero_slave (fun _ => 0xEE) 7).response_len = 7) ∧
    ((handle_write_multiple_registers quantity_zero_slave (fun _ => 0xEE) 7).ex = MODBUS_EX_ILLEGAL_FUNCTION ∧
     (handle_write_multiple_registers quantity_zero_slave (fun _ => 0xEE) 7).response_len = 7) ∧
    ((handle_mask_write_register quantity_zero_slave (fun _ => 0xEE) 7).ex = MODBUS_EX_ILLEGAL_FUNCTION ∧
     (handle_mask_write_register quantity_zero_slave (fun _ => 0xEE) 7).response_len = 7) ∧
    ((handle_read_write_multiple_registers quantity_zero_slave (fun _ => 0xEE) 7).ex = MODBUS_EX_ILLEGAL_FUNCTION ∧
     (handle_read_write_multiple_registers quantity_zero_slave (fun _ => 0xEE) 7).response_len = 7) :=
  ⟨by decide,
   by rw [(C8_missing_handler quantity_zero_slave (fun _ => 0xEE) 7).1 rfl]; exact ⟨rfl, rfl⟩,
   by rw [(C8_missing_handler quantity_zero_slave (fun _ => 0xEE) 7).2.1 rfl]; exact ⟨rfl, rfl⟩,
   by rw [(C8_missing_handler quantity_zero_slave (fun _ => 0xEE) 7).2.2.1 rfl]; exact ⟨rfl, rfl⟩,
   by rw [(C8_missing_handler quantity_zero_slave (fun _ => 0xEE) 7).2.2.2.1 rfl]; exact ⟨rfl, rfl⟩,
   by rw [(C8_missing_handler quantity_zero_slave (fun _ => 0xEE) 7).2.2.2.2.1 rfl]; exact ⟨rfl, rfl⟩,
   by rw [(C8_missing_handler quantity_zero_slave (fun _ => 0xEE) 7).2.2.2.2.2.1 rfl]; exact ⟨rfl, rfl⟩,
   by rw [(C8_missing_handler quantity_zero_slave (fun _ => 0xEE) 7).2.2.2.2.2.2.1 rfl]; exact ⟨rfl, rfl⟩,
   by rw [(C8_missing_handler quantity_zero_slave (fun _ => 0xEE) 7).2.2.2.2.2.2.2.1 rfl]; exact ⟨rfl, rfl⟩,
   by rw [(C8_missing_handler quantity_zero_slave (fun _ => 0xEE) 7).2.2.2.2.2.2.2.2.1 rfl]; exact ⟨rfl, rfl⟩,
   by rw [(C8_missing_handler quantity_zero_slave (fun _ => 0xEE) 7).2.2.2.2.2.2.2.2.2 rfl]; exact ⟨rfl, rfl⟩⟩

/-- C9. Bounds before callback: for each bounds-checked handler (0x01, 0x02, 0x03, 0x04,
0x05, 0x0F, 0x10, 0x17) with its callback configured, whenever a quantity, value or
byte-count bound is violated the handler returns MODBUS_EX_ILLEGAL_DATA_VALUE, the user
callback is not invoked at all, and the response and *response_len are untouched. -/
theorem C9_bounds_before_callback (s : ModbusSlave) (response : Buf) (response_len : Nat) :
    (s.config.read_coils ≠ none →
      (modbus_be16_get s.frame 4 < 1 ∨ modbus_be16_get s.frame 4 > 2000) →
      handle_read_coils s response response_len =
        ⟨MODBUS_EX_ILLEGAL_DATA_VALUE, response, response_len, []⟩) ∧
    (s.config.read_discrete_inputs ≠ none →
      (modbus_be16_get s.frame 4 < 1 ∨ modbus_be16_get s.frame 4 > 2000) →
      handle_read_discrete_inputs s response response_len =
        ⟨MODBUS_EX_ILLEGAL_DATA_VALUE, response, response_len, []⟩) ∧
    (s.config.read_holding_registers ≠ none →
      (modbus_be16_get s.frame 4 < 1 ∨ modbus_be16_get s.frame 4 > 125) →
      handle_read_holding_registers s response response_len =
        ⟨MODBUS_EX_ILLEGAL_DATA_VALUE, response, response_len, []⟩) ∧
    (s.config.read_input_registers ≠ none →
      (modbus_be16_get s.frame 4 < 1 ∨ modbus_be16_get s.frame 4 > 125) →
      handle_read_input_registers s response response_len =
        ⟨MODBUS_EX_ILLEGAL_DATA_VALUE, response, response_len, []⟩) ∧
    (s.config.write_single_coil ≠ none →
      (modbus_be16_get s.frame 4 ≠ 0x0000 ∧ modbus_be16_get s.frame 4 ≠ 0xFF00) →
      handle_write_single_coil s response response_len =
        ⟨MODBUS_EX_ILLEGAL_DATA_VALUE, response, response_len, []⟩) ∧
    (s.config.write_multiple_coils ≠ none →
      (modbus_be16_get s.frame 4 < 1 ∨ modbus_be16_get s.frame 4 > 1968 ∨
        s.frame 6 ≠ (modbus_be16_get s.frame 4 + 7) / 8) →
      handle_write_multiple_coils s response response_len =
        ⟨MODBUS_EX_ILLEGAL_DATA_VALUE, response, response_len, []⟩) ∧
    (s.config.write_multiple_registers ≠ none →
      (modbus_be16_get s.frame 4 < 1 ∨ modbus_be16_get s.frame 4 > 123 ∨
        s.frame 6 ≠ modbus_be16_get s.frame 4 * 2) →
      handle_write_multiple_registers s response response_len =
        ⟨MODBUS_EX_ILLEGAL_DATA_VALUE, response, response_len, []⟩) ∧
    (s.config.read_write_multiple_registers ≠ none →
      (modbus_be16_get s.frame 4 < 1 ∨ modbus_be16_get s.frame 4 > 125 ∨
        modbus_be16_get s.frame 8 < 1 ∨ modbus_be16_get s.frame 8 > 121 ∨
        s.frame 10 ≠ modbus_be16_get s.frame 8 * 2) →
      handle_read_write_multiple_registers s response response_len =
        ⟨MODBUS_EX_ILLEGAL_DATA_VALUE, response, response_len, []⟩) := by
  refine ⟨?_, ?_, ?_, ?_, ?_, ?_, ?_, ?_⟩ <;> intro hcb hbad
  · cases hc : s.config.read_coils with
    | none => exact absurd hc hcb
    | some cb => simp only [handle_read_coils, hc, hbad, if_true]
  · cases hc : s.config.read_discrete_inputs with
    | none => exact absurd hc hcb
    | some cb => simp only [handle_read_discrete_inputs, hc, hbad, if_true]
  · cases hc : s.config.read_holding_registers with
    | none => exact absurd hc hcb
    | some cb => simp only [handle_read_holding_registers, hc, hbad, if_true]
  · cases hc : s.config.read_input_registers with
    | none => exact absurd hc hcb
    | some cb => simp only [handle_read_input_registers, hc, hbad, if_true]
  · cases hc : s.config.write_single_coil with
    | none => exact absurd hc hcb
    | some cb =>
      simp only [handle_write_single_coil, hc]
      rw [if_pos hbad]
  · cases hc : s.config.write_multiple_coils with
    | none => exact absurd hc hcb
    | some cb =>
      simp only [handle_write_multiple_coils, hc]
      by_cases hq : modbus_be16_get s.frame 4 < 1 ∨ modbus_be16_get s.frame 4 > 1968
      · rw [if_pos hq]
      · have hb : s.frame 6 ≠ (modbus_be16_get s.frame 4 + 7) / 8 := by
          rcases hbad with h1 | h1 | h1
          · exact absurd (Or.inl h1) hq
          · exact absurd (Or.inr h1) hq
          · exact h1
        rw [if_neg hq, if_pos hb]
  · cases hc : s.config.write_multiple_registers with
    | none => exact absurd hc hcb
    | some cb =>
      simp only [handle_write_multiple_registers, hc]
      by_cases hq : modbus_be16_get s.frame 4 < 1 ∨ modbus_be16_get s.frame 4 > 123
      · rw [if_pos hq]
      · have hb : s.frame 6 ≠ modbus_be16_get s.frame 4 * 2 := by
          rcases hbad with h1 | h1 | h1
          · exact absurd (Or.inl h1) hq
          · exact absurd (Or.inr h1) hq
          · exact h1
        rw [if_neg hq, if_pos hb]
  · cases hc : s.config.read_write_multiple_registers with
    | none => exact absurd hc hcb
    | some cb =>
      simp only [handle_read_write_multiple_registers, hc]
      by_cases hq : modbus_be16_get s.frame 4 < 1 ∨ modbus_be16_get s.frame 4 > 125
      · rw [if_pos hq]
      · rw [if_neg hq]
        by_cases hw : modbus_be16_get s.frame 8 < 1 ∨ modbus_be16_get s.frame 8 > 121
        · rw [if_pos hw]
        · have hb : s.frame 10 ≠ modbus_be16_get s.frame 8 * 2 := by
            rcases hbad with h1 | h1 | h1 | h1 | h1
            · exact absurd (Or.inl h1) hq
            · exact absurd (Or.inr h1) hq
            · exact absurd (Or.inl h1) hw
            · exact absurd (Or.inr h1) hw
            · exact h1
          rw [if_neg hw, if_pos hb]

/-- C9 at the read-coils request with quantity 2001 and at the write-multiple-coils
request 01 0F 00 00 00 10 03 12 34 56 (quantity 16 needs 2 bytes, byte-count is 3), with
all callbacks configured: MODBUS_EX_ILLEGAL_DATA_VALUE and no callback invoked. -/
theorem C9_bounds_before_callback_witness :
    ((handle_read_coils (latched full_config [0x01, 0x01, 0x00, 0x00, 0x07, 0xD1])
        (fun _ => 0xEE) 0).ex = MODBUS_EX_ILLEGAL_DATA_VALUE ∧
     (handle_read_coils (latched full_config [0x01, 0x01, 0x00, 0x00, 0x07, 0xD1])
        (fun _ => 0xEE) 0).calls = []) ∧
    ((handle_write_multiple_coils
        (latched full_config [0x01, 0x0F, 0x00, 0x00, 0x00, 0x10, 0x03, 0x12, 0x34, 0x56])
        (fun _ => 0xEE) 0).ex = MODBUS_EX_ILLEGAL_DATA_VALUE ∧
     (handle_write_multiple_coils
        (latched full_config [0x01, 0x0F, 0x00, 0x00, 0x00, 0x10, 0x03, 0x12, 0x34, 0x56])
        (fun _ => 0xEE) 0).calls = []) :=
  ⟨by rw [(C9_bounds_before_callback
        (latched full_config [0x01, 0x01, 0x00, 0x00, 0x07, 0xD1]) (fun _ => 0xEE) 0).1
        (by simp [latched, init_slave, full_config]) (by decide)]
      exact ⟨rfl, rfl⟩,
   by rw [(C9_bounds_before_callback
        (latched full_config [0x01, 0x0F, 0x00, 0x00, 0x00, 0x10, 0x03, 0x12, 0x34, 0x56])
        (fun _ => 0xEE) 0).2.2.2.2.2.1
        (by simp [latched, init_slave, full_config]) (by decide)]
      exact ⟨rfl, rfl⟩⟩

/-! ## Read bounds -/

theorem handle_read_coils_bounds (s : ModbusSlave) (response : Buf) (response_len : Nat)
    (cb : ModbusReadCb) (hc : s.config.read_coils = some cb) :
    (((handle_read_coils s response response_len).ex = MODBUS_EX_ILLEGAL_DATA_VALUE ∧
        (handle_read_coils s response response_len).calls = []) ↔
      (modbus_be16_get s.frame 4 = 0 ∨ modbus_be16_get s.frame 4 > 2000)) ∧
    (¬ (modbus_be16_get s.frame 4 = 0 ∨ modbus_be16_get s.frame 4 > 2000) →
      (handle_read_coils s response response_len).calls =
        [Call.read_coils (modbus_be16_get s.frame 2) (modbus_be16_get s.frame 4) 2] ∧
      (handle_read_coils s response response_len).ex =
        (cb (modbus_be16_get s.frame 2) (modbus_be16_get s.frame 4) (response.offset 2)).1) := by
  simp only [handle_read_coils, hc]
  by_cases hq : modbus_be16_get s.frame 4 < 1 ∨ modbus_be16_get s.frame 4 > 2000
  · have hq2 : modbus_be16_get s.frame 4 = 0 ∨ modbus_be16_get s.frame 4 > 2000 := by omega
    rw [if_pos hq]
    exact ⟨⟨fun _ => hq2, fun _ => ⟨rfl, rfl⟩⟩, fun hn => absurd hq2 hn⟩
  · have hq2 : ¬ (modbus_be16_get s.frame 4 = 0 ∨ modbus_be16_get s.frame 4 > 2000) := by omega
    rw [if_neg hq]
    by_cases he : (cb (modbus_be16_get s.frame 2) (modbus_be16_get s.frame 4)
        (response.offset 2)).1 ≠ MODBUS_EX_NONE
    · rw [if_pos he]
      refine ⟨⟨fun hx => ?_, fun hx => absurd hx hq2⟩, fun _ => ⟨rfl, rfl⟩⟩
      exact absurd hx.2 (by simp)
    · rw [if_neg he]
      refine ⟨⟨fun hx => ?_, fun hx => absurd hx hq2⟩, fun _ => ⟨rfl, ?_⟩⟩
      · exact absurd hx.2 (by simp)
      · exact (not_not.mp he).symm

theorem handle_read_discrete_inputs_bounds (s : ModbusSlave) (response : Buf) (response_len : Nat)
    (cb : ModbusReadCb) (hc : s.config.read_discrete_inputs = some cb) :
    (((handle_read_discrete_inputs s response response_len).ex = MODBUS_EX_ILLEGAL_DATA_VALUE ∧
        (handle_read_discrete_inputs s response response_len).calls = []) ↔
      (modbus_be16_get s.frame 4 = 0 ∨ modbus_be16_get s.frame 4 > 2000)) ∧
    (¬ (modbus_be16_get s.frame 4 = 0 ∨ modbus_be16_get s.frame 4 > 2000) →
      (handle_read_discrete_inputs s response response_len).calls =
        [Call.read_discrete_inputs (modbus_be16_get s.frame 2) (modbus_be16_get s.frame 4) 2] ∧
      (handle_read_discrete_inputs s response response_len).ex =
        (cb (modbus_be16_get s.frame 2) (modbus_be16_get s.frame 4) (response.offset 2)).1) := by
  simp only [handle_read_discrete_inputs, hc]
  by_cases hq : modbus_be16_get s.frame 4 < 1 ∨ modbus_be16_get s.frame 4 > 2000
  · have hq2 : modbus_be16_get s.frame 4 = 0 ∨ modbus_be16_get s.frame 4 > 2000 := by omega
    rw [if_pos hq]
    exact ⟨⟨fun _ => hq2, fun _ => ⟨rfl, rfl⟩⟩, fun hn => absurd hq2 hn⟩
  · have hq2 : ¬ (modbus_be16_get s.frame 4 = 0 ∨ modbus_be16_get s.frame 4 > 2000) := by omega
    rw [if_neg hq]
    by_cases he : (cb (modbus_be16_get s.frame 2) (modbus_be16_get s.frame 4)
        (response.offset 2)).1 ≠ MODBUS_EX_NONE
    · rw [if_pos he]
      refine ⟨⟨fun hx => ?_, fun hx => absurd hx hq2⟩, fun _ => ⟨rfl, rfl⟩⟩
      exact absurd hx.2 (by simp)
    · rw [if_neg he]
      refine ⟨⟨fun hx => ?_, fun hx => absurd hx hq2⟩, fun _ => ⟨rfl, ?_⟩⟩
      · exact absurd hx.2 (by simp)
      · exact (not_not.mp he).symm

theorem handle_read_holding_registers_bounds (s : ModbusSlave) (response : Buf) (response_len : Nat)
    (cb : ModbusReadCb) (hc : s.config.read_holding_registers = some cb) :
    (((handle_read_holding_registers s response response_len).ex = MODBUS_EX_ILLEGAL_DATA_VALUE ∧
        (handle_read_holding_registers s response response_len).calls = []) ↔
      (modbus_be16_get s.frame 4 = 0 ∨ modbus_be16_get s.frame 4 > 125)) ∧
    (¬ (modbus_be16_get s.frame 4 = 0 ∨ modbus_be16_get s.frame 4 > 125) →
      (handle_read_holding_registers s response response_len).calls =
        [Call.read_holding_registers (modbus_be16_get s.frame 2) (modbus_be16_get s.frame 4) 2] ∧
      (handle_read_holding_registers s response response_len).ex =
        (cb (modbus_be16_get s.frame 2) (modbus_be16_get s.frame 4) (response.offset 2)).1) := by
  simp only [handle_read_holding_registers, hc]
  by_cases hq : modbus_be16_get s.frame 4 < 1 ∨ modbus_be16_get s.frame 4 > 125
  · have hq2 : modbus_be16_get s.frame 4 = 0 ∨ modbus_be16_get s.frame 4 > 125 := by omega
    rw [if_pos hq]
    exact ⟨⟨fun _ => hq2, fun _ => ⟨rfl, rfl⟩⟩, fun hn => absurd hq2 hn⟩
  · have hq2 : ¬ (modbus_be16_get s.frame 4 = 0 ∨ modbus_be16_get s.frame 4 > 125) := by omega
    rw [if_neg hq]
    by_cases he : (cb (modbus_be16_get s.frame 2) (modbus_be16_get s.frame 4)
        (response.offset 2)).1 ≠ MODBUS_EX_NONE
    · rw [if_pos he]
      refine ⟨⟨fun hx => ?_, fun hx => absurd hx hq2⟩, fun _ => ⟨rfl, rfl⟩⟩
      exact absurd hx.2 (by simp)
    · rw [if_neg he]
      refine ⟨⟨fun hx => ?_, fun hx => absurd hx hq2⟩, fun _ => ⟨rfl, ?_⟩⟩
      · exact absurd hx.2 (by simp)
      · exact (not_not.mp he).symm

theorem handle_read_input_registers_bounds (s : ModbusSlave) (response : Buf) (response_len : Nat)
    (cb : ModbusReadCb) (hc : s.config.read_input_registers = some cb) :
    (((handle_read_input_registers s response response_len).ex = MODBUS_EX_ILLEGAL_DATA_VALUE ∧
        (handle_read_input_registers s response response_len).calls = []) ↔
      (modbus_be16_get s.frame 4 = 0 ∨ modbus_be16_get s.frame 4 > 125)) ∧
    (¬ (modbus_be16_get s.frame 4 = 0 ∨ modbus_be16_get s.frame 4 > 125) →
      (handle_read_input_registers s response response_len).calls =
        [Call.read_input_registers (modbus_be16_get s.frame 2) (modbus_be16_get s.frame 4) 2] ∧
      (handle_read_input_registers s response response_len).ex =
        (cb (modbus_be16_get s.frame 2) (modbus_be16_get s.frame 4) (response.offset 2)).1) := by
  simp only [handle_read_input_registers, hc]
  by_cases hq : modbus_be16_get s.frame 4 < 1 ∨ modbus_be16_get s.frame 4 > 125
  · have hq2 : modbus_be16_get s.frame 4 = 0 ∨ modbus_be16_get s.frame 4 > 125 := by omega
    rw [if_pos hq]
    exact ⟨⟨fun _ => hq2, fun _ => ⟨rfl, rfl⟩⟩, fun hn => absurd hq2 hn⟩
  · have hq2 : ¬ (modbus_be16_get s.frame 4 = 0 ∨ modbus_be16_get s.frame 4 > 125) := by omega
    rw [if_neg hq]
    by_cases he : (cb (modbus_be16_get s.frame 2) (modbus_be16_get s.frame 4)
        (response.offset 2)).1 ≠ MODBUS_EX_NONE
    · rw [if_pos he]
      refine ⟨⟨fun hx => ?_, fun hx => absurd hx hq2⟩, fun _ => ⟨rfl, rfl⟩⟩
      exact absurd hx.2 (by simp)
    · rw [if_neg he]
      refine ⟨⟨fun hx => ?_, fun hx => absurd hx hq2⟩, fun _ => ⟨rfl, ?_⟩⟩
      · exact absurd hx.2 (by simp)
      · exact (not_not.mp he).symm

/-- C10, as stated, fails: with a read_coils callback that answers
MODBUS_EX_ILLEGAL_DATA_VALUE, the request 01 01 00 00 00 05 (quantity 5, inside 1..2000)
makes handle_read_coils return MODBUS_EX_ILLEGAL_DATA_VALUE, after invoking the callback,
so the handler does not return that code exactly when the quantity is out of range. -/
theorem C10_read_bounds_counterexample :
    ¬ ((handle_read_coils (latched refusing_config [0x01, 0x01, 0x00, 0x00, 0x00, 0x05])
          (fun _ => 0xEE) 0).ex = MODBUS_EX_ILLEGAL_DATA_VALUE ↔
        (modbus_be16_get (latched refusing_config [0x01, 0x01, 0x00, 0x00, 0x00, 0x05]).frame 4 = 0 ∨
         modbus_be16_get (latched refusing_config [0x01, 0x01, 0x00, 0x00, 0x00, 0x05]).frame 4
           > 2000)) ∧
    (handle_read_coils (latched refusing_config [0x01, 0x01, 0x00, 0x00, 0x00, 0x05])
        (fun _ => 0xEE) 0).calls = [Call.read_coils 0 5 2] := by
  decide

/-- C10, amended. With the callback configured, handle_read_coils and
handle_read_discrete_inputs return MODBUS_EX_ILLEGAL_DATA_VALUE without invoking the
callback exactly when the big-endian quantity at offset 4 is 0 or greater than 2000, and
handle_read_holding_registers and handle_read_input_registers exactly when it is 0 or
greater than 125; for every quantity inside the range (1 and the maximum included) the
callback is invoked, once, with the decoded address and quantity, and the code the
handler returns is the code the callback returned. -/
theorem C10_read_bounds (s : ModbusSlave) (response : Buf) (response_len : Nat) :
    (∀ cb, s.config.read_coils = some cb →
      (((handle_read_coils s response response_len).ex = MODBUS_EX_ILLEGAL_DATA_VALUE ∧
          (handle_read_coils s response response_len).calls = []) ↔
        (modbus_be16_get s.frame 4 = 0 ∨ modbus_be16_get s.frame 4 > 2000)) ∧
      (¬ (modbus_be16_get s.frame 4 = 0 ∨ modbus_be16_get s.frame 4 > 2000) →
        (handle_read_coils s response response_len).calls =
          [Call.read_coils (modbus_be16_get s.frame 2) (modbus_be16_get s.frame 4) 2] ∧
        (handle_read_coils s response response_len).ex =
          (cb (modbus_be16_get s.frame 2) (modbus_be16_get s.frame 4)
            (response.offset 2)).1)) ∧
    (∀ cb, s.config.read_discrete_inputs = some cb →
      (((handle_read_discrete_inputs s response response_len).ex = MODBUS_EX_ILLEGAL_DATA_VALUE ∧
          (handle_read_discrete_inputs s response response_len).calls = []) ↔
        (modbus_be16_get s.frame 4 = 0 ∨ modbus_be16_get s.frame 4 > 2000)) ∧
      (¬ (modbus_be16_get s.frame 4 = 0 ∨ modbus_be16_get s.frame 4 > 2000) →
        (handle_read_discrete_inputs s response response_len).calls =
          [Call.read_discrete_inputs (modbus_be16_get s.frame 2) (modbus_be16_get s.frame 4) 2] ∧
        (handle_read_discrete_inputs s response response_len).ex =
          (cb (modbus_be16_get s.frame 2) (modbus_be16_get s.frame 4)
            (response.offset 2)).1)) ∧
    (∀ cb, s.config.read_holding_registers = some cb →
      (((handle_read_holding_registers s response response_len).ex = MODBUS_EX_ILLEGAL_DATA_VALUE ∧
          (handle_read_holding_registers s response response_len).calls = []) ↔
        (modbus_be16_get s.frame 4 = 0 ∨ modbus_be16_get s.frame 4 > 125)) ∧
      (¬ (modbus_be16_get s.frame 4 = 0 ∨ modbus_be16_get s.frame 4 > 125) →
        (handle_read_holding_registers s response response_len).calls =
          [Call.read_holding_registers (modbus_be16_get s.frame 2) (modbus_be16_get s.frame 4) 2] ∧
        (handle_read_holding_registers s response response_len).ex =
          (cb (modbus_be16_get s.frame 2) (modbus_be16_get s.frame 4)
            (response.offset 2)).1)) ∧
    (∀ cb, s.config.read_input_registers = some cb →
      (((handle_read_input_registers s response response_len).ex = MODBUS_EX_ILLEGAL_DATA_VALUE ∧
          (handle_read_input_registers s response response_len).calls = []) ↔
        (modbus_be16_get s.frame 4 = 0 ∨ modbus_be16_get s.frame 4 > 125)) ∧
      (¬ (modbus_be16_get s.frame 4 = 0 ∨ modbus_be16_get s.frame 4 > 125) →
        (handle_read_input_registers s response response_len).calls =
          [Call.read_input_registers (modbus_be16_get s.frame 2) (modbus_be16_get s.frame 4) 2] ∧
        (handle_read_input_registers s response response_len).ex =
          (cb (modbus_be16_get s.frame 2) (modbus_be16_get s.frame 4)
            (response.offset 2)).1)) :=
  ⟨fun cb hc => handle_read_coils_bounds s response response_len cb hc,
   fun cb hc => handle_read_discrete_inputs_bounds s response response_len cb hc,
   fun cb hc => handle_read_holding_registers_bounds s response response_len cb hc,
   fun cb hc => handle_read_input_registers_bounds s response response_len cb hc⟩

/-- C10, amended, at the quantities 0, 1, 2000 and 2001 of a read-coils request and
125 of a read-holding-registers request, with all callbacks configured. -/
theorem C10_read_bounds_witness :
    ((handle_read_coils (latched full_config [0x01, 0x01, 0x00, 0x00, 0x00, 0x00])
        (fun _ => 0xEE) 0).ex = MODBUS_EX_ILLEGAL_DATA_VALUE ∧
     (handle_read_coils (latched full_config [0x01, 0x01, 0x00, 0x00, 0x00, 0x00])
        (fun _ => 0xEE) 0).calls = []) ∧
    ((handle_read_coils (latched full_config [0x01, 0x01, 0x00, 0x00, 0x07, 0xD1])
        (fun _ => 0xEE) 0).ex = MODBUS_EX_ILLEGAL_DATA_VALUE ∧
     (handle_read_coils (latched full_config [0x01, 0x01, 0x00, 0x00, 0x07, 0xD1])
        (fun _ => 0xEE) 0).calls = []) ∧
    ((handle_read_coils (latched full_config [0x01, 0x01, 0x00, 0x00, 0x00, 0x01])
        (fun _ => 0xEE) 0).calls = [Call.read_coils 0 1 2] ∧
     (handle_read_coils (latched full_config [0x01, 0x01, 0x00, 0x00, 0x00, 0x01])
        (fun _ => 0xEE) 0).ex = MODBUS_EX_NONE) ∧
    ((handle_read_coils (latched full_config [0x01, 0x01, 0x00, 0x00, 0x07, 0xD0])
        (fun _ => 0xEE) 0).calls = [Call.read_coils 0 2000 2] ∧
     (handle_read_coils (latched full_config [0x01, 0x01, 0x00, 0x00, 0x07, 0xD0])
        (fun _ => 0xEE) 0).ex = MODBUS_EX_NONE) ∧
    ((handle_read_holding_registers (latched full_config [0x01, 0x03, 0x00, 0x00, 0x00, 0x7D])
        (fun _ => 0xEE) 0).calls = [Call.read_holding_registers 0 125 2] ∧
     (handle_read_holding_registers (latched full_config [0x01, 0x03, 0x00, 0x00, 0x00, 0x7D])
        (fun _ => 0xEE) 0).ex = MODBUS_EX_NONE) :=
  ⟨(((C10_read_bounds (latched full_config [0x01, 0x01, 0x00, 0x00, 0x00, 0x00])
        (fun _ => 0xEE) 0).1 _ rfl).1).mpr (by decide),
   (((C10_read_bounds (latched full_config [0x01, 0x01, 0x00, 0x00, 0x07, 0xD1])
        (fun _ => 0xEE) 0).1 _ rfl).1).mpr (by decide),
   ((C10_read_bounds (latched full_config [0x01, 0x01, 0x00, 0x00, 0x00, 0x01])
        (fun _ => 0xEE) 0).1 _ rfl).2 (by decide),
   ((C10_read_bounds (latched full_config [0x01, 0x01, 0x00, 0x00, 0x07, 0xD0])
        (fun _ => 0xEE) 0).1 _ rfl).2 (by decide),
   ((C10_read_bounds (latched full_config [0x01, 0x03, 0x00, 0x00, 0x00, 0x7D])
        (fun _ => 0xEE) 0).2.2.1 _ rfl).2 (by decide)⟩

/-! ## The bytes of a successful response -/

theorem Buf.bytes_succ (buf : Buf) (n : Nat) : buf.bytes (n + 1) = buf.bytes n ++ [buf n] := by
  simp [Buf.bytes, List.range_succ]

theorem Buf.bytes_cons (buf : Buf) (n : Nat) :
    buf.bytes (n + 1) = buf 0 :: (buf.offset 1).bytes n := by
  simp only [Buf.bytes, List.range_succ_eq_map, List.map_cons, List.map_map]
  congr 1
  apply List.map_congr_left
  intro i _
  simp [Buf.offset, Nat.add_comm]

theorem Buf.splice_offset (buf : Buf) (k : Nat) (dest : Buf) :
    (buf.splice k dest).offset k = dest := by
  funext i
  simp [Buf.offset, Buf.splice]

theorem Buf.set_zero_offset_one (buf : Buf) (v : Nat) :
    (buf.set 0 v).offset 1 = buf.offset 1 := by
  funext i
  simp only [Buf.offset, Buf.set]
  rw [if_neg (by omega)]

/-- Storing a 16-bit word little-endian after n bytes: the n bytes, the low byte, the
high byte. -/
theorem le16_set_bytes (buf : Buf) (n v : Nat) (hv : v < 65536) :
    (modbus_le16_set buf n v).bytes (n + 2) = buf.bytes n ++ [v % 256, v / 256] := by
  rw [show n + 2 = (n + 1) + 1 by rfl, Buf.bytes_succ, Buf.bytes_succ]
  have h0 : (modbus_le16_set buf n v).bytes n = buf.bytes n := by
    apply Buf.bytes_congr
    intro i hi
    simp only [modbus_le16_set]
    rw [Buf.set_other _ _ _ _ (by omega), Buf.set_other _ _ _ _ (by omega)]
  have h1 : modbus_le16_set buf n v n = v % 256 := by
    simp only [modbus_le16_set]
    rw [Buf.set_other _ _ _ _ (by omega), Buf.set_same, crc_lo_eq]
  have h2 : modbus_le16_set buf n v (n + 1) = v / 256 := by
    simp only [modbus_le16_set]
    rw [Buf.set_same, crc_hi_eq _ hv]
  rw [h0, h1, h2]
  simp

/-- The response to a handler that succeeded: the address byte, the PDU the handler
left, and the CRC of both, low byte first. -/
theorem frame_response_success (s : ModbusSlave) (response : Buf) (h : HandlerResult)
    (he : h.ex = MODBUS_EX_NONE) (hl : h.response_len ≤ 257) :
    frame_response s response h =
      (s.frame 0 :: (response.offset 1).bytes h.response_len) ++
        [modbus_crc16 (s.frame 0 :: (response.offset 1).bytes h.response_len) % 256,
         modbus_crc16 (s.frame 0 :: (response.offset 1).bytes h.response_len) / 256] := by
  have hn : (h.response_len + 1) % 65536 = h.response_len + 1 := by omega
  have hn2 : (h.response_len + 1 + 2) % 65536 = h.response_len + 1 + 2 := by omega
  have hb : (response.set 0 (s.frame 0)).bytes (h.response_len + 1) =
      s.frame 0 :: (response.offset 1).bytes h.response_len := by
    rw [Buf.bytes_cons, Buf.set_same, Buf.set_zero_offset_one]
  have key : frame_response s response h =
      (modbus_le16_set (response.set 0 (s.frame 0)) (h.response_len + 1)
        (modbus_crc16 ((response.set 0 (s.frame 0)).bytes (h.response_len + 1)))).bytes
        (h.response_len + 1 + 2) := by
    simp [frame_response, he, hn, hn2]
  rw [key, le16_set_bytes _ _ _ (modbus_crc16_lt _), hb]

/-- Poll on a valid unicast frame whose handler succeeds: the callbacks of the switch,
then one transmit of address, PDU and CRC. -/
theorem poll_unicast_success (s : ModbusSlave) (response0 : Buf)
    (havail : s.frame_available = true) (hvalid : modbus_validate_frame s = 0)
    (hu : s.frame 0 ≠ 0) (he : (dispatch s (response0.offset 1) 0).ex = MODBUS_EX_NONE) :
    (modbus_slave_poll s response0).2 =
      (dispatch s (response0.offset 1) 0).calls ++
        [Call.write ((s.frame 0 :: (dispatch s (response0.offset 1) 0).response.bytes
            (dispatch s (response0.offset 1) 0).response_len) ++
          [modbus_crc16 (s.frame 0 :: (dispatch s (response0.offset 1) 0).response.bytes
              (dispatch s (response0.offset 1) 0).response_len) % 256,
           modbus_crc16 (s.frame 0 :: (dispatch s (response0.offset 1) 0).response.bytes
              (dispatch s (response0.offset 1) 0).response_len) / 256])] := by
  rw [poll_calls s response0 havail, process_frame_unicast s response0 hvalid hu,
    frame_response_success s _ _ he (dispatch_len s _).1, Buf.splice_offset]

theorem with_crc_eq (body : List Nat) :
    with_crc body = body ++ [modbus_crc16 body % 256, modbus_crc16 body / 256] := by
  have h1 : modbus_crc16 body &&& 0xFF = modbus_crc16 body % 256 :=
    Nat.and_pow_two_sub_one_eq_mod _ 8
  have h2 : modbus_crc16 body >>> 8 = modbus_crc16 body / 256 :=
    Nat.shiftRight_eq_div_pow _ 8
  have h3 : (modbus_crc16 body / 256) &&& 0xFF = modbus_crc16 body / 256 % 256 :=
    Nat.and_pow_two_sub_one_eq_mod _ 8
  have h4 := modbus_crc16_lt body
  have h5 : modbus_crc16 body / 256 % 256 = modbus_crc16 body / 256 := by omega
  simp only [with_crc, h1, h2, h3, h5]

theorem with_crc_length (body : List Nat) : (with_crc body).length = body.length + 2 := by
  simp [with_crc]

/-! ### Which handler the switch selects -/

theorem dispatch_read_coils (s : ModbusSlave) (r : Buf) (n : Nat) (hfc : s.frame 1 = 0x01) :
    dispatch s r n = handle_read_coils s r n := by
  simp [dispatch, hfc, MODBUS_FC_READ_COILS, MODBUS_FC_READ_DISCRETE_INPUTS,
    MODBUS_FC_READ_HOLDING_REGISTERS, MODBUS_FC_READ_INPUT_REGISTERS,
    MODBUS_FC_WRITE_SINGLE_COIL, MODBUS_FC_WRITE_SINGLE_REGISTER,
    MODBUS_FC_WRITE_MULTIPLE_COILS, MODBUS_FC_WRITE_MULTIPLE_REGISTERS,
    MODBUS_FC_MASK_WRITE_REGISTER, MODBUS_FC_READ_WRITE_MULTIPLE_REGS]

theorem dispatch_read_discrete_inputs (s : ModbusSlave) (r : Buf) (n : Nat) (hfc : s.frame 1 = 0x02) :
    dispatch s r n = handle_read_discrete_inputs s r n := by
  simp [dispatch, hfc, MODBUS_FC_READ_COILS, MODBUS_FC_READ_DISCRETE_INPUTS,
    MODBUS_FC_READ_HOLDING_REGISTERS, MODBUS_FC_READ_INPUT_REGISTERS,
    MODBUS_FC_WRITE_SINGLE_COIL, MODBUS_FC_WRITE_SINGLE_REGISTER,
    MODBUS_FC_WRITE_MULTIPLE_COILS, MODBUS_FC_WRITE_MULTIPLE_REGISTERS,
    MODBUS_FC_MASK_WRITE_REGISTER, MODBUS_FC_READ_WRITE_MULTIPLE_REGS]

theorem dispatch_read_holding_registers (s : ModbusSlave) (r : Buf) (n : Nat) (hfc : s.frame 1 = 0x03) :
    dispatch s r n = handle_read_holding_registers s r n := by
  simp [dispatch, hfc, MODBUS_FC_READ_COILS, MODBUS_FC_READ_DISCRETE_INPUTS,
    MODBUS_FC_READ_HOLDING_REGISTERS, MODBUS_FC_READ_INPUT_REGISTERS,
    MODBUS_FC_WRITE_SINGLE_COIL, MODBUS_FC_WRITE_SINGLE_REGISTER,
    MODBUS_FC_WRITE_MULTIPLE_COILS, MODBUS_FC_WRITE_MULTIPLE_REGISTERS,
    MODBUS_FC_MASK_WRITE_REGISTER, MODBUS_FC_READ_WRITE_MULTIPLE_REGS]

theorem dispatch_read_input_registers (s : ModbusSlave) (r : Buf) (n : Nat) (hfc : s.frame 1 = 0x04) :
    dispatch s r n = handle_read_input_registers s r n := by
  simp [dispatch, hfc, MODBUS_FC_READ_COILS, MODBUS_FC_READ_DISCRETE_INPUTS,
    MODBUS_FC_READ_HOLDING_REGISTERS, MODBUS_FC_READ_INPUT_REGISTERS,
    MODBUS_FC_WRITE_SINGLE_COIL, MODBUS_FC_WRITE_SINGLE_REGISTER,
    MODBUS_FC_WRITE_MULTIPLE_COILS, MODBUS_FC_WRITE_MULTIPLE_REGISTERS,
    MODBUS_FC_MASK_WRITE_REGISTER, MODBUS_FC_READ_WRITE_MULTIPLE_REGS]

theorem dispatch_write_single_coil (s : ModbusSlave) (r : Buf) (n : Nat) (hfc : s.frame 1 = 0x05) :
    dispatch s r n = handle_write_single_coil s r n := by
  simp [dispatch, hfc, MODBUS_FC_READ_COILS, MODBUS_FC_READ_DISCRETE_INPUTS,
    MODBUS_FC_READ_HOLDING_REGISTERS, MODBUS_FC_READ_INPUT_REGISTERS,
    MODBUS_FC_WRITE_SINGLE_COIL, MODBUS_FC_WRITE_SINGLE_REGISTER,
    MODBUS_FC_WRITE_MULTIPLE_COILS, MODBUS_FC_WRITE_MULTIPLE_REGISTERS,
    MODBUS_FC_MASK_WRITE_REGISTER, MODBUS_FC_READ_WRITE_MULTIPLE_REGS]

theorem dispatch_write_single_register (s : ModbusSlave) (r : Buf) (n : Nat) (hfc : s.frame 1 = 0x06) :
    dispatch s r n = handle_write_single_register s r n := by
  simp [dispatch, hfc, MODBUS_FC_READ_COILS, MODBUS_FC_READ_DISCRETE_INPUTS,
    MODBUS_FC_READ_HOLDING_REGISTERS, MODBUS_FC_READ_INPUT_REGISTERS,
    MODBUS_FC_WRITE_SINGLE_COIL, MODBUS_FC_WRITE_SINGLE_REGISTER,
    MODBUS_FC_WRITE_MULTIPLE_COILS, MODBUS_FC_WRITE_MULTIPLE_REGISTERS,
    MODBUS_FC_MASK_WRITE_REGISTER, MODBUS_FC_READ_WRITE_MULTIPLE_REGS]

theorem dispatch_write_multiple_coils (s : ModbusSlave) (r : Buf) (n : Nat) (hfc : s.frame 1 = 0x0F) :
    dispatch s r n = handle_write_multiple_coils s r n := by
  simp [dispatch, hfc, MODBUS_FC_READ_COILS, MODBUS_FC_READ_DISCRETE_INPUTS,
    MODBUS_FC_READ_HOLDING_REGISTERS, MODBUS_FC_READ_INPUT_REGISTERS,
    MODBUS_FC_WRITE_SINGLE_COIL, MODBUS_FC_WRITE_SINGLE_REGISTER,
    MODBUS_FC_WRITE_MULTIPLE_COILS, MODBUS_FC_WRITE_MULTIPLE_REGISTERS,
    MODBUS_FC_MASK_WRITE_REGISTER, MODBUS_FC_READ_WRITE_MULTIPLE_REGS]

theorem dispatch_write_multiple_registers (s : ModbusSlave) (r : Buf) (n : Nat) (hfc : s.frame 1 = 0x10) :
    dispatch s r n = handle_write_multiple_registers s r n := by
  simp [dispatch, hfc, MODBUS_FC_READ_COILS, MODBUS_FC_READ_DISCRETE_INPUTS,
    MODBUS_FC_READ_HOLDING_REGISTERS, MODBUS_FC_READ_INPUT_REGISTERS,
    MODBUS_FC_WRITE_SINGLE_COIL, MODBUS_FC_WRITE_SINGLE_REGISTER,
    MODBUS_FC_WRITE_MULTIPLE_COILS, MODBUS_FC_WRITE_MULTIPLE_REGISTERS,
    MODBUS_FC_MASK_WRITE_REGISTER, MODBUS_FC_READ_WRITE_MULTIPLE_REGS]

theorem dispatch_mask_write_register (s : ModbusSlave) (r : Buf) (n : Nat) (hfc : s.frame 1 = 0x16) :
    dispatch s r n = handle_mask_write_register s r n := by
  simp [dispatch, hfc, MODBUS_FC_READ_COILS, MODBUS_FC_READ_DISCRETE_INPUTS,
    MODBUS_FC_READ_HOLDING_REGISTERS, MODBUS_FC_READ_INPUT_REGISTERS,
    MODBUS_FC_WRITE_SINGLE_COIL, MODBUS_FC_WRITE_SINGLE_REGISTER,
    MODBUS_FC_WRITE_MULTIPLE_COILS, MODBUS_FC_WRITE_MULTIPLE_REGISTERS,
    MODBUS_FC_MASK_WRITE_REGISTER, MODBUS_FC_READ_WRITE_MULTIPLE_REGS]

theorem dispatch_read_write_multiple_registers (s : ModbusSlave) (r : Buf) (n : Nat) (hfc : s.frame 1 = 0x17) :
    dispatch s r n = handle_read_write_multiple_registers s r n := by
  simp [dispatch, hfc, MODBUS_FC_READ_COILS, MODBUS_FC_READ_DISCRETE_INPUTS,
    MODBUS_FC_READ_HOLDING_REGISTERS, MODBUS_FC_READ_INPUT_REGISTERS,
    MODBUS_FC_WRITE_SINGLE_COIL, MODBUS_FC_WRITE_SINGLE_REGISTER,
    MODBUS_FC_WRITE_MULTIPLE_COILS, MODBUS_FC_WRITE_MULTIPLE_REGISTERS,
    MODBUS_FC_MASK_WRITE_REGISTER, MODBUS_FC_READ_WRITE_MULTIPLE_REGS]

/-- Poll on a valid unicast frame whose handler succeeds, in terms of the PDU the
handler left: address, PDU, CRC. -/
theorem poll_unicast_success_crc (s : ModbusSlave) (response0 : Buf)
    (havail : s.frame_available = true) (hvalid : modbus_validate_frame s = 0)
    (hu : s.frame 0 ≠ 0) (he : (dispatch s (response0.offset 1) 0).ex = MODBUS_EX_NONE) :
    (modbus_slave_poll s response0).2 =
      (dispatch s (response0.offset 1) 0).calls ++
        [Call.write (with_crc (s.frame 0 :: (dispatch s (response0.offset 1) 0).response.bytes
            (dispatch s (response0.offset 1) 0).response_len))] := by
  rw [with_crc_eq]
  exact poll_unicast_success s response0 havail hvalid hu he

/-- The PDU of a read response: function code, byte count, then what the callback left
at its destination. -/
theorem read_layout_bytes (p dest : Buf) (fc bc m : Nat) :
    (((p.splice 2 dest).set 0 fc).set 1 bc).bytes (m + 2) = fc :: bc :: dest.bytes m := by
  rw [show m + 2 = (m + 1) + 1 by rfl, Buf.bytes_cons, Buf.bytes_cons]
  have h0 : ((p.splice 2 dest).set 0 fc).set 1 bc 0 = fc := by
    rw [Buf.set_other _ _ _ _ (by omega), Buf.set_same]
  have h1 : ((((p.splice 2 dest).set 0 fc).set 1 bc).offset 1) 0 = bc := by
    simp [Buf.offset]
  have h2 : (((((p.splice 2 dest).set 0 fc).set 1 bc).offset 1).offset 1).bytes m =
      dest.bytes m := by
    apply Buf.bytes_congr
    intro i _
    simp only [Buf.offset]
    rw [Buf.set_other _ _ _ _ (by omega), Buf.set_other _ _ _ _ (by omega)]
    simp only [Buf.splice]
    rw [if_neg (by omega), show 1 + (1 + i) - 2 = i by omega]
  rw [h0, h1, h2]

/-! ## Read responses -/

/-- The success path of handle_read_coils. -/
theorem handle_read_coils_success (s : ModbusSlave) (response : Buf) (n : Nat)
    (cb : ModbusReadCb) (hc : s.config.read_coils = some cb)
    (hq1 : 1 ≤ modbus_be16_get s.frame 4) (hq2 : modbus_be16_get s.frame 4 ≤ 2000)
    (he : (cb (modbus_be16_get s.frame 2) (modbus_be16_get s.frame 4)
      (response.offset 2)).1 = MODBUS_EX_NONE) :
    handle_read_coils s response n =
      ⟨MODBUS_EX_NONE,
       ((response.splice 2 (cb (modbus_be16_get s.frame 2) (modbus_be16_get s.frame 4)
          (response.offset 2)).2).set 0 (s.frame 1)).set 1 ((modbus_be16_get s.frame 4 + 7) / 8),
       (n + (2 + (modbus_be16_get s.frame 4 + 7) / 8)) % 65536,
       [Call.read_coils (modbus_be16_get s.frame 2) (modbus_be16_get s.frame 4) 2]⟩ := by
  have hq : ¬ (modbus_be16_get s.frame 4 < 1 ∨ modbus_be16_get s.frame 4 > 2000) := by omega
  have hm : ((modbus_be16_get s.frame 4 + 7) / 8) % 256 = (modbus_be16_get s.frame 4 + 7) / 8 := by omega
  simp only [handle_read_coils, hc]
  rw [if_neg hq, if_neg (by simp [he])]
  simp only [Buf.set_same, hm]

/-- The success path of handle_read_discrete_inputs. -/
theorem handle_read_discrete_inputs_success (s : ModbusSlave) (response : Buf) (n : Nat)
    (cb : ModbusReadCb) (hc : s.config.read_discrete_inputs = some cb)
    (hq1 : 1 ≤ modbus_be16_get s.frame 4) (hq2 : modbus_be16_get s.frame 4 ≤ 2000)
    (he : (cb (modbus_be16_get s.frame 2) (modbus_be16_get s.frame 4)
      (response.offset 2)).1 = MODBUS_EX_NONE) :
    handle_read_discrete_inputs s response n =
      ⟨MODBUS_EX_NONE,
       ((response.splice 2 (cb (modbus_be16_get s.frame 2) (modbus_be16_get s.frame 4)
          (response.offset 2)).2).set 0 (s.frame 1)).set 1 ((modbus_be16_get s.frame 4 + 7) / 8),
       (n + (2 + (modbus_be16_get s.frame 4 + 7) / 8)) % 65536,
       [Call.read_discrete_inputs (modbus_be16_get s.frame 2) (modbus_be16_get s.frame 4) 2]⟩ := by
  have hq : ¬ (modbus_be16_get s.frame 4 < 1 ∨ modbus_be16_get s.frame 4 > 2000) := by omega
  have hm : ((modbus_be16_get s.frame 4 + 7) / 8) % 256 = (modbus_be16_get s.frame 4 + 7) / 8 := by omega
  simp only [handle_read_discrete_inputs, hc]
  rw [if_neg hq, if_neg (by simp [he])]
  simp only [Buf.set_same, hm]

/-- The success path of handle_read_holding_registers. -/
theorem handle_read_holding_registers_success (s : ModbusSlave) (response : Buf) (n : Nat)
    (cb : ModbusReadCb) (hc : s.config.read_holding_registers = some cb)
    (hq1 : 1 ≤ modbus_be16_get s.frame 4) (hq2 : modbus_be16_get s.frame 4 ≤ 125)
    (he : (cb (modbus_be16_get s.frame 2) (modbus_be16_get s.frame 4)
      (response.offset 2)).1 = MODBUS_EX_NONE) :
    handle_read_holding_registers s response n =
      ⟨MODBUS_EX_NONE,
       ((response.splice 2 (cb (modbus_be16_get s.frame 2) (modbus_be16_get s.frame 4)
          (response.offset 2)).2).set 0 (s.frame 1)).set 1 (modbus_be16_get s.frame 4 * 2),
       (n + (2 + modbus_be16_get s.frame 4 * 2)) % 65536,
       [Call.read_holding_registers (modbus_be16_get s.frame 2) (modbus_be16_get s.frame 4) 2]⟩ := by
  have hq : ¬ (modbus_be16_get s.frame 4 < 1 ∨ modbus_be16_get s.frame 4 > 125) := by omega
  have hm : (modbus_be16_get s.frame 4 * 2) % 256 = modbus_be16_get s.frame 4 * 2 := by omega
  simp only [handle_read_holding_registers, hc]
  rw [if_neg hq, if_neg (by simp [he])]
  simp only [Buf.set_same, hm]

/-- The success path of handle_read_input_registers. -/
theorem handle_read_input_registers_success (s : ModbusSlave) (response : Buf) (n : Nat)
    (cb : ModbusReadCb) (hc : s.config.read_input_registers = some cb)
    (hq1 : 1 ≤ modbus_be16_get s.frame 4) (hq2 : modbus_be16_get s.frame 4 ≤ 125)
    (he : (cb (modbus_be16_get s.frame 2) (modbus_be16_get s.frame 4)
      (response.offset 2)).1 = MODBUS_EX_NONE) :
    handle_read_input_registers s response n =
      ⟨MODBUS_EX_NONE,
       ((response.splice 2 (cb (modbus_be16_get s.frame 2) (modbus_be16_get s.frame 4)
          (response.offset 2)).2).set 0 (s.frame 1)).set 1 (modbus_be16_get s.frame 4 * 2),
       (n + (2 + modbus_be16_get s.frame 4 * 2)) % 65536,
       [Call.read_input_registers (modbus_be16_get s.frame 2) (modbus_be16_get s.frame 4) 2]⟩ := by
  have hq : ¬ (modbus_be16_get s.frame 4 < 1 ∨ modbus_be16_get s.frame 4 > 125) := by omega
  have hm : (modbus_be16_get s.frame 4 * 2) % 256 = modbus_be16_get s.frame 4 * 2 := by omega
  simp only [handle_read_input_registers, hc]
  rw [if_neg hq, if_neg (by simp [he])]
  simp only [Buf.set_same, hm]

/-- C11. Read-registers response, end to end: for a valid unicast request with function
code 0x03 or 0x04, quantity qty at offset 4 with 1 <= qty <= 125 and a callback that
returns MODBUS_EX_NONE leaving the data bytes d in the first 2*qty bytes of its
destination, modbus_slave_poll invokes the callback with the decoded start and quantity
and then transmits exactly once: the sequence [a, fc, 2*qty, d..., crc_lo, crc_hi], of
length 2*qty + 5. -/
theorem C11_read_registers_response (s : ModbusSlave) (response0 : Buf) (cb : ModbusReadCb)
    (havail : s.frame_available = true) (hvalid : modbus_validate_frame s = 0)
    (hu : s.frame 0 ≠ 0)
    (hq1 : 1 ≤ modbus_be16_get s.frame 4) (hq2 : modbus_be16_get s.frame 4 ≤ 125)
    (he : (cb (modbus_be16_get s.frame 2) (modbus_be16_get s.frame 4)
      ((response0.offset 1).offset 2)).1 = MODBUS_EX_NONE) :
    (s.frame 1 = 0x03 → s.config.read_holding_registers = some cb →
      (modbus_slave_poll s response0).2 =
        [Call.read_holding_registers (modbus_be16_get s.frame 2) (modbus_be16_get s.frame 4) 2,
         Call.write (with_crc (s.frame 0 :: 0x03 :: (2 * modbus_be16_get s.frame 4) ::
           (cb (modbus_be16_get s.frame 2) (modbus_be16_get s.frame 4)
             ((response0.offset 1).offset 2)).2.bytes (2 * modbus_be16_get s.frame 4)))] ∧
      (with_crc (s.frame 0 :: 0x03 :: (2 * modbus_be16_get s.frame 4) ::
           (cb (modbus_be16_get s.frame 2) (modbus_be16_get s.frame 4)
             ((response0.offset 1).offset 2)).2.bytes (2 * modbus_be16_get s.frame 4))).length =
        2 * modbus_be16_get s.frame 4 + 5) ∧
    (s.frame 1 = 0x04 → s.config.read_input_registers = some cb →
      (modbus_slave_poll s response0).2 =
        [Call.read_input_registers (modbus_be16_get s.frame 2) (modbus_be16_get s.frame 4) 2,
         Call.write (with_crc (s.frame 0 :: 0x04 :: (2 * modbus_be16_get s.frame 4) ::
           (cb (modbus_be16_get s.frame 2) (modbus_be16_get s.frame 4)
             ((response0.offset 1).offset 2)).2.bytes (2 * modbus_be16_get s.frame 4)))] ∧
      (with_crc (s.frame 0 :: 0x04 :: (2 * modbus_be16_get s.frame 4) ::
           (cb (modbus_be16_get s.frame 2) (modbus_be16_get s.frame 4)
             ((response0.offset 1).offset 2)).2.bytes (2 * modbus_be16_get s.frame 4))).length =
        2 * modbus_be16_get s.frame 4 + 5) := by
  have hlen : ∀ (fc : Nat) (d : Buf),
      (with_crc (s.frame 0 :: fc :: (2 * modbus_be16_get s.frame 4) ::
        d.bytes (2 * modbus_be16_get s.frame 4))).length = 2 * modbus_be16_get s.frame 4 + 5 := by
    intro fc d
    simp [with_crc_length]
  have h257 : (0 + (2 + modbus_be16_get s.frame 4 * 2)) % 65536 =
      modbus_be16_get s.frame 4 * 2 + 2 := by omega
  refine ⟨fun hfc hc => ⟨?_, hlen _ _⟩, fun hfc hc => ⟨?_, hlen _ _⟩⟩
  · have hd := dispatch_read_holding_registers s (response0.offset 1) 0 hfc
    have hh := handle_read_holding_registers_success s (response0.offset 1) 0 cb hc hq1 hq2 he
    have hex : (dispatch s (response0.offset 1) 0).ex = MODBUS_EX_NONE := by rw [hd, hh]
    rw [poll_unicast_success_crc s response0 havail hvalid hu hex, hd, hh]
    simp only [hfc, List.singleton_append]
    rw [h257, read_layout_bytes, Nat.mul_comm (modbus_be16_get s.frame 4) 2]
  · have hd := dispatch_read_input_registers s (response0.offset 1) 0 hfc
    have hh := handle_read_input_registers_success s (response0.offset 1) 0 cb hc hq1 hq2 he
    have hex : (dispatch s (response0.offset 1) 0).ex = MODBUS_EX_NONE := by rw [hd, hh]
    rw [poll_unicast_success_crc s response0 havail hvalid hu hex, hd, hh]
    simp only [hfc, List.singleton_append]
    rw [h257, read_layout_bytes, Nat.mul_comm (modbus_be16_get s.frame 4) 2]

set_option maxRecDepth 100000 in
/-- C11 at own address 1, registers 500 and 501, input 01 03 00 00 00 02 C4 0B: the
callback is invoked with start 0 and quantity 2, and 01 03 04 01 F4 01 F5 is transmitted
with its CRC (7B EA), 9 bytes. -/
theorem C11_read_registers_response_witness :
    (modbus_slave_poll (receive_frame (init_slave test_config)
        [0x01, 0x03, 0x00, 0x00, 0x00, 0x02, 0xC4, 0x0B]) (fun _ => 0xEE)).2 =
      [Call.read_holding_registers 0 2 2,
       Call.write [0x01, 0x03, 0x04, 0x01, 0xF4, 0x01, 0xF5, 0x7B, 0xEA]] ∧
    (modbus_slave_poll (receive_frame (init_slave test_config)
        [0x01, 0x03, 0x00, 0x00, 0x00, 0x02, 0xC4, 0x0B]) (fun _ => 0xEE)).2 =
      [Call.read_holding_registers 0 2 2,
       Call.write (with_crc (0x01 :: 0x03 :: (2 * 2) ::
         (mock_read_holding_registers 0 2 (fun _ => 0xEE)).2.bytes (2 * 2)))] :=
  ⟨by decide,
   ((C11_read_registers_response (receive_frame (init_slave test_config)
        [0x01, 0x03, 0x00, 0x00, 0x00, 0x02, 0xC4, 0x0B]) (fun _ => 0xEE)
      mock_read_holding_registers (by rfl) (by decide) (by decide) (by decide) (by decide)
      (by rfl)).1 (by rfl) (by rfl)).1⟩

/-- C12. Read-bits response layout: for handle_read_coils and
handle_read_discrete_inputs, for a quantity q at offset 4 with 1 <= q <= 2000 and a
callback returning MODBUS_EX_NONE, the handler returns MODBUS_EX_NONE with
response[0] = frame[1] (the request function code), response[1] = ceil(q/8), which is
(q + 7) / 8 and at most 250, so nothing is lost in the 8-bit store, the callback's data
region starting at response[2], and *response_len increased by exactly 2 + ceil(q/8)
(*response_len is a uint16_t; the increase is stated where it does not overflow, as for
the 0 that modbus_process_frame passes). -/
theorem C12_read_bits_layout (s : ModbusSlave) (response : Buf) (response_len : Nat)
    (cb : ModbusReadCb)
    (hq1 : 1 ≤ modbus_be16_get s.frame 4) (hq2 : modbus_be16_get s.frame 4 ≤ 2000)
    (he : (cb (modbus_be16_get s.frame 2) (modbus_be16_get s.frame 4)
      (response.offset 2)).1 = MODBUS_EX_NONE)
    (hlen : response_len + (2 + (modbus_be16_get s.frame 4 + 7) / 8) < 65536) :
    ((modbus_be16_get s.frame 4 + 7) / 8 ≤ 250 ∧
      modbus_be16_get s.frame 4 ≤ 8 * ((modbus_be16_get s.frame 4 + 7) / 8) ∧
      8 * ((modbus_be16_get s.frame 4 + 7) / 8) < modbus_be16_get s.frame 4 + 8) ∧
    (s.config.read_coils = some cb →
      (handle_read_coils s response response_len).ex = MODBUS_EX_NONE ∧
      (handle_read_coils s response response_len).calls =
        [Call.read_coils (modbus_be16_get s.frame 2) (modbus_be16_get s.frame 4) 2] ∧
      (handle_read_coils s response response_len).response 0 = s.frame 1 ∧
      (handle_read_coils s response response_len).response 1 =
        (modbus_be16_get s.frame 4 + 7) / 8 ∧
      (∀ i, (handle_read_coils s response response_len).response (2 + i) =
        (cb (modbus_be16_get s.frame 2) (modbus_be16_get s.frame 4)
          (response.offset 2)).2 i) ∧
      (handle_read_coils s response response_len).response_len =
        response_len + (2 + (modbus_be16_get s.frame 4 + 7) / 8)) ∧
    (s.config.read_discrete_inputs = some cb →
      (handle_read_discrete_inputs s response response_len).ex = MODBUS_EX_NONE ∧
      (handle_read_discrete_inputs s response response_len).calls =
        [Call.read_discrete_inputs (modbus_be16_get s.frame 2) (modbus_be16_get s.frame 4) 2] ∧
      (handle_read_discrete_inputs s response response_len).response 0 = s.frame 1 ∧
      (handle_read_discrete_inputs s response response_len).response 1 =
        (modbus_be16_get s.frame 4 + 7) / 8 ∧
      (∀ i, (handle_read_discrete_inputs s response response_len).response (2 + i) =
        (cb (modbus_be16_get s.frame 2) (modbus_be16_get s.frame 4)
          (response.offset 2)).2 i) ∧
      (handle_read_discrete_inputs s response response_len).response_len =
        response_len + (2 + (modbus_be16_get s.frame 4 + 7) / 8)) := by
  have hmod : (response_len + (2 + (modbus_be16_get s.frame 4 + 7) / 8)) % 65536 =
      response_len + (2 + (modbus_be16_get s.frame 4 + 7) / 8) := Nat.mod_eq_of_lt hlen
  refine ⟨⟨by omega, by omega, by omega⟩, fun hc => ?_, fun hc => ?_⟩
  · rw [handle_read_coils_success s response response_len cb hc hq1 hq2 he]
    refine ⟨rfl, rfl, ?_, ?_, ?_, hmod⟩
    · simp only []
      rw [Buf.set_other _ _ _ _ (by omega), Buf.set_same]
    · simp only []
      rw [Buf.set_same]
    · intro i
      simp only []
      rw [Buf.set_other _ _ _ _ (by omega), Buf.set_other _ _ _ _ (by omega)]
      simp only [Buf.splice]
      rw [if_neg (by omega), show 2 + i - 2 = i by omega]
  · rw [handle_read_discrete_inputs_success s response response_len cb hc hq1 hq2 he]
    refine ⟨rfl, rfl, ?_, ?_, ?_, hmod⟩
    · simp only []
      rw [Buf.set_other _ _ _ _ (by omega), Buf.set_same]
    · simp only []
      rw [Buf.set_same]
    · intro i
      simp only []
      rw [Buf.set_other _ _ _ _ (by omega), Buf.set_other _ _ _ _ (by omega)]
      simp only [Buf.splice]
      rw [if_neg (by omega), show 2 + i - 2 = i by omega]

/-- C12 at the request of test_handle_read_coils_valid (start 0x0100, quantity 16) with
the mock callback of that test: function code 1, byte count 2, data AA AA, length 4. -/
theorem C12_read_bits_layout_witness :
    (handle_read_coils (latched mock_config [0x01, 0x01, 0x01, 0x00, 0x00, 0x10])
        (fun _ => 0xEE) 0).ex = MODBUS_EX_NONE ∧
    (handle_read_coils (latched mock_config [0x01, 0x01, 0x01, 0x00, 0x00, 0x10])
        (fun _ => 0xEE) 0).calls = [Call.read_coils 0x0100 0x0010 2] ∧
    (handle_read_coils (latched mock_config [0x01, 0x01, 0x01, 0x00, 0x00, 0x10])
        (fun _ => 0xEE) 0).response 0 = 0x01 ∧
    (handle_read_coils (latched mock_config [0x01, 0x01, 0x01, 0x00, 0x00, 0x10])
        (fun _ => 0xEE) 0).response 1 = 0x02 ∧
    (∀ i, (handle_read_coils (latched mock_config [0x01, 0x01, 0x01, 0x00, 0x00, 0x10])
        (fun _ => 0xEE) 0).response (2 + i) =
      (mock_read_coils 0x0100 0x0010 (fun _ => 0xEE)).2 i) ∧
    (handle_read_coils (latched mock_config [0x01, 0x01, 0x01, 0x00, 0x00, 0x10])
        (fun _ => 0xEE) 0).response_len = 4 :=
  (C12_read_bits_layout (latched mock_config [0x01, 0x01, 0x01, 0x00, 0x00, 0x10])
    (fun _ => 0xEE) 0 mock_read_coils (by decide) (by decide) (by rfl) (by decide)).2.1 rfl

/-! ## Write Single Coil -/

/-- A handler that passes the code of its callback on: the calls are those of either
branch and the code is the callback's. -/
theorem pass_on (e : ModbusExceptionCode) (r1 r2 : Buf) (n1 n2 : Nat) (c : List Call) :
    (if e ≠ MODBUS_EX_NONE then (⟨e, r1, n1, c⟩ : HandlerResult)
      else ⟨MODBUS_EX_NONE, r2, n2, c⟩).calls = c ∧
    (if e ≠ MODBUS_EX_NONE then (⟨e, r1, n1, c⟩ : HandlerResult)
      else ⟨MODBUS_EX_NONE, r2, n2, c⟩).ex = e := by
  by_cases he : e ≠ MODBUS_EX_NONE
  · rw [if_pos he]
    exact ⟨rfl, rfl⟩
  · rw [if_neg he]
    exact ⟨rfl, (not_not.mp he).symm⟩

/-- C13. Write Single Coil value rule: with the callback configured,
handle_write_single_coil returns MODBUS_EX_ILLEGAL_DATA_VALUE without invoking the
callback exactly when the big-endian value at offset 4 is neither 0x0000 nor 0xFF00; for
0xFF00 the callback is invoked, once, with (address at offset 2, 1) and for 0x0000 with
(address, 0), and the handler returns the code the callback returned. -/
theorem C13_write_single_coil_value (s : ModbusSlave) (response : Buf) (response_len : Nat)
    (cb : ModbusWriteSingleCb) (hc : s.config.write_single_coil = some cb) :
    (((handle_write_single_coil s response response_len).ex = MODBUS_EX_ILLEGAL_DATA_VALUE ∧
        (handle_write_single_coil s response response_len).calls = []) ↔
      (modbus_be16_get s.frame 4 ≠ 0x0000 ∧ modbus_be16_get s.frame 4 ≠ 0xFF00)) ∧
    (modbus_be16_get s.frame 4 = 0xFF00 →
      (handle_write_single_coil s response response_len).calls =
        [Call.write_single_coil (modbus_be16_get s.frame 2) 1] ∧
      (handle_write_single_coil s response response_len).ex =
        cb (modbus_be16_get s.frame 2) 1) ∧
    (modbus_be16_get s.frame 4 = 0x0000 →
      (handle_write_single_coil s response response_len).calls =
        [Call.write_single_coil (modbus_be16_get s.frame 2) 0] ∧
      (handle_write_single_coil s response response_len).ex =
        cb (modbus_be16_get s.frame 2) 0) := by
  simp only [handle_write_single_coil, hc]
  by_cases hv : modbus_be16_get s.frame 4 ≠ 0x0000 ∧ modbus_be16_get s.frame 4 ≠ 0xFF00
  · rw [if_pos hv]
    exact ⟨⟨fun _ => hv, fun _ => ⟨rfl, rfl⟩⟩, fun h => absurd h hv.2, fun h => absurd h hv.1⟩
  · rw [if_neg hv]
    by_cases h1 : modbus_be16_get s.frame 4 = 0xFF00
    · rw [if_pos h1]
      obtain ⟨p1, p2⟩ := pass_on (cb (modbus_be16_get s.frame 2) 1) response
        (echo_request s response 4) response_len ((response_len + 4) % 65536)
        [Call.write_single_coil (modbus_be16_get s.frame 2) 1]
      refine ⟨⟨fun hx => ?_, fun hx => absurd h1 hx.2⟩, fun _ => ⟨p1, p2⟩,
        fun hx => ?_⟩
      · rw [p1] at hx
        exact absurd hx.2 (by simp)
      · rw [h1] at hx
        exact absurd hx (by decide)
    · have h0 : modbus_be16_get s.frame 4 = 0x0000 := by
        by_contra h0
        exact hv ⟨h0, h1⟩
      rw [if_neg h1]
      obtain ⟨p1, p2⟩ := pass_on (cb (modbus_be16_get s.frame 2) 0) response
        (echo_request s response 4) response_len ((response_len + 4) % 65536)
        [Call.write_single_coil (modbus_be16_get s.frame 2) 0]
      refine ⟨⟨fun hx => ?_, fun hx => absurd h0 hx.1⟩, fun hx => absurd hx h1,
        fun _ => ⟨p1, p2⟩⟩
      rw [p1] at hx
      exact absurd hx.2 (by simp)

/-- C13 at the requests of test_handle_write_single_coil_valid_on (value FF 00),
_valid_off (value 00 00) and _invalid_value (value 12 34), with the mock callback of
that test file. -/
theorem C13_write_single_coil_value_witness :
    ((handle_write_single_coil (latched mock_config [0x01, 0x05, 0x03, 0x00, 0xFF, 0x00])
        (fun _ => 0xEE) 0).calls = [Call.write_single_coil 0x0300 1] ∧
     (handle_write_single_coil (latched mock_config [0x01, 0x05, 0x03, 0x00, 0xFF, 0x00])
        (fun _ => 0xEE) 0).ex = MODBUS_EX_NONE) ∧
    ((handle_write_single_coil (latched mock_config [0x01, 0x05, 0x03, 0x00, 0x00, 0x00])
        (fun _ => 0xEE) 0).calls = [Call.write_single_coil 0x0300 0] ∧
     (handle_write_single_coil (latched mock_config [0x01, 0x05, 0x03, 0x00, 0x00, 0x00])
        (fun _ => 0xEE) 0).ex = MODBUS_EX_NONE) ∧
    ((handle_write_single_coil (latched mock_config [0x01, 0x05, 0x03, 0x00, 0x12, 0x34])
        (fun _ => 0xEE) 0).ex = MODBUS_EX_ILLEGAL_DATA_VALUE ∧
     (handle_write_single_coil (latched mock_config [0x01, 0x05, 0x03, 0x00, 0x12, 0x34])
        (fun _ => 0xEE) 0).calls = []) :=
  ⟨(C13_write_single_coil_value (latched mock_config [0x01, 0x05, 0x03, 0x00, 0xFF, 0x00])
      (fun _ => 0xEE) 0 mock_write_single_coil rfl).2.1 (by decide),
   (C13_write_single_coil_value (latched mock_config [0x01, 0x05, 0x03, 0x00, 0x00, 0x00])
      (fun _ => 0xEE) 0 mock_write_single_coil rfl).2.2 (by decide),
   (C13_write_single_coil_value (latched mock_config [0x01, 0x05, 0x03, 0x00, 0x12, 0x34])
      (fun _ => 0xEE) 0 mock_write_single_coil rfl).1.mpr (by decide)⟩

/-! ## Echo responses -/

/-- The bytes the echo loop leaves: the function code and the n - 1 request bytes after
it. -/
theorem echo_request_apply (s : ModbusSlave) (response : Buf) (n i : Nat) :
    echo_request s response n i = if i < n then s.frame (1 + i) else response i := by
  unfold echo_request
  induction n with
  | zero => simp
  | succ k ih =>
    rw [List.range_succ, List.foldl_append]
    simp only [List.foldl_cons, List.foldl_nil, Buf.set]
    by_cases hik : i = k
    · subst hik
      simp
    · rw [if_neg hik, ih]
      by_cases hlt : i < k
      · rw [if_pos hlt, if_pos (by omega)]
      · rw [if_neg hlt, if_neg (by omega)]

theorem echo_request_bytes (s : ModbusSlave) (response : Buf) (n : Nat) :
    (echo_request s response n).bytes n = (s.frame.offset 1).bytes n := by
  apply Buf.bytes_congr
  intro i hi
  rw [echo_request_apply, if_pos hi]
  rfl

/-- The success path of handle_write_single_register. -/
theorem handle_write_single_register_success (s : ModbusSlave) (response : Buf) (n : Nat)
    (cb : ModbusWriteSingleCb) (hc : s.config.write_single_register = some cb)
    (he : cb (modbus_be16_get s.frame 2) (modbus_be16_get s.frame 4) = MODBUS_EX_NONE) :
    handle_write_single_register s response n =
      ⟨MODBUS_EX_NONE, echo_request s response 4, (n + 4) % 65536,
       [Call.write_single_register (modbus_be16_get s.frame 2) (modbus_be16_get s.frame 4)]⟩ := by
  simp only [handle_write_single_register, hc]
  rw [if_neg (by simp [he])]

/-- What poll transmits for a successful Write Single Register request: address,
function code, frame[2], frame[3], frame[4] and the CRC of these five bytes, 7 bytes in
all; frame[5] is not part of it. -/
theorem poll_write_single_register (s : ModbusSlave) (response0 : Buf)
    (cb : ModbusWriteSingleCb)
    (havail : s.frame_available = true) (hvalid : modbus_validate_frame s = 0)
    (hu : s.frame 0 ≠ 0) (hfc : s.frame 1 = 0x06)
    (hc : s.config.write_single_register = some cb)
    (he : cb (modbus_be16_get s.frame 2) (modbus_be16_get s.frame 4) = MODBUS_EX_NONE) :
    (modbus_slave_poll s response0).2 =
      [Call.write_single_register (modbus_be16_get s.frame 2) (modbus_be16_get s.frame 4),
       Call.write (with_crc [s.frame 0, 0x06, s.frame 2, s.frame 3, s.frame 4])] := by
  have hd := dispatch_write_single_register s (response0.offset 1) 0 hfc
  have hh := handle_write_single_register_success s (response0.offset 1) 0 cb hc he
  have hex : (dispatch s (response0.offset 1) 0).ex = MODBUS_EX_NONE := by rw [hd, hh]
  have h4 : List.range 4 = [0, 1, 2, 3] := rfl
  rw [poll_unicast_success_crc s response0 havail hvalid hu hex, hd, hh]
  simp only [show (0 + 4) % 65536 = 4 by rfl, Buf.bytes, h4,
    List.map_cons, List.map_nil, List.singleton_append, echo_request_apply]
  simp [hfc]

set_option maxRecDepth 100000 in
/-- C14 on the code: for own address 1 and successful callbacks, the requests
01 05 00 05 FF 00, 01 06 00 05 00 2A, 01 0F 00 00 00 10 02 12 34 and
01 10 00 00 00 01 02 12 34 (each followed by its CRC) are answered with 7 bytes:
address, function code, frame[2], frame[3], frame[4] and the CRC of these five. The
byte frame[5] is missing, so the answer is neither the 8 bytes the claim states nor,
for 0x05 and 0x06, the request ADU. -/
theorem C14_echo_response_on_code :
    ((modbus_slave_poll (receive_frame (init_slave full_config)
        (with_crc [0x01, 0x05, 0x00, 0x05, 0xFF, 0x00])) (fun _ => 0xEE)).2 =
      [Call.write_single_coil 5 1,
       Call.write (with_crc [0x01, 0x05, 0x00, 0x05, 0xFF])]) ∧
    ((modbus_slave_poll (receive_frame (init_slave full_config)
        (with_crc [0x01, 0x06, 0x00, 0x05, 0x00, 0x2A])) (fun _ => 0xEE)).2 =
      [Call.write_single_register 5 0x2A,
       Call.write [0x01, 0x06, 0x00, 0x05, 0x00, 0x1A, 0x18]]) ∧
    with_crc [0x01, 0x06, 0x00, 0x05, 0x00, 0x2A] =
      [0x01, 0x06, 0x00, 0x05, 0x00, 0x2A, 0x18, 0x14] ∧
    ((modbus_slave_poll (receive_frame (init_slave full_config)
        (with_crc [0x01, 0x0F, 0x00, 0x00, 0x00, 0x10, 0x02, 0x12, 0x34]))
        (fun _ => 0xEE)).2 =
      [Call.write_multiple_coils 0 16 7,
       Call.write (with_crc [0x01, 0x0F, 0x00, 0x00, 0x00])]) ∧
    ((modbus_slave_poll (receive_frame (init_slave full_config)
        (with_crc [0x01, 0x10, 0x00, 0x00, 0x00, 0x01, 0x02, 0x12, 0x34]))
        (fun _ => 0xEE)).2 =
      [Call.write_multiple_registers 0 1 7,
       Call.write (with_crc [0x01, 0x10, 0x00, 0x00, 0x00])]) := by
  decide

set_option maxRecDepth 100000 in
/-- C15 on the code: for own address 1 and a successful callback, the Mask Write
Register request 01 16 00 04 00 F2 00 25 67 EE is answered with 9 bytes: the first 7
request bytes and the CRC of these seven (4D 66). The low byte of the OR mask (frame[7])
is missing, so the answer is not the 10 bytes the claim states. -/
theorem C15_mask_write_response_on_code :
    with_crc [0x01, 0x16, 0x00, 0x04, 0x00, 0xF2, 0x00, 0x25] =
      [0x01, 0x16, 0x00, 0x04, 0x00, 0xF2, 0x00, 0x25, 0x67, 0xEE] ∧
    (modbus_slave_poll (receive_frame (init_slave full_config)
        [0x01, 0x16, 0x00, 0x04, 0x00, 0xF2, 0x00, 0x25, 0x67, 0xEE]) (fun _ => 0xEE)).2 =
      [Call.mask_write_register 4 0x00F2 0x0025,
       Call.write [0x01, 0x16, 0x00, 0x04, 0x00, 0xF2, 0x00, 0x4D, 0x66]] := by
  decide

/-! ## Validation of the multiple-write requests -/

theorem handle_write_multiple_coils_rejects (s : ModbusSlave) (response : Buf) (response_len : Nat)
    (cb : ModbusWriteMultipleCb) (hc : s.config.write_multiple_coils = some cb) :
    (modbus_be16_get s.frame 4 = 0 ∨ modbus_be16_get s.frame 4 > 1968 ∨
        s.frame 6 ≠ (modbus_be16_get s.frame 4 + 7) / 8) →
      handle_write_multiple_coils s response response_len =
        ⟨MODBUS_EX_ILLEGAL_DATA_VALUE, response, response_len, []⟩ := by
  intro hbad
  simp only [handle_write_multiple_coils, hc]
  by_cases hq : modbus_be16_get s.frame 4 < 1 ∨ modbus_be16_get s.frame 4 > 1968
  · rw [if_pos hq]
  · have hb : s.frame 6 ≠ (modbus_be16_get s.frame 4 + 7) / 8 := by
      rcases hbad with h1 | h1 | h1
      · exact absurd (Or.inl (by omega)) hq
      · exact absurd (Or.inr h1) hq
      · exact h1
    rw [if_neg hq, if_pos hb]

theorem handle_write_multiple_coils_validation (s : ModbusSlave) (response : Buf) (response_len : Nat)
    (cb : ModbusWriteMultipleCb) (hc : s.config.write_multiple_coils = some cb) :
    (((handle_write_multiple_coils s response response_len).ex = MODBUS_EX_ILLEGAL_DATA_VALUE ∧
        (handle_write_multiple_coils s response response_len).calls = []) ↔
      (modbus_be16_get s.frame 4 = 0 ∨ modbus_be16_get s.frame 4 > 1968 ∨
        s.frame 6 ≠ (modbus_be16_get s.frame 4 + 7) / 8)) ∧
    (¬ (modbus_be16_get s.frame 4 = 0 ∨ modbus_be16_get s.frame 4 > 1968 ∨
        s.frame 6 ≠ (modbus_be16_get s.frame 4 + 7) / 8) →
      (handle_write_multiple_coils s response response_len).calls =
        [Call.write_multiple_coils (modbus_be16_get s.frame 2) (modbus_be16_get s.frame 4) 7] ∧
      (handle_write_multiple_coils s response response_len).ex =
        cb (modbus_be16_get s.frame 2) (modbus_be16_get s.frame 4) (s.frame.offset 7)) := by
  by_cases hbad : (modbus_be16_get s.frame 4 = 0 ∨ modbus_be16_get s.frame 4 > 1968 ∨
        s.frame 6 ≠ (modbus_be16_get s.frame 4 + 7) / 8)
  · have h9 := (handle_write_multiple_coils_rejects s response response_len cb hc) hbad
    rw [h9]
    exact ⟨⟨fun _ => hbad, fun _ => ⟨rfl, rfl⟩⟩, fun hn => absurd hbad hn⟩
  · have hq : ¬ (modbus_be16_get s.frame 4 < 1 ∨ modbus_be16_get s.frame 4 > 1968) := by omega
    have hb : ¬ (s.frame 6 ≠ (modbus_be16_get s.frame 4 + 7) / 8) := by
      intro hb
      exact hbad (Or.inr (Or.inr hb))
    simp only [handle_write_multiple_coils, hc]
    rw [if_neg hq, if_neg hb]
    obtain ⟨p1, p2⟩ := pass_on
      (cb (modbus_be16_get s.frame 2) (modbus_be16_get s.frame 4) (s.frame.offset 7))
      response (echo_request s response 4) response_len ((response_len + 4) % 65536)
      [Call.write_multiple_coils (modbus_be16_get s.frame 2) (modbus_be16_get s.frame 4) 7]
    refine ⟨⟨fun hx => ?_, fun hx => absurd hx hbad⟩, fun _ => ⟨p1, p2⟩⟩
    rw [p1] at hx
    exact absurd hx.2 (by simp)

theorem handle_write_multiple_registers_rejects (s : ModbusSlave) (response : Buf) (response_len : Nat)
    (cb : ModbusWriteMultipleCb) (hc : s.config.write_multiple_registers = some cb) :
    (modbus_be16_get s.frame 4 = 0 ∨ modbus_be16_get s.frame 4 > 123 ∨
        s.frame 6 ≠ modbus_be16_get s.frame 4 * 2) →
      handle_write_multiple_registers s response response_len =
        ⟨MODBUS_EX_ILLEGAL_DATA_VALUE, response, response_len, []⟩ := by
  intro hbad
  simp only [handle_write_multiple_registers, hc]
  by_cases hq : modbus_be16_get s.frame 4 < 1 ∨ modbus_be16_get s.frame 4 > 123
  · rw [if_pos hq]
  · have hb : s.frame 6 ≠ modbus_be16_get s.frame 4 * 2 := by
      rcases hbad with h1 | h1 | h1
      · exact absurd (Or.inl (by omega)) hq
      · exact absurd (Or.inr h1) hq
      · exact h1
    rw [if_neg hq, if_pos hb]

theorem handle_write_multiple_registers_validation (s : ModbusSlave) (response : Buf) (response_len : Nat)
    (cb : ModbusWriteMultipleCb) (hc : s.config.write_multiple_registers = some cb) :
    (((handle_write_multiple_registers s response response_len).ex = MODBUS_EX_ILLEGAL_DATA_VALUE ∧
        (handle_write_multiple_registers s response response_len).calls = []) ↔
      (modbus_be16_get s.frame 4 = 0 ∨ modbus_be16_get s.frame 4 > 123 ∨
        s.frame 6 ≠ modbus_be16_get s.frame 4 * 2)) ∧
    (¬ (modbus_be16_get s.frame 4 = 0 ∨ modbus_be16_get s.frame 4 > 123 ∨
        s.frame 6 ≠ modbus_be16_get s.frame 4 * 2) →
      (handle_write_multiple_registers s response response_len).calls =
        [Call.write_multiple_registers (modbus_be16_get s.frame 2) (modbus_be16_get s.frame 4) 7] ∧
      (handle_write_multiple_registers s response response_len).ex =
        cb (modbus_be16_get s.frame 2) (modbus_be16_get s.frame 4) (s.frame.offset 7)) := by
  by_cases hbad : (modbus_be16_get s.frame 4 = 0 ∨ modbus_be16_get s.frame 4 > 123 ∨
        s.frame 6 ≠ modbus_be16_get s.frame 4 * 2)
  · have h9 := (handle_write_multiple_registers_rejects s response response_len cb hc) hbad
    rw [h9]
    exact ⟨⟨fun _ => hbad, fun _ => ⟨rfl, rfl⟩⟩, fun hn => absurd hbad hn⟩
  · have hq : ¬ (modbus_be16_get s.frame 4 < 1 ∨ modbus_be16_get s.frame 4 > 123) := by omega
    have hb : ¬ (s.frame 6 ≠ modbus_be16_get s.frame 4 * 2) := by
      intro hb
      exact hbad (Or.inr (Or.inr hb))
    simp only [handle_write_multiple_registers, hc]
    rw [if_neg hq, if_neg hb]
    obtain ⟨p1, p2⟩ := pass_on
      (cb (modbus_be16_get s.frame 2) (modbus_be16_get s.frame 4) (s.frame.offset 7))
      response (echo_request s response 4) response_len ((response_len + 4) % 65536)
      [Call.write_multiple_registers (modbus_be16_get s.frame 2) (modbus_be16_get s.frame 4) 7]
    refine ⟨⟨fun hx => ?_, fun hx => absurd hx hbad⟩, fun _ => ⟨p1, p2⟩⟩
    rw [p1] at hx
    exact absurd hx.2 (by simp)

/-- C16, as stated, fails: with the mock callback of the write-multiple-coils test, which
answers MODBUS_EX_ILLEGAL_DATA_VALUE for more than 100 coils, the request
01 0F 00 00 00 68 0D and 13 data bytes (quantity 104, byte-count 13 = ceil(104/8)) passes
every check, the callback is invoked, and the handler returns
MODBUS_EX_ILLEGAL_DATA_VALUE. -/
theorem C16_write_multiple_coils_validation_counterexample :
    ¬ ((handle_write_multiple_coils (latched mock_config [0x01, 0x0F, 0x00, 0x00, 0x00, 0x68, 0x0D, 1, 2, 3, 4, 5, 6, 7, 8, 9, 10, 11, 12, 13]) (fun _ => 0xEE) 0).ex =
          MODBUS_EX_ILLEGAL_DATA_VALUE ↔
        (modbus_be16_get (latched mock_config [0x01, 0x0F, 0x00, 0x00, 0x00, 0x68, 0x0D, 1, 2, 3, 4, 5, 6, 7, 8, 9, 10, 11, 12, 13]).frame 4 = 0 ∨
         modbus_be16_get (latched mock_config [0x01, 0x0F, 0x00, 0x00, 0x00, 0x68, 0x0D, 1, 2, 3, 4, 5, 6, 7, 8, 9, 10, 11, 12, 13]).frame 4 > 1968 ∨
         (latched mock_config [0x01, 0x0F, 0x00, 0x00, 0x00, 0x68, 0x0D, 1, 2, 3, 4, 5, 6, 7, 8, 9, 10, 11, 12, 13]).frame 6 ≠
           (modbus_be16_get (latched mock_config [0x01, 0x0F, 0x00, 0x00, 0x00, 0x68, 0x0D, 1, 2, 3, 4, 5, 6, 7, 8, 9, 10, 11, 12, 13]).frame 4 + 7) / 8)) ∧
    (handle_write_multiple_coils (latched mock_config [0x01, 0x0F, 0x00, 0x00, 0x00, 0x68, 0x0D, 1, 2, 3, 4, 5, 6, 7, 8, 9, 10, 11, 12, 13]) (fun _ => 0xEE) 0).calls =
      [Call.write_multiple_coils 0 104 7] := by
  decide

/-- C16, amended. With the callback configured, handle_write_multiple_coils returns
MODBUS_EX_ILLEGAL_DATA_VALUE without invoking the callback if and only if the quantity q
at offset 4 is 0 or greater than 1968, or the byte-count at offset 6 differs from
ceil(q/8); otherwise the callback is invoked, once, with (start, q, data at offset 7)
and the handler returns the code the callback returned. -/
theorem C16_write_multiple_coils_validation (s : ModbusSlave) (response : Buf) (response_len : Nat)
    (cb : ModbusWriteMultipleCb) (hc : s.config.write_multiple_coils = some cb) :
    (((handle_write_multiple_coils s response response_len).ex = MODBUS_EX_ILLEGAL_DATA_VALUE ∧
        (handle_write_multiple_coils s response response_len).calls = []) ↔
      (modbus_be16_get s.frame 4 = 0 ∨ modbus_be16_get s.frame 4 > 1968 ∨
        s.frame 6 ≠ (modbus_be16_get s.frame 4 + 7) / 8)) ∧
    (¬ (modbus_be16_get s.frame 4 = 0 ∨ modbus_be16_get s.frame 4 > 1968 ∨
        s.frame 6 ≠ (modbus_be16_get s.frame 4 + 7) / 8) →
      (handle_write_multiple_coils s response response_len).calls =
        [Call.write_multiple_coils (modbus_be16_get s.frame 2) (modbus_be16_get s.frame 4) 7] ∧
      (handle_write_multiple_coils s response response_len).ex =
        cb (modbus_be16_get s.frame 2) (modbus_be16_get s.frame 4) (s.frame.offset 7)) :=
  handle_write_multiple_coils_validation s response response_len cb hc

set_option maxRecDepth 100000 in
/-- C16, amended, at the request 01 0F 00 00 00 10 03 12 34 56 (quantity 16, byte-count
3): the handler rejects it without invoking the callback, and poll answers the request
followed by its CRC with the exception response 01 8F 03 and its CRC (04 31); with
byte-count 2 the callback is invoked with (0, 16, data at offset 7). -/
theorem C16_write_multiple_coils_validation_witness :
    ((handle_write_multiple_coils
        (latched mock_config [0x01, 0x0F, 0x00, 0x00, 0x00, 0x10, 0x03, 0x12, 0x34, 0x56])
        (fun _ => 0xEE) 0).ex = MODBUS_EX_ILLEGAL_DATA_VALUE ∧
     (handle_write_multiple_coils
        (latched mock_config [0x01, 0x0F, 0x00, 0x00, 0x00, 0x10, 0x03, 0x12, 0x34, 0x56])
        (fun _ => 0xEE) 0).calls = []) ∧
    (modbus_slave_poll (receive_frame (init_slave mock_config)
        (with_crc [0x01, 0x0F, 0x00, 0x00, 0x00, 0x10, 0x03, 0x12, 0x34, 0x56]))
        (fun _ => 0xEE)).2 = [Call.write [0x01, 0x8F, 0x03, 0x04, 0x31]] ∧
    ((handle_write_multiple_coils
        (latched mock_config [0x01, 0x0F, 0x00, 0x00, 0x00, 0x10, 0x02, 0x12, 0x34])
        (fun _ => 0xEE) 0).calls = [Call.write_multiple_coils 0 16 7] ∧
     (handle_write_multiple_coils
        (latched mock_config [0x01, 0x0F, 0x00, 0x00, 0x00, 0x10, 0x02, 0x12, 0x34])
        (fun _ => 0xEE) 0).ex = MODBUS_EX_NONE) :=
  ⟨(C16_write_multiple_coils_validation
      (latched mock_config [0x01, 0x0F, 0x00, 0x00, 0x00, 0x10, 0x03, 0x12, 0x34, 0x56])
      (fun _ => 0xEE) 0 mock_write_multiple_coils rfl).1.mpr (by decide),
   by decide,
   (C16_write_multiple_coils_validation
      (latched mock_config [0x01, 0x0F, 0x00, 0x00, 0x00, 0x10, 0x02, 0x12, 0x34])
      (fun _ => 0xEE) 0 mock_write_multiple_coils rfl).2 (by decide)⟩

/-- C17, as stated, fails: with a callback that answers MODBUS_EX_ILLEGAL_DATA_VALUE, the
request 01 10 00 00 00 01 02 12 34 (quantity 1, byte-count 2) passes every check, the
callback is invoked, and the handler returns MODBUS_EX_ILLEGAL_DATA_VALUE. -/
theorem C17_write_multiple_registers_validation_counterexample :
    ¬ ((handle_write_multiple_registers (latched refusing_write_config [0x01, 0x10, 0x00, 0x00, 0x00, 0x01, 0x02, 0x12, 0x34]) (fun _ => 0xEE) 0).ex =
          MODBUS_EX_ILLEGAL_DATA_VALUE ↔
        (modbus_be16_get (latched refusing_write_config [0x01, 0x10, 0x00, 0x00, 0x00, 0x01, 0x02, 0x12, 0x34]).frame 4 = 0 ∨
         modbus_be16_get (latched refusing_write_config [0x01, 0x10, 0x00, 0x00, 0x00, 0x01, 0x02, 0x12, 0x34]).frame 4 > 123 ∨
         (latched refusing_write_config [0x01, 0x10, 0x00, 0x00, 0x00, 0x01, 0x02, 0x12, 0x34]).frame 6 ≠
           modbus_be16_get (latched refusing_write_config [0x01, 0x10, 0x00, 0x00, 0x00, 0x01, 0x02, 0x12, 0x34]).frame 4 * 2)) ∧
    (handle_write_multiple_registers (latched refusing_write_config [0x01, 0x10, 0x00, 0x00, 0x00, 0x01, 0x02, 0x12, 0x34]) (fun _ => 0xEE) 0).calls =
      [Call.write_multiple_registers 0 1 7] := by
  decide

/-- C17, amended. With the callback configured, handle_write_multiple_registers returns
MODBUS_EX_ILLEGAL_DATA_VALUE without invoking the callback if and only if the quantity q
at offset 4 is 0 or greater than 123, or the byte-count at offset 6 differs from 2*q;
otherwise the callback is invoked, once, with (start, q, data at offset 7) and the
handler's result is the callback's result. -/
theorem C17_write_multiple_registers_validation (s : ModbusSlave) (response : Buf) (response_len : Nat)
    (cb : ModbusWriteMultipleCb) (hc : s.config.write_multiple_registers = some cb) :
    (((handle_write_multiple_registers s response response_len).ex = MODBUS_EX_ILLEGAL_DATA_VALUE ∧
        (handle_write_multiple_registers s response response_len).calls = []) ↔
      (modbus_be16_get s.frame 4 = 0 ∨ modbus_be16_get s.frame 4 > 123 ∨
        s.frame 6 ≠ modbus_be16_get s.frame 4 * 2)) ∧
    (¬ (modbus_be16_get s.frame 4 = 0 ∨ modbus_be16_get s.frame 4 > 123 ∨
        s.frame 6 ≠ modbus_be16_get s.frame 4 * 2) →
      (handle_write_multiple_registers s response response_len).calls =
        [Call.write_multiple_registers (modbus_be16_get s.frame 2) (modbus_be16_get s.frame 4) 7] ∧
      (handle_write_multiple_registers s response response_len).ex =
        cb (modbus_be16_get s.frame 2) (modbus_be16_get s.frame 4) (s.frame.offset 7)) :=
  handle_write_multiple_registers_validation s response response_len cb hc

/-- C17, amended, at the quantities 0 and 124, at a byte-count mismatch and at a request
inside the bounds (quantity 123, byte-count 246), with all callbacks configured. -/
theorem C17_write_multiple_registers_validation_witness :
    ((handle_write_multiple_registers
        (latched full_config [0x01, 0x10, 0x00, 0x00, 0x00, 0x00, 0x00])
        (fun _ => 0xEE) 0).ex = MODBUS_EX_ILLEGAL_DATA_VALUE ∧
     (handle_write_multiple_registers
        (latched full_config [0x01, 0x10, 0x00, 0x00, 0x00, 0x00, 0x00])
        (fun _ => 0xEE) 0).calls = []) ∧
    ((handle_write_multiple_registers
        (latched full_config [0x01, 0x10, 0x00, 0x00, 0x00, 0x7C, 0xF8])
        (fun _ => 0xEE) 0).ex = MODBUS_EX_ILLEGAL_DATA_VALUE ∧
     (handle_write_multiple_registers
        (latched full_config [0x01, 0x10, 0x00, 0x00, 0x00, 0x7C, 0xF8])
        (fun _ => 0xEE) 0).calls = []) ∧
    ((handle_write_multiple_registers
        (latched full_config [0x01, 0x10, 0x00, 0x00, 0x00, 0x02, 0x03, 0x12, 0x34, 0x56])
        (fun _ => 0xEE) 0).ex = MODBUS_EX_ILLEGAL_DATA_VALUE ∧
     (handle_write_multiple_registers
        (latched full_config [0x01, 0x10, 0x00, 0x00, 0x00, 0x02, 0x03, 0x12, 0x34, 0x56])
        (fun _ => 0xEE) 0).calls = []) ∧
    ((handle_write_multiple_registers
        (latched full_config [0x01, 0x10, 0x00, 0x00, 0x00, 0x7B, 0xF6])
        (fun _ => 0xEE) 0).calls = [Call.write_multiple_registers 0 123 7] ∧
     (handle_write_multiple_registers
        (latched full_config [0x01, 0x10, 0x00, 0x00, 0x00, 0x7B, 0xF6])
        (fun _ => 0xEE) 0).ex = MODBUS_EX_NONE) :=
  ⟨(C17_write_multiple_registers_validation
      (latched full_config [0x01, 0x10, 0x00, 0x00, 0x00, 0x00, 0x00])
      (fun _ => 0xEE) 0 _ rfl).1.mpr (by decide),
   (C17_write_multiple_registers_validation
      (latched full_config [0x01, 0x10, 0x00, 0x00, 0x00, 0x7C, 0xF8])
      (fun _ => 0xEE) 0 _ rfl).1.mpr (by decide),
   (C17_write_multiple_registers_validation
      (latched full_config [0x01, 0x10, 0x00, 0x00, 0x00, 0x02, 0x03, 0x12, 0x34, 0x56])
      (fun _ => 0xEE) 0 _ rfl).1.mpr (by decide),
   (C17_write_multiple_registers_validation
      (latched full_config [0x01, 0x10, 0x00, 0x00, 0x00, 0x7B, 0xF6])
      (fun _ => 0xEE) 0 _ rfl).2 (by decide)⟩

/-! ## Read/Write Multiple Registers -/

theorem handle_read_write_multiple_registers_rejects (s : ModbusSlave) (response : Buf)
    (response_len : Nat) (cb : ModbusReadWriteMultipleRegistersCb)
    (hc : s.config.read_write_multiple_registers = some cb) :
    (modbus_be16_get s.frame 4 = 0 ∨ modbus_be16_get s.frame 4 > 125 ∨
        modbus_be16_get s.frame 8 = 0 ∨ modbus_be16_get s.frame 8 > 121 ∨
        s.frame 10 ≠ modbus_be16_get s.frame 8 * 2) →
      handle_read_write_multiple_registers s response response_len =
        ⟨MODBUS_EX_ILLEGAL_DATA_VALUE, response, response_len, []⟩ := by
  intro hbad
  simp only [handle_read_write_multiple_registers, hc]
  by_cases hq : modbus_be16_get s.frame 4 < 1 ∨ modbus_be16_get s.frame 4 > 125
  · rw [if_pos hq]
  · rw [if_neg hq]
    by_cases hw : modbus_be16_get s.frame 8 < 1 ∨ modbus_be16_get s.frame 8 > 121
    · rw [if_pos hw]
    · have hb : s.frame 10 ≠ modbus_be16_get s.frame 8 * 2 := by
        rcases hbad with h1 | h1 | h1 | h1 | h1
        · exact absurd (Or.inl (by omega)) hq
        · exact absurd (Or.inr h1) hq
        · exact absurd (Or.inl (by omega)) hw
        · exact absurd (Or.inr h1) hw
        · exact h1
      rw [if_neg hw, if_pos hb]

/-- Inside the bounds the handler invokes the callback and either passes its exception
on or completes the response. -/
theorem handle_read_write_multiple_registers_in_bounds (s : ModbusSlave) (response : Buf)
    (response_len : Nat) (cb : ModbusReadWriteMultipleRegistersCb)
    (hc : s.config.read_write_multiple_registers = some cb)
    (hok : ¬ (modbus_be16_get s.frame 4 = 0 ∨ modbus_be16_get s.frame 4 > 125 ∨
        modbus_be16_get s.frame 8 = 0 ∨ modbus_be16_get s.frame 8 > 121 ∨
        s.frame 10 ≠ modbus_be16_get s.frame 8 * 2)) :
    handle_read_write_multiple_registers s response response_len =
      if (cb (modbus_be16_get s.frame 2) (modbus_be16_get s.frame 4)
          (modbus_be16_get s.frame 6) (modbus_be16_get s.frame 8) (s.frame.offset 11) (response.offset 2)).1 ≠ MODBUS_EX_NONE then
        ⟨(cb (modbus_be16_get s.frame 2) (modbus_be16_get s.frame 4)
          (modbus_be16_get s.frame 6) (modbus_be16_get s.frame 8) (s.frame.offset 11) (response.offset 2)).1,
         response.splice 2 (cb (modbus_be16_get s.frame 2) (modbus_be16_get s.frame 4)
          (modbus_be16_get s.frame 6) (modbus_be16_get s.frame 8) (s.frame.offset 11) (response.offset 2)).2,
         response_len,
         [Call.read_write_multiple_registers (modbus_be16_get s.frame 2) (modbus_be16_get s.frame 4)
          (modbus_be16_get s.frame 6) (modbus_be16_get s.frame 8) 11 2]⟩
      else
        ⟨MODBUS_EX_NONE,
         ((response.splice 2 (cb (modbus_be16_get s.frame 2) (modbus_be16_get s.frame 4)
          (modbus_be16_get s.frame 6) (modbus_be16_get s.frame 8) (s.frame.offset 11) (response.offset 2)).2).set 0 (s.frame 1)).set 1
           (modbus_be16_get s.frame 4 * 2),
         (response_len + (2 + modbus_be16_get s.frame 4 * 2)) % 65536,
         [Call.read_write_multiple_registers (modbus_be16_get s.frame 2) (modbus_be16_get s.frame 4)
          (modbus_be16_get s.frame 6) (modbus_be16_get s.frame 8) 11 2]⟩ := by
  have hq : ¬ (modbus_be16_get s.frame 4 < 1 ∨ modbus_be16_get s.frame 4 > 125) := by omega
  have hw : ¬ (modbus_be16_get s.frame 8 < 1 ∨ modbus_be16_get s.frame 8 > 121) := by omega
  have hb : ¬ (s.frame 10 ≠ modbus_be16_get s.frame 8 * 2) := by
    intro hb
    exact hok (Or.inr (Or.inr (Or.inr (Or.inr hb))))
  have hm : (modbus_be16_get s.frame 4 * 2) % 256 = modbus_be16_get s.frame 4 * 2 := by omega
  simp only [handle_read_write_multiple_registers, hc]
  rw [if_neg hq, if_neg hw, if_neg hb]
  simp only [Buf.set_same, hm]

theorem handle_read_write_multiple_registers_validation (s : ModbusSlave) (response : Buf)
    (response_len : Nat) (cb : ModbusReadWriteMultipleRegistersCb)
    (hc : s.config.read_write_multiple_registers = some cb) :
    (((handle_read_write_multiple_registers s response response_len).ex = MODBUS_EX_ILLEGAL_DATA_VALUE ∧
        (handle_read_write_multiple_registers s response response_len).calls = []) ↔
      (modbus_be16_get s.frame 4 = 0 ∨ modbus_be16_get s.frame 4 > 125 ∨
        modbus_be16_get s.frame 8 = 0 ∨ modbus_be16_get s.frame 8 > 121 ∨
        s.frame 10 ≠ modbus_be16_get s.frame 8 * 2)) ∧
    (¬ (modbus_be16_get s.frame 4 = 0 ∨ modbus_be16_get s.frame 4 > 125 ∨
        modbus_be16_get s.frame 8 = 0 ∨ modbus_be16_get s.frame 8 > 121 ∨
        s.frame 10 ≠ modbus_be16_get s.frame 8 * 2) →
      (handle_read_write_multiple_registers s response response_len).calls =
        [Call.read_write_multiple_registers (modbus_be16_get s.frame 2) (modbus_be16_get s.frame 4)
          (modbus_be16_get s.frame 6) (modbus_be16_get s.frame 8) 11 2] ∧
      (handle_read_write_multiple_registers s response response_len).ex =
        (cb (modbus_be16_get s.frame 2) (modbus_be16_get s.frame 4)
          (modbus_be16_get s.frame 6) (modbus_be16_get s.frame 8) (s.frame.offset 11) (response.offset 2)).1) := by
  by_cases hbad : (modbus_be16_get s.frame 4 = 0 ∨ modbus_be16_get s.frame 4 > 125 ∨
        modbus_be16_get s.frame 8 = 0 ∨ modbus_be16_get s.frame 8 > 121 ∨
        s.frame 10 ≠ modbus_be16_get s.frame 8 * 2)
  · rw [handle_read_write_multiple_registers_rejects s response response_len cb hc hbad]
    exact ⟨⟨fun _ => hbad, fun _ => ⟨rfl, rfl⟩⟩, fun hn => absurd hbad hn⟩
  · rw [handle_read_write_multiple_registers_in_bounds s response response_len cb hc hbad]
    obtain ⟨p1, p2⟩ := pass_on (cb (modbus_be16_get s.frame 2) (modbus_be16_get s.frame 4)
          (modbus_be16_get s.frame 6) (modbus_be16_get s.frame 8) (s.frame.offset 11) (response.offset 2)).1
      (response.splice 2 (cb (modbus_be16_get s.frame 2) (modbus_be16_get s.frame 4)
          (modbus_be16_get s.frame 6) (modbus_be16_get s.frame 8) (s.frame.offset 11) (response.offset 2)).2)
      (((response.splice 2 (cb (modbus_be16_get s.frame 2) (modbus_be16_get s.frame 4)
          (modbus_be16_get s.frame 6) (modbus_be16_get s.frame 8) (s.frame.offset 11) (response.offset 2)).2).set 0 (s.frame 1)).set 1
           (modbus_be16_get s.frame 4 * 2))
      response_len ((response_len + (2 + modbus_be16_get s.frame 4 * 2)) % 65536)
      [Call.read_write_multiple_registers (modbus_be16_get s.frame 2) (modbus_be16_get s.frame 4)
          (modbus_be16_get s.frame 6) (modbus_be16_get s.frame 8) 11 2]
    refine ⟨⟨fun hx => ?_, fun hx => absurd hx hbad⟩, fun _ => ⟨p1, p2⟩⟩
    rw [p1] at hx
    exact absurd hx.2 (by simp)

/-- C18, as stated, fails: with a callback that answers MODBUS_EX_ILLEGAL_DATA_VALUE, the
request of test_handle_read_write_multiple_registers_valid (read quantity 2, write
quantity 2, write byte-count 4) passes every check, the callback is invoked, and the
handler returns MODBUS_EX_ILLEGAL_DATA_VALUE. -/
theorem C18_read_write_validation_counterexample :
    ¬ ((handle_read_write_multiple_registers (latched refusing_write_config
        [0x01, 0x17, 0x01, 0x00, 0x00, 0x02, 0x02, 0x00, 0x00, 0x02, 0x04, 0x12, 0x34, 0x56, 0x78]) (fun _ => 0xEE) 0).ex =
          MODBUS_EX_ILLEGAL_DATA_VALUE ↔
        (modbus_be16_get (latched refusing_write_config
        [0x01, 0x17, 0x01, 0x00, 0x00, 0x02, 0x02, 0x00, 0x00, 0x02, 0x04, 0x12, 0x34, 0x56, 0x78]).frame 4 = 0 ∨
         modbus_be16_get (latched refusing_write_config
        [0x01, 0x17, 0x01, 0x00, 0x00, 0x02, 0x02, 0x00, 0x00, 0x02, 0x04, 0x12, 0x34, 0x56, 0x78]).frame 4 > 125 ∨
         modbus_be16_get (latched refusing_write_config
        [0x01, 0x17, 0x01, 0x00, 0x00, 0x02, 0x02, 0x00, 0x00, 0x02, 0x04, 0x12, 0x34, 0x56, 0x78]).frame 8 = 0 ∨
         modbus_be16_get (latched refusing_write_config
        [0x01, 0x17, 0x01, 0x00, 0x00, 0x02, 0x02, 0x00, 0x00, 0x02, 0x04, 0x12, 0x34, 0x56, 0x78]).frame 8 > 121 ∨
         (latched refusing_write_config
        [0x01, 0x17, 0x01, 0x00, 0x00, 0x02, 0x02, 0x00, 0x00, 0x02, 0x04, 0x12, 0x34, 0x56, 0x78]).frame 10 ≠
           modbus_be16_get (latched refusing_write_config
        [0x01, 0x17, 0x01, 0x00, 0x00, 0x02, 0x02, 0x00, 0x00, 0x02, 0x04, 0x12, 0x34, 0x56, 0x78]).frame 8 * 2)) ∧
    (handle_read_write_multiple_registers (latched refusing_write_config
        [0x01, 0x17, 0x01, 0x00, 0x00, 0x02, 0x02, 0x00, 0x00, 0x02, 0x04, 0x12, 0x34, 0x56, 0x78]) (fun _ => 0xEE) 0).calls =
      [Call.read_write_multiple_registers 0x0100 2 0x0200 2 11 2] := by
  decide

/-- C18, amended. With the callback configured, handle_read_write_multiple_registers
returns MODBUS_EX_ILLEGAL_DATA_VALUE without invoking the callback if and only if the
read quantity at offset 4 is outside 1..125, or the write quantity at offset 8 is
outside 1..121, or the write byte-count at offset 10 differs from 2 * write quantity; in
every other case the callback is invoked, once, and the handler returns the code the
callback returned. -/
theorem C18_read_write_validation (s : ModbusSlave) (response : Buf) (response_len : Nat)
    (cb : ModbusReadWriteMultipleRegistersCb)
    (hc : s.config.read_write_multiple_registers = some cb) :
    (((handle_read_write_multiple_registers s response response_len).ex = MODBUS_EX_ILLEGAL_DATA_VALUE ∧
        (handle_read_write_multiple_registers s response response_len).calls = []) ↔
      (modbus_be16_get s.frame 4 = 0 ∨ modbus_be16_get s.frame 4 > 125 ∨
        modbus_be16_get s.frame 8 = 0 ∨ modbus_be16_get s.frame 8 > 121 ∨
        s.frame 10 ≠ modbus_be16_get s.frame 8 * 2)) ∧
    (¬ (modbus_be16_get s.frame 4 = 0 ∨ modbus_be16_get s.frame 4 > 125 ∨
        modbus_be16_get s.frame 8 = 0 ∨ modbus_be16_get s.frame 8 > 121 ∨
        s.frame 10 ≠ modbus_be16_get s.frame 8 * 2) →
      (handle_read_write_multiple_registers s response response_len).calls =
        [Call.read_write_multiple_registers (modbus_be16_get s.frame 2) (modbus_be16_get s.frame 4)
          (modbus_be16_get s.frame 6) (modbus_be16_get s.frame 8) 11 2] ∧
      (handle_read_write_multiple_registers s response response_len).ex =
        (cb (modbus_be16_get s.frame 2) (modbus_be16_get s.frame 4)
          (modbus_be16_get s.frame 6) (modbus_be16_get s.frame 8) (s.frame.offset 11) (response.offset 2)).1) :=
  handle_read_write_multiple_registers_validation s response response_len cb hc

/-- C18, amended, at the request of the valid test and at its variants with read
quantity 126, write quantity 122 and write byte-count 5, with the mock callback of the
test file. -/
theorem C18_read_write_validation_witness :
    ((handle_read_write_multiple_registers (latched mock_config
        [0x01, 0x17, 0x01, 0x00, 0x00, 0x02, 0x02, 0x00, 0x00, 0x02, 0x04, 0x12, 0x34, 0x56, 0x78]) (fun _ => 0xEE) 0).calls =
        [Call.read_write_multiple_registers 0x0100 2 0x0200 2 11 2] ∧
     (handle_read_write_multiple_registers (latched mock_config
        [0x01, 0x17, 0x01, 0x00, 0x00, 0x02, 0x02, 0x00, 0x00, 0x02, 0x04, 0x12, 0x34, 0x56, 0x78]) (fun _ => 0xEE) 0).ex = MODBUS_EX_NONE) ∧
    ((handle_read_write_multiple_registers (latched mock_config
        [0x01, 0x17, 0x01, 0x00, 0x00, 0x7E, 0x02, 0x00, 0x00, 0x02, 0x04, 0x12, 0x34, 0x56, 0x78])
        (fun _ => 0xEE) 0).ex = MODBUS_EX_ILLEGAL_DATA_VALUE ∧
     (handle_read_write_multiple_registers (latched mock_config
        [0x01, 0x17, 0x01, 0x00, 0x00, 0x7E, 0x02, 0x00, 0x00, 0x02, 0x04, 0x12, 0x34, 0x56, 0x78])
        (fun _ => 0xEE) 0).calls = []) ∧
    ((handle_read_write_multiple_registers (latched mock_config
        [0x01, 0x17, 0x01, 0x00, 0x00, 0x02, 0x02, 0x00, 0x00, 0x7A, 0xF4, 0x12, 0x34, 0x56, 0x78])
        (fun _ => 0xEE) 0).ex = MODBUS_EX_ILLEGAL_DATA_VALUE ∧
     (handle_read_write_multiple_registers (latched mock_config
        [0x01, 0x17, 0x01, 0x00, 0x00, 0x02, 0x02, 0x00, 0x00, 0x7A, 0xF4, 0x12, 0x34, 0x56, 0x78])
        (fun _ => 0xEE) 0).calls = []) ∧
    ((handle_read_write_multiple_registers (latched mock_config
        [0x01, 0x17, 0x01, 0x00, 0x00, 0x02, 0x02, 0x00, 0x00, 0x02, 0x05, 0x12, 0x34, 0x56, 0x78])
        (fun _ => 0xEE) 0).ex = MODBUS_EX_ILLEGAL_DATA_VALUE ∧
     (handle_read_write_multiple_registers (latched mock_config
        [0x01, 0x17, 0x01, 0x00, 0x00, 0x02, 0x02, 0x00, 0x00, 0x02, 0x05, 0x12, 0x34, 0x56, 0x78])
        (fun _ => 0xEE) 0).calls = []) :=
  ⟨(C18_read_write_validation (latched mock_config
        [0x01, 0x17, 0x01, 0x00, 0x00, 0x02, 0x02, 0x00, 0x00, 0x02, 0x04, 0x12, 0x34, 0x56, 0x78]) (fun _ => 0xEE) 0 _ rfl).2 (by decide),
   (C18_read_write_validation (latched mock_config
        [0x01, 0x17, 0x01, 0x00, 0x00, 0x7E, 0x02, 0x00, 0x00, 0x02, 0x04, 0x12, 0x34, 0x56, 0x78])
      (fun _ => 0xEE) 0 _ rfl).1.mpr (by decide),
   (C18_read_write_validation (latched mock_config
        [0x01, 0x17, 0x01, 0x00, 0x00, 0x02, 0x02, 0x00, 0x00, 0x7A, 0xF4, 0x12, 0x34, 0x56, 0x78])
      (fun _ => 0xEE) 0 _ rfl).1.mpr (by decide),
   (C18_read_write_validation (latched mock_config
        [0x01, 0x17, 0x01, 0x00, 0x00, 0x02, 0x02, 0x00, 0x00, 0x02, 0x05, 0x12, 0x34, 0x56, 0x78])
      (fun _ => 0xEE) 0 _ rfl).1.mpr (by decide)⟩

/-- C19. Read/Write Multiple Registers success path: for a request with function code
0x17 within the bounds, the user callback is invoked exactly once, with read address =
BE16 at offset 2, read quantity rq = BE16 at offset 4, write address = BE16 at offset 6,
write quantity = BE16 at offset 8, the write data starting at frame offset 11 and the read
destination starting at response[2], and the handler returns the callback's code; when
that is MODBUS_EX_NONE the handler returns MODBUS_EX_NONE with response[0] = 0x17,
response[1] = 2*rq, the callback's data from response[2] on, and *response_len increased
by exactly 2 + 2*rq (*response_len is a uint16_t; the increase is stated where it does
not overflow, as for the 0 that modbus_process_frame passes). -/
theorem C19_read_write_success (s : ModbusSlave) (response : Buf) (response_len : Nat)
    (cb : ModbusReadWriteMultipleRegistersCb)
    (hc : s.config.read_write_multiple_registers = some cb)
    (hfc : s.frame 1 = 0x17)
    (hrq1 : 1 ≤ modbus_be16_get s.frame 4) (hrq2 : modbus_be16_get s.frame 4 ≤ 125)
    (hwq1 : 1 ≤ modbus_be16_get s.frame 8) (hwq2 : modbus_be16_get s.frame 8 ≤ 121)
    (hbc : s.frame 10 = modbus_be16_get s.frame 8 * 2)
    (hlen : response_len + (2 + 2 * modbus_be16_get s.frame 4) < 65536) :
    (handle_read_write_multiple_registers s response response_len).calls =
      [Call.read_write_multiple_registers (modbus_be16_get s.frame 2) (modbus_be16_get s.frame 4)
          (modbus_be16_get s.frame 6) (modbus_be16_get s.frame 8) 11 2] ∧
    (handle_read_write_multiple_registers s response response_len).ex =
      (cb (modbus_be16_get s.frame 2) (modbus_be16_get s.frame 4)
          (modbus_be16_get s.frame 6) (modbus_be16_get s.frame 8) (s.frame.offset 11) (response.offset 2)).1 ∧
    ((cb (modbus_be16_get s.frame 2) (modbus_be16_get s.frame 4)
          (modbus_be16_get s.frame 6) (modbus_be16_get s.frame 8) (s.frame.offset 11) (response.offset 2)).1 = MODBUS_EX_NONE →
      (handle_read_write_multiple_registers s response response_len).ex = MODBUS_EX_NONE ∧
      (handle_read_write_multiple_registers s response response_len).response 0 = 0x17 ∧
      (handle_read_write_multiple_registers s response response_len).response 1 = 2 * modbus_be16_get s.frame 4 ∧
      (∀ i, (handle_read_write_multiple_registers s response response_len).response (2 + i) =
        (cb (modbus_be16_get s.frame 2) (modbus_be16_get s.frame 4)
          (modbus_be16_get s.frame 6) (modbus_be16_get s.frame 8) (s.frame.offset 11) (response.offset 2)).2 i) ∧
      (handle_read_write_multiple_registers s response response_len).response_len = response_len + (2 + 2 * modbus_be16_get s.frame 4)) := by
  have hok : ¬ (modbus_be16_get s.frame 4 = 0 ∨ modbus_be16_get s.frame 4 > 125 ∨
        modbus_be16_get s.frame 8 = 0 ∨ modbus_be16_get s.frame 8 > 121 ∨
        s.frame 10 ≠ modbus_be16_get s.frame 8 * 2) := by omega
  obtain ⟨_, hv⟩ := handle_read_write_multiple_registers_validation s response response_len cb hc
  obtain ⟨v1, v2⟩ := hv hok
  refine ⟨v1, v2, fun he => ?_⟩
  rw [handle_read_write_multiple_registers_in_bounds s response response_len cb hc hok,
    if_neg (by simp [he])]
  refine ⟨rfl, ?_, ?_, ?_, ?_⟩
  · simp only []
    rw [Buf.set_other _ _ _ _ (by omega), Buf.set_same, hfc]
  · simp only []
    rw [Buf.set_same, Nat.mul_comm]
  · intro i
    simp only []
    rw [Buf.set_other _ _ _ _ (by omega), Buf.set_other _ _ _ _ (by omega)]
    simp only [Buf.splice]
    rw [if_neg (by omega), show 2 + i - 2 = i by omega]
  · simp only []
    omega

/-- C19 at the request of test_handle_read_write_multiple_registers_valid with the mock
callback of that test: the callback is invoked with (0x0100, 2, 0x0200, 2, data at frame
offset 11, destination response[2]); the response is 17 04 followed by the registers 3000
and 3001, and the length is 6. -/
theorem C19_read_write_success_witness :
    (handle_read_write_multiple_registers (latched mock_config
        [0x01, 0x17, 0x01, 0x00, 0x00, 0x02, 0x02, 0x00, 0x00, 0x02, 0x04, 0x12, 0x34, 0x56, 0x78]) (fun _ => 0xEE) 0).calls =
      [Call.read_write_multiple_registers 0x0100 2 0x0200 2 11 2] ∧
    (handle_read_write_multiple_registers (latched mock_config
        [0x01, 0x17, 0x01, 0x00, 0x00, 0x02, 0x02, 0x00, 0x00, 0x02, 0x04, 0x12, 0x34, 0x56, 0x78]) (fun _ => 0xEE) 0).ex = MODBUS_EX_NONE ∧
    (handle_read_write_multiple_registers (latched mock_config
        [0x01, 0x17, 0x01, 0x00, 0x00, 0x02, 0x02, 0x00, 0x00, 0x02, 0x04, 0x12, 0x34, 0x56, 0x78]) (fun _ => 0xEE) 0).response 0 = 0x17 ∧
    (handle_read_write_multiple_registers (latched mock_config
        [0x01, 0x17, 0x01, 0x00, 0x00, 0x02, 0x02, 0x00, 0x00, 0x02, 0x04, 0x12, 0x34, 0x56, 0x78]) (fun _ => 0xEE) 0).response 1 = 0x04 ∧
    modbus_be16_get (handle_read_write_multiple_registers (latched mock_config
        [0x01, 0x17, 0x01, 0x00, 0x00, 0x02, 0x02, 0x00, 0x00, 0x02, 0x04, 0x12, 0x34, 0x56, 0x78])
      (fun _ => 0xEE) 0).response 2 = 3000 ∧
    modbus_be16_get (handle_read_write_multiple_registers (latched mock_config
        [0x01, 0x17, 0x01, 0x00, 0x00, 0x02, 0x02, 0x00, 0x00, 0x02, 0x04, 0x12, 0x34, 0x56, 0x78])
      (fun _ => 0xEE) 0).response 4 = 3001 ∧
    (handle_read_write_multiple_registers (latched mock_config
        [0x01, 0x17, 0x01, 0x00, 0x00, 0x02, 0x02, 0x00, 0x00, 0x02, 0x04, 0x12, 0x34, 0x56, 0x78]) (fun _ => 0xEE) 0).response_len = 6 :=
  ⟨(C19_read_write_success (latched mock_config
        [0x01, 0x17, 0x01, 0x00, 0x00, 0x02, 0x02, 0x00, 0x00, 0x02, 0x04, 0x12, 0x34, 0x56, 0x78]) (fun _ => 0xEE) 0 mock_read_write_multiple_registers rfl
      (by decide) (by decide) (by decide) (by decide) (by decide) (by decide)
      (by decide)).1,
   ((C19_read_write_success (latched mock_config
        [0x01, 0x17, 0x01, 0x00, 0x00, 0x02, 0x02, 0x00, 0x00, 0x02, 0x04, 0x12, 0x34, 0x56, 0x78]) (fun _ => 0xEE) 0 mock_read_write_multiple_registers rfl
      (by decide) (by decide) (by decide) (by decide) (by decide) (by decide)
      (by decide)).2.2 (by rfl)).1,
   by decide, by decide, by decide, by decide, by decide⟩

/-! ## Initialisation -/

/-- C20. modbus_slave_init returns failure (-1) exactly when the slave is absent, the
config is absent, the transmit callback is absent, or the configured address is 0; in
every other case it returns 0 and leaves the instance with a copy of the whole config
(every callback preserved), state = IDLE, frame_len = 0, frame_ok = true,
frame_available = false and processing_frame = false (the frame buffer is left as it
was). -/
theorem C20_init (slave : Option ModbusSlave) (cfg : Option ModbusSlaveConfig) :
    ((modbus_slave_init slave cfg).1 = -1 ↔
      (slave = none ∨ cfg = none ∨
        ∃ c, cfg = some c ∧ (c.write = false ∨ c.address = 0))) ∧
    (∀ s c, slave = some s → cfg = some c → c.write = true → c.address ≠ 0 →
      modbus_slave_init slave cfg =
        (0, some { config := c, state := IDLE, frame := s.frame, frame_len := 0,
                   frame_ok := true, frame_available := false,
                   processing_frame := false })) := by
  constructor
  · cases slave with
    | none => simp [modbus_slave_init]
    | some s =>
      cases cfg with
      | none => simp [modbus_slave_init]
      | some c =>
        by_cases hw : c.write = false
        · simp [modbus_slave_init, hw]
        · by_cases ha : c.address = 0
          · simp [modbus_slave_init, hw, ha]
          · simp [modbus_slave_init, hw, ha]
  · intro s c hs hcfg hw ha
    subst hs hcfg
    simp [modbus_slave_init, hw, ha]

/-- C20 on the cases of test_modbus_slave_init.c: success from zeroed memory with every
callback of the configuration preserved, and failure for an absent slave, an absent
config, an absent transmit callback and the address 0. -/
theorem C20_init_witness :
    modbus_slave_init (some zeroed_slave) (some full_config) =
      (0, some { config := full_config, state := IDLE, frame := zeroed_slave.frame,
                 frame_len := 0, frame_ok := true, frame_available := false,
                 processing_frame := false }) ∧
    (modbus_slave_init none (some full_config)).1 = -1 ∧
    (modbus_slave_init (some zeroed_slave) none).1 = -1 ∧
    (modbus_slave_init (some zeroed_slave) (some { full_config with write := false })).1 = -1 ∧
    (modbus_slave_init (some zeroed_slave) (some { full_config with address := 0 })).1 = -1 :=
  ⟨(C20_init (some zeroed_slave) (some full_config)).2 zeroed_slave full_config rfl rfl rfl
      (by decide),
   (C20_init none (some full_config)).1.mpr (Or.inl rfl),
   (C20_init (some zeroed_slave) none).1.mpr (Or.inr (Or.inl rfl)),
   (C20_init (some zeroed_slave) (some { full_config with write := false })).1.mpr
      (Or.inr (Or.inr ⟨_, rfl, Or.inl rfl⟩)),
   (C20_init (some zeroed_slave) (some { full_config with address := 0 })).1.mpr
      (Or.inr (Or.inr ⟨_, rfl, Or.inr rfl⟩))⟩

/-! ## Initialisation, poll and the timing events on the instance -/

/-- What a successful `modbus_slave_init` leaves. -/
theorem init_success (slave : Option ModbusSlave) (cfg : Option ModbusSlaveConfig)
    (s1 : Option ModbusSlave) (h : modbus_slave_init slave cfg = (0, s1)) :
    ∃ s c, slave = some s ∧ cfg = some c ∧ c.write = true ∧ c.address ≠ 0 ∧
      s1 = some { config := c, state := IDLE, frame := s.frame, frame_len := 0,
                  frame_ok := true, frame_available := false,
                  processing_frame := false } := by
  cases slave with
  | none => simp [modbus_slave_init] at h
  | some s =>
    cases cfg with
    | none => simp [modbus_slave_init] at h
    | some c =>
      by_cases hw : c.write = false
      · simp [modbus_slave_init, hw] at h
      · by_cases ha : c.address = 0
        · simp [modbus_slave_init, hw, ha] at h
        · refine ⟨s, c, rfl, rfl, by simpa using hw, ha, ?_⟩
          simp [modbus_slave_init, hw, ha] at h
          exact h.symm

/-- C21 as stated fails: a configuration with the transmit callback and own address 248
(outside 1..247) is accepted; init returns 0 and the instance keeps the address 248. -/
theorem C21_address_range_counterexample :
    (247 : Nat) < ({ bare_config with address := 248 } : ModbusSlaveConfig).address ∧
    modbus_slave_init (some zeroed_slave) (some { bare_config with address := 248 }) =
      (0, some (init_slave { bare_config with address := 248 })) :=
  ⟨by decide, init_slave_eq _ rfl (by decide)⟩

/-- C21 (amended). The only check init makes on the address is that it is not 0:
every slave instance for which modbus_slave_init returned success holds a configured
address that is not 0, hence in 1..255 for a byte; a configuration with address 0 is
refused; and a configuration with the transmit callback and any address greater than
247 is accepted, init returning success and storing that address. -/
theorem C21_address_range (slave : Option ModbusSlave) (cfg : Option ModbusSlaveConfig) :
    (∀ s1, modbus_slave_init slave cfg = (0, some s1) →
      1 ≤ s1.config.address ∧ cfg = some s1.config ∧
      (s1.config.address < 256 → s1.config.address ∈ Finset.Icc 1 255)) ∧
    (∀ c, cfg = some c → c.address = 0 → (modbus_slave_init slave cfg).1 = -1) ∧
    (∀ s c, slave = some s → cfg = some c → c.write = true → 247 < c.address →
      ∃ s1, modbus_slave_init slave cfg = (0, some s1) ∧ s1.config.address = c.address) := by
  refine ⟨?_, ?_, ?_⟩
  · intro s1 h
    obtain ⟨s, c, _, hc, _, ha, hs1⟩ := init_success slave cfg (some s1) h
    have hs1 := Option.some.inj hs1
    subst hs1
    refine ⟨Nat.one_le_iff_ne_zero.mpr ha, hc, ?_⟩
    intro hlt
    simp only [Finset.mem_Icc]
    exact ⟨Nat.one_le_iff_ne_zero.mpr ha, by simp only [] at hlt; omega⟩
  · intro c hc ha
    subst hc
    cases slave with
    | none => simp [modbus_slave_init]
    | some s =>
      by_cases hw : c.write = false
      · simp [modbus_slave_init, hw]
      · simp [modbus_slave_init, hw, ha]
  · intro s c hs hc hw ha
    subst hs hc
    have hne : c.address ≠ 0 := by omega
    refine ⟨{ config := c, state := IDLE, frame := s.frame, frame_len := 0,
              frame_ok := true, frame_available := false, processing_frame := false },
      ?_, rfl⟩
    simp [modbus_slave_init, hw, hne]

/-- C21 (amended) at the configuration of the tests (address 1), at address 0 and at the
addresses 248 and 255. -/
theorem C21_address_range_witness :
    (1 ≤ (init_slave test_config).config.address ∧
      some test_config = some (init_slave test_config).config ∧
      ((init_slave test_config).config.address < 256 →
        (init_slave test_config).config.address ∈ Finset.Icc 1 255)) ∧
    (modbus_slave_init (some zeroed_slave) (some { test_config with address := 0 })).1 = -1 ∧
    (∃ s1, modbus_slave_init (some zeroed_slave) (some { test_config with address := 248 }) =
        (0, some s1) ∧
      s1.config.address = ({ test_config with address := 248 } : ModbusSlaveConfig).address) ∧
    (∃ s1, modbus_slave_init (some zeroed_slave) (some { test_config with address := 255 }) =
        (0, some s1) ∧
      s1.config.address = ({ test_config with address := 255 } : ModbusSlaveConfig).address) :=
  ⟨(C21_address_range (some zeroed_slave) (some test_config)).1 (init_slave test_config)
      (init_slave_eq test_config rfl (by decide)),
   (C21_address_range (some zeroed_slave) (some { test_config with address := 0 })).2.1
      _ rfl rfl,
   (C21_address_range (some zeroed_slave) (some { test_config with address := 248 })).2.2
      zeroed_slave _ rfl rfl rfl (by decide),
   (C21_address_range (some zeroed_slave) (some { test_config with address := 255 })).2.2
      zeroed_slave _ rfl rfl rfl (by decide)⟩

/-- C22. Poll is a no-op when no frame is pending: with frame_available = false,
modbus_slave_poll returns the instance unchanged in every field (state, frame,
frame_len, frame_ok, frame_available, processing_frame, config) and invokes no
callback, the transmit callback included. -/
theorem C22_poll_noop (s : ModbusSlave) (response0 : Buf)
    (h : s.frame_available = false) :
    modbus_slave_poll s response0 = (s, []) := by
  simp [modbus_slave_poll, h]

/-- C22 on the freshly initialised instance of the tests and on an instance that is in
the middle of a reception. -/
theorem C22_poll_noop_witness :
    modbus_slave_poll (init_slave test_config) (fun _ => 0) = (init_slave test_config, []) ∧
    modbus_slave_poll (modbus_slave_rx_byte (init_slave test_config) 0x01) (fun _ => 0) =
      (modbus_slave_rx_byte (init_slave test_config) 0x01, []) :=
  ⟨C22_poll_noop (init_slave test_config) (fun _ => 0) rfl,
   C22_poll_noop (modbus_slave_rx_byte (init_slave test_config) 0x01) (fun _ => 0) rfl⟩

/-- The instance that poll leaves when a frame was pending. -/
theorem poll_instance (s : ModbusSlave) (response0 : Buf) (h : s.frame_available = true) :
    (modbus_slave_poll s response0).1 =
      { s with frame_available := false, processing_frame := false, frame_len := 0 } := by
  simp [modbus_slave_poll, h]

/-- C23. Poll recycles the frame: with frame_available = true, whatever the frame
(invalid, broadcast, answered normally or with an exception, for every content of the
frame buffer and every configuration), after modbus_slave_poll frame_available = false,
processing_frame = false and frame_len = 0, while state, frame_ok and config (and the
frame buffer) are unchanged. -/
theorem C23_poll_recycles (s : ModbusSlave) (response0 : Buf)
    (h : s.frame_available = true) :
    (modbus_slave_poll s response0).1.frame_available = false ∧
    (modbus_slave_poll s response0).1.processing_frame = false ∧
    (modbus_slave_poll s response0).1.frame_len = 0 ∧
    (modbus_slave_poll s response0).1.state = s.state ∧
    (modbus_slave_poll s response0).1.frame_ok = s.frame_ok ∧
    (modbus_slave_poll s response0).1.config = s.config ∧
    (modbus_slave_poll s response0).1.frame = s.frame := by
  rw [poll_instance s response0 h]
  exact ⟨rfl, rfl, rfl, rfl, rfl, rfl, rfl⟩

/-- C23 on the instance of the integration tests after it received the request of
test_complete_frame_processing (answered normally), the same request for an address
beyond the mock's range (answered with an exception), a broadcast, and a single byte
(an invalid frame). -/
theorem C23_poll_recycles_witness :
    ((modbus_slave_poll (receive_frame (init_slave test_config) read_request)
        (fun _ => 0)).1.frame_available = false ∧
      (modbus_slave_poll (receive_frame (init_slave test_config) read_request)
        (fun _ => 0)).1.processing_frame = false ∧
      (modbus_slave_poll (receive_frame (init_slave test_config) read_request)
        (fun _ => 0)).1.frame_len = 0) ∧
    (modbus_slave_poll (receive_frame (init_slave test_config)
        (with_crc [0x01, 0x03, 0x07, 0xD0, 0x00, 0x02])) (fun _ => 0)).1.frame_len = 0 ∧
    (modbus_slave_poll (receive_frame (init_slave test_config)
        (with_crc [0x00, 0x03, 0x00, 0x00, 0x00, 0x02])) (fun _ => 0)).1.frame_len = 0 ∧
    (modbus_slave_poll (receive_frame (init_slave test_config) [0x01])
        (fun _ => 0)).1.frame_available = false :=
  ⟨⟨(C23_poll_recycles (receive_frame (init_slave test_config) read_request)
        (fun _ => 0) rfl).1,
    (C23_poll_recycles (receive_frame (init_slave test_config) read_request)
        (fun _ => 0) rfl).2.1,
    (C23_poll_recycles (receive_frame (init_slave test_config) read_request)
        (fun _ => 0) rfl).2.2.1⟩,
   (C23_poll_recycles (receive_frame (init_slave test_config)
        (with_crc [0x01, 0x03, 0x07, 0xD0, 0x00, 0x02])) (fun _ => 0) rfl).2.2.1,
   (C23_poll_recycles (receive_frame (init_slave test_config)
        (with_crc [0x00, 0x03, 0x00, 0x00, 0x00, 0x02])) (fun _ => 0) rfl).2.2.1,
   (C23_poll_recycles (receive_frame (init_slave test_config) [0x01]) (fun _ => 0) rfl).1⟩

/-- C25. ISR/main disjointness: with processing_frame = true, modbus_slave_rx_byte
leaves the whole instance unchanged for every byte: frame, frame_len, state, frame_ok,
frame_available (and config, processing_frame). -/
theorem C25_rx_byte_while_processing (s : ModbusSlave) (byte : Nat)
    (h : s.processing_frame = true) :
    modbus_slave_rx_byte s byte = s := by
  simp [modbus_slave_rx_byte, h]

/-- C25 on test_rx_ignore_during_processing: the initialised instance with
processing_frame set, byte 0x01. -/
theorem C25_rx_byte_while_processing_witness :
    modbus_slave_rx_byte { init_slave test_config with processing_frame := true } 0x01 =
      { init_slave test_config with processing_frame := true } :=
  C25_rx_byte_while_processing { init_slave test_config with processing_frame := true } 0x01 rfl

/-- C26. The 1.5t event: modbus_slave_1_5t_elapsed changes state from RECEPTION to
CONTROL_AND_WAITING, is the identity on the instance in every other state (IDLE,
CONTROL_AND_WAITING, UNINITIALIZED), and in all cases leaves frame, frame_len,
frame_ok, frame_available and processing_frame (and config) unchanged. -/
theorem C26_1_5t_event (s : ModbusSlave) :
    (s.state = RECEPTION →
      modbus_slave_1_5t_elapsed s = { s with state := CONTROL_AND_WAITING }) ∧
    (s.state ≠ RECEPTION → modbus_slave_1_5t_elapsed s = s) ∧
    (modbus_slave_1_5t_elapsed s).frame = s.frame ∧
    (modbus_slave_1_5t_elapsed s).frame_len = s.frame_len ∧
    (modbus_slave_1_5t_elapsed s).frame_ok = s.frame_ok ∧
    (modbus_slave_1_5t_elapsed s).frame_available = s.frame_available ∧
    (modbus_slave_1_5t_elapsed s).processing_frame = s.processing_frame ∧
    (modbus_slave_1_5t_elapsed s).config = s.config := by
  by_cases h : s.state = RECEPTION
  · simp [modbus_slave_1_5t_elapsed, h]
  · simp [modbus_slave_1_5t_elapsed, h]

/-- C26 on test_1_5t_timer_transition and test_1_5t_timer_ignore_other_states: the
initialised instance put in RECEPTION, in IDLE, in CONTROL_AND_WAITING and in
UNINITIALIZED. -/
theorem C26_1_5t_event_witness :
    modbus_slave_1_5t_elapsed { init_slave test_config with state := RECEPTION } =
      { init_slave test_config with state := CONTROL_AND_WAITING } ∧
    modbus_slave_1_5t_elapsed (init_slave test_config) = init_slave test_config ∧
    modbus_slave_1_5t_elapsed { init_slave test_config with state := CONTROL_AND_WAITING } =
      { init_slave test_config with state := CONTROL_AND_WAITING } ∧
    modbus_slave_1_5t_elapsed zeroed_slave = zeroed_slave :=
  ⟨(C26_1_5t_event { init_slave test_config with state := RECEPTION }).1 rfl,
   (C26_1_5t_event (init_slave test_config)).2.1 (by decide),
   (C26_1_5t_event { init_slave test_config with state := CONTROL_AND_WAITING }).2.1
     (by decide),
   (C26_1_5t_event zeroed_slave).2.1 (by decide)⟩

/-- C27. The 3.5t event: modbus_slave_3_5t_elapsed is the identity on the instance
whenever state is not CONTROL_AND_WAITING; in CONTROL_AND_WAITING it sets state = IDLE,
sets frame_available = true when frame_ok is true and leaves frame_available as it was
when frame_ok is false; in all cases frame, frame_len and frame_ok (and config,
processing_frame) are unchanged. -/
theorem C27_3_5t_event (s : ModbusSlave) :
    (s.state ≠ CONTROL_AND_WAITING → modbus_slave_3_5t_elapsed s = s) ∧
    (s.state = CONTROL_AND_WAITING → s.frame_ok = true →
      modbus_slave_3_5t_elapsed s = { s with state := IDLE, frame_available := true }) ∧
    (s.state = CONTROL_AND_WAITING → s.frame_ok = false →
      modbus_slave_3_5t_elapsed s = { s with state := IDLE }) ∧
    (modbus_slave_3_5t_elapsed s).frame = s.frame ∧
    (modbus_slave_3_5t_elapsed s).frame_len = s.frame_len ∧
    (modbus_slave_3_5t_elapsed s).frame_ok = s.frame_ok ∧
    (modbus_slave_3_5t_elapsed s).config = s.config ∧
    (modbus_slave_3_5t_elapsed s).processing_frame = s.processing_frame := by
  by_cases h : s.state = CONTROL_AND_WAITING
  · by_cases hk : s.frame_ok = true
    · simp [modbus_slave_3_5t_elapsed, h, hk]
    · simp [modbus_slave_3_5t_elapsed, h, hk]
  · simp [modbus_slave_3_5t_elapsed, h]

/-- C27 on test_3_5t_timer_valid_frame, test_3_5t_timer_invalid_frame and
test_3_5t_timer_ignore_other_states. -/
theorem C27_3_5t_event_witness :
    modbus_slave_3_5t_elapsed
        { init_slave test_config with state := CONTROL_AND_WAITING, frame_ok := true } =
      { init_slave test_config with state := IDLE, frame_ok := true,
                                    frame_available := true } ∧
    modbus_slave_3_5t_elapsed
        { init_slave test_config with state := CONTROL_AND_WAITING, frame_ok := false } =
      { init_slave test_config with state := IDLE, frame_ok := false } ∧
    modbus_slave_3_5t_elapsed (init_slave test_config) = init_slave test_config ∧
    modbus_slave_3_5t_elapsed { init_slave test_config with state := RECEPTION } =
      { init_slave test_config with state := RECEPTION } :=
  ⟨(C27_3_5t_event
      { init_slave test_config with state := CONTROL_AND_WAITING, frame_ok := true }).2.1
      rfl rfl,
   (C27_3_5t_event
      { init_slave test_config with state := CONTROL_AND_WAITING, frame_ok := false }).2.2.1
      rfl rfl,
   (C27_3_5t_event (init_slave test_config)).1 (by decide),
   (C27_3_5t_event { init_slave test_config with state := RECEPTION }).1 (by decide)⟩

/-- A byte received in CONTROL_AND_WAITING changes nothing. -/
theorem rx_byte_control_and_waiting (s : ModbusSlave) (byte : Nat)
    (h : s.state = CONTROL_AND_WAITING) : modbus_slave_rx_byte s byte = s := by
  by_cases hp : s.processing_frame = true
  · simp [modbus_slave_rx_byte, hp]
  · simp [modbus_slave_rx_byte, hp, h]

/-- Any number of bytes received in CONTROL_AND_WAITING changes nothing. -/
theorem rx_bytes_control_and_waiting (b : List Nat) (s : ModbusSlave)
    (h : s.state = CONTROL_AND_WAITING) : b.foldl modbus_slave_rx_byte s = s := by
  induction b with
  | nil => rfl
  | cons x xs ih => rw [List.foldl_cons, rx_byte_control_and_waiting s x h, ih]

/-- C29. Bytes in CONTROL_AND_WAITING are ignored: for every instance in state
CONTROL_AND_WAITING and every byte, modbus_slave_rx_byte leaves the whole instance
unchanged (state, frame, frame_len, frame_ok, frame_available), so the following 3.5t
event acts as if no byte had arrived, and a frame whose frame_ok was true is latched
with frame and frame_len unchanged. -/
theorem C29_byte_in_control_and_waiting (s : ModbusSlave) (byte : Nat)
    (h : s.state = CONTROL_AND_WAITING) :
    modbus_slave_rx_byte s byte = s ∧
    modbus_slave_3_5t_elapsed (modbus_slave_rx_byte s byte) = modbus_slave_3_5t_elapsed s ∧
    (s.frame_ok = true →
      modbus_slave_3_5t_elapsed (modbus_slave_rx_byte s byte) =
        { s with state := IDLE, frame_available := true }) := by
  rw [rx_byte_control_and_waiting s byte h]
  refine ⟨rfl, rfl, ?_⟩
  intro hk
  simp [modbus_slave_3_5t_elapsed, h, hk]

/-- C29 on the instance that received the request of test_complete_frame_processing
and the 1.5t event, then the byte 0x55. -/
theorem C29_byte_in_control_and_waiting_witness :
    modbus_slave_rx_byte
        (modbus_slave_1_5t_elapsed
          (read_request.foldl modbus_slave_rx_byte (init_slave test_config))) 0x55 =
      modbus_slave_1_5t_elapsed
        (read_request.foldl modbus_slave_rx_byte (init_slave test_config)) :=
  (C29_byte_in_control_and_waiting
    (modbus_slave_1_5t_elapsed
      (read_request.foldl modbus_slave_rx_byte (init_slave test_config))) 0x55 rfl).1

/-! ## Overflow and the length invariant -/

/-- A byte received in RECEPTION with a full buffer. -/
theorem rx_byte_overflow (s : ModbusSlave) (byte : Nat) (hp : s.processing_frame = false)
    (hs : s.state = RECEPTION) (hl : s.frame_len = 256) :
    modbus_slave_rx_byte s byte =
      { s with frame_ok := false, state := CONTROL_AND_WAITING } := by
  simp [modbus_slave_rx_byte, hp, hs, hl, MODBUS_MAX_FRAME_LENGTH]

/-- Bytes received while poll owns the frame change nothing. -/
theorem rx_bytes_processing (b : List Nat) (s : ModbusSlave)
    (h : s.processing_frame = true) : b.foldl modbus_slave_rx_byte s = s := by
  induction b with
  | nil => rfl
  | cons x xs ih =>
    have hx : modbus_slave_rx_byte s x = s := by simp [modbus_slave_rx_byte, h]
    rw [List.foldl_cons, hx, ih]

/-- A stream of more than 256 bytes received from IDLE ends in CONTROL_AND_WAITING with
frame_ok cleared and 256 bytes stored. -/
theorem rx_stream_overflow (s : ModbusSlave) (b : List Nat) (hs : s.state = IDLE)
    (hp : s.processing_frame = false) (hl : 256 < b.length) :
    (b.foldl modbus_slave_rx_byte s).state = CONTROL_AND_WAITING ∧
    (b.foldl modbus_slave_rx_byte s).frame_ok = false ∧
    (b.foldl modbus_slave_rx_byte s).frame_len = 256 ∧
    (b.foldl modbus_slave_rx_byte s).frame_available = s.frame_available := by
  cases b with
  | nil => simp at hl
  | cons x xs =>
    simp only [List.length_cons] at hl
    have hsplit : xs = xs.take 255 ++ xs.drop 255 := (List.take_append_drop 255 xs).symm
    have htake : (xs.take 255).length = 255 := by
      rw [List.length_take]; omega
    have hdrop : (xs.drop 255).length = xs.length - 255 := List.length_drop 255 xs
    obtain ⟨r1, r2, _, r4, _, r6, _, _⟩ :=
      rx_bytes_reception (xs.take 255)
        { s with state := RECEPTION, frame_len := 1, frame_ok := true,
                 frame := s.frame.set 0 x }
        hp rfl (by simp only [htake]; omega)
    rw [htake] at r6
    simp only [] at r1 r2 r4 r6
    have r6 : (List.foldl modbus_slave_rx_byte
        { s with state := RECEPTION, frame_len := 1, frame_ok := true,
                 frame := s.frame.set 0 x } (xs.take 255)).frame_len = 256 := r6
    rw [List.foldl_cons, rx_byte_idle s x hp hs, hsplit, List.foldl_append]
    cases hd : xs.drop 255 with
    | nil => rw [hd] at hdrop; simp at hdrop; omega
    | cons y ys =>
      rw [List.foldl_cons, rx_byte_overflow _ y r2 r1 r6,
        rx_bytes_control_and_waiting ys _ rfl]
      exact ⟨rfl, rfl, r6, r4⟩

/-- C28. Overflow handling: in state RECEPTION with frame_len = 256 and
processing_frame = false, modbus_slave_rx_byte stores nothing (frame and frame_len
unchanged), sets frame_ok = false and state = CONTROL_AND_WAITING; hence for every
stream of more than 256 bytes received from IDLE without intervening timing events the
receiver is in CONTROL_AND_WAITING with frame_ok = false and 256 bytes stored, and the
following 3.5t event returns the state to IDLE without setting frame_available (it is
left as it was before the stream). -/
theorem C28_overflow (s : ModbusSlave) :
    (∀ byte, s.state = RECEPTION → s.frame_len = 256 → s.processing_frame = false →
      modbus_slave_rx_byte s byte =
        { s with frame_ok := false, state := CONTROL_AND_WAITING }) ∧
    (∀ b : List Nat, s.state = IDLE → s.processing_frame = false → 256 < b.length →
      (b.foldl modbus_slave_rx_byte s).state = CONTROL_AND_WAITING ∧
      (b.foldl modbus_slave_rx_byte s).frame_ok = false ∧
      (b.foldl modbus_slave_rx_byte s).frame_len = 256) ∧
    (∀ b : List Nat, s.state = IDLE → 256 < b.length →
      (modbus_slave_3_5t_elapsed (b.foldl modbus_slave_rx_byte s)).state = IDLE ∧
      (modbus_slave_3_5t_elapsed (b.foldl modbus_slave_rx_byte s)).frame_available =
        s.frame_available) := by
  refine ⟨?_, ?_, ?_⟩
  · intro byte hs hl hp
    exact rx_byte_overflow s byte hp hs hl
  · intro b hs hp hl
    obtain ⟨h1, h2, h3, _⟩ := rx_stream_overflow s b hs hp hl
    exact ⟨h1, h2, h3⟩
  · intro b hs hl
    by_cases hp : s.processing_frame = true
    · rw [rx_bytes_processing b s hp]
      simp [modbus_slave_3_5t_elapsed, hs]
    · have hp : s.processing_frame = false := by simpa using hp
      obtain ⟨h1, h2, _, h4⟩ := rx_stream_overflow s b hs hp hl
      simp [modbus_slave_3_5t_elapsed, h1, h2, h4]

/-- C28 on test_rx_frame_overflow: the initialised instance receives the 256 bytes
`i & 0xFF` and then 0xFF; the 3.5t event that follows returns to IDLE and
frame_available stays false. -/
theorem C28_overflow_witness :
    ((overflow_stream.foldl modbus_slave_rx_byte (init_slave test_config)).state =
        CONTROL_AND_WAITING ∧
      (overflow_stream.foldl modbus_slave_rx_byte (init_slave test_config)).frame_ok = false ∧
      (overflow_stream.foldl modbus_slave_rx_byte (init_slave test_config)).frame_len = 256) ∧
    ((modbus_slave_3_5t_elapsed
        (overflow_stream.foldl modbus_slave_rx_byte (init_slave test_config))).state = IDLE ∧
      (modbus_slave_3_5t_elapsed
        (overflow_stream.foldl modbus_slave_rx_byte (init_slave test_config))).frame_available
        = (init_slave test_config).frame_available) :=
  ⟨(C28_overflow (init_slave test_config)).2.1 overflow_stream rfl rfl
      (by simp [overflow_stream]),
   (C28_overflow (init_slave test_config)).2.2 overflow_stream rfl
      (by simp [overflow_stream])⟩

/-- The store of `modbus_slave_rx_byte`, when executed, is at an index below 256. -/
theorem rx_byte_write_index_lt (s : ModbusSlave) (idx : Nat)
    (h : rx_byte_write_index s = some idx) : idx < 256 := by
  unfold rx_byte_write_index at h
  by_cases hp : s.processing_frame = true
  · simp [hp] at h
  · by_cases hs : s.state = IDLE
    · simp [hp, hs, MODBUS_MAX_FRAME_LENGTH] at h
      omega
    · by_cases hr : s.state = RECEPTION
      · by_cases hl : s.frame_len < 256
        · simp [hp, hs, hr, hl, MODBUS_MAX_FRAME_LENGTH] at h
          omega
        · simp [hp, hs, hr, hl, MODBUS_MAX_FRAME_LENGTH] at h
      · simp [hp, hs, hr] at h

/-- The frame buffer after `modbus_slave_rx_byte`: one store at the index given by
`rx_byte_write_index`, or no store. -/
theorem rx_byte_frame (s : ModbusSlave) (byte : Nat) :
    (modbus_slave_rx_byte s byte).frame =
      match rx_byte_write_index s with
      | some idx => s.frame.set idx byte
      | none => s.frame := by
  unfold rx_byte_write_index modbus_slave_rx_byte
  by_cases hp : s.processing_frame = true
  · simp [hp]
  · by_cases hs : s.state = IDLE
    · simp [hp, hs, MODBUS_MAX_FRAME_LENGTH]
    · by_cases hr : s.state = RECEPTION
      · by_cases hl : s.frame_len < 256
        · simp [hp, hs, hr, hl, MODBUS_MAX_FRAME_LENGTH]
        · simp [hp, hs, hr, hl, MODBUS_MAX_FRAME_LENGTH]
      · simp [hp, hs, hr]

/-- One call of the public interface keeps frame_len within the buffer. -/
theorem step_frame_len_le (s : ModbusSlave) (e : Event) (h : s.frame_len ≤ 256) :
    (step s e).frame_len ≤ 256 := by
  cases e with
  | rx_byte byte =>
    simp only [step, modbus_slave_rx_byte]
    by_cases hp : s.processing_frame = true
    · simpa [hp] using h
    · by_cases hs : s.state = IDLE
      · simp [hp, hs, MODBUS_MAX_FRAME_LENGTH]
      · by_cases hr : s.state = RECEPTION
        · by_cases hl : s.frame_len < 256
          · have : (s.frame_len + 1) % 65536 = s.frame_len + 1 := by omega
            simp [hp, hs, hr, hl, MODBUS_MAX_FRAME_LENGTH, this]
            omega
          · simpa [hp, hs, hr, hl, MODBUS_MAX_FRAME_LENGTH] using h
        · simpa [hp, hs, hr] using h
  | t1_5_elapsed =>
    simp only [step, modbus_slave_1_5t_elapsed]
    split_ifs <;> simpa using h
  | t3_5_elapsed =>
    simp only [step, modbus_slave_3_5t_elapsed]
    split_ifs <;> simpa using h
  | poll response0 =>
    simp only [step, modbus_slave_poll]
    split_ifs
    · simpa using h
    · simp

/-- Every finite sequence of calls keeps frame_len within the buffer. -/
theorem run_frame_len_le (es : List Event) : ∀ s : ModbusSlave, s.frame_len ≤ 256 →
    (run s es).frame_len ≤ 256 := by
  induction es with
  | nil => intro s h; simpa [run] using h
  | cons e es ih =>
    intro s h
    have := ih (step s e) (step_frame_len_le s e h)
    simpa [run] using this

/-- C24. No overflow (P1): in every state reachable from a successful
modbus_slave_init by any finite sequence of modbus_slave_rx_byte (any byte),
modbus_slave_1_5t_elapsed, modbus_slave_3_5t_elapsed and modbus_slave_poll calls,
frame_len <= 256, and a further modbus_slave_rx_byte either leaves the frame buffer
as it is or performs exactly one store, at an index < 256. -/
theorem C24_no_overflow (slave : Option ModbusSlave) (cfg : Option ModbusSlaveConfig)
    (s : ModbusSlave) (es : List Event)
    (hinit : modbus_slave_init slave cfg = (0, some s)) :
    (run s es).frame_len ≤ 256 ∧
    (∀ idx, rx_byte_write_index (run s es) = some idx → idx < 256) ∧
    (∀ byte, (modbus_slave_rx_byte (run s es) byte).frame =
      match rx_byte_write_index (run s es) with
      | some idx => (run s es).frame.set idx byte
      | none => (run s es).frame) := by
  obtain ⟨s0, c, _, _, _, _, hs⟩ := init_success slave cfg (some s) hinit
  have hs := Option.some.inj hs
  refine ⟨run_frame_len_le es s (by rw [hs]; exact Nat.zero_le _), ?_, ?_⟩
  · intro idx h
    exact rx_byte_write_index_lt _ idx h
  · intro byte
    exact rx_byte_frame _ byte

/-- C24 on the instance initialised from the test configuration, driven through an
overflowing stream, the timing events, poll and a further request. -/
theorem C24_no_overflow_witness :
    (run (init_slave test_config) overflow_session).frame_len ≤ 256 ∧
    (∀ idx, rx_byte_write_index (run (init_slave test_config) overflow_session) = some idx →
      idx < 256) ∧
    (∀ byte, (modbus_slave_rx_byte (run (init_slave test_config) overflow_session) byte).frame =
      match rx_byte_write_index (run (init_slave test_config) overflow_session) with
      | some idx => (run (init_slave test_config) overflow_session).frame.set idx byte
      | none => (run (init_slave test_config) overflow_session).frame) :=
  C24_no_overflow (some zeroed_slave) (some test_config) (init_slave test_config)
    overflow_session (init_slave_eq test_config rfl (by decide))

/-! ## The hand-off flag -/

theorem rx_byte_frame_available (s : ModbusSlave) (byte : Nat) :
    (modbus_slave_rx_byte s byte).frame_available = s.frame_available := by
  unfold modbus_slave_rx_byte
  by_cases hp : s.processing_frame = true
  · simp [hp]
  · by_cases hs : s.state = IDLE
    · simp [hp, hs, MODBUS_MAX_FRAME_LENGTH]
    · by_cases hr : s.state = RECEPTION
      · by_cases hl : s.frame_len < 256
        · simp [hp, hs, hr, hl, MODBUS_MAX_FRAME_LENGTH]
        · simp [hp, hs, hr, hl, MODBUS_MAX_FRAME_LENGTH]
      · simp [hp, hs, hr]

theorem t1_5_frame_available (s : ModbusSlave) :
    (modbus_slave_1_5t_elapsed s).frame_available = s.frame_available := by
  unfold modbus_slave_1_5t_elapsed
  split_ifs <;> rfl

theorem poll_frame_available (s : ModbusSlave) (response0 : Buf) :
    (modbus_slave_poll s response0).1.frame_available = false := by
  unfold modbus_slave_poll
  by_cases h : s.frame_available = false
  · simp [h]
  · simp [h]

theorem t3_5_frame_available_iff (s : ModbusSlave) (h : s.frame_available = false) :
    (modbus_slave_3_5t_elapsed s).frame_available = true ↔
      s.state = CONTROL_AND_WAITING ∧ s.frame_ok = true := by
  unfold modbus_slave_3_5t_elapsed
  by_cases hs : s.state = CONTROL_AND_WAITING
  · by_cases hk : s.frame_ok = true
    · simp [hs, hk]
    · simp [hs, hk, h]
  · simp [hs, h]

/-- The only call that sets frame_available is the 3.5t event taken in
CONTROL_AND_WAITING with frame_ok true. -/
theorem step_latch (s : ModbusSlave) (e : Event) (h0 : s.frame_available = false)
    (h1 : (step s e).frame_available = true) :
    e = Event.t3_5_elapsed ∧ s.state = CONTROL_AND_WAITING ∧ s.frame_ok = true := by
  cases e with
  | rx_byte byte =>
    simp only [step, rx_byte_frame_available, h0] at h1
    exact absurd h1 (by decide)
  | t1_5_elapsed =>
    simp only [step, t1_5_frame_available, h0] at h1
    exact absurd h1 (by decide)
  | t3_5_elapsed =>
    exact ⟨rfl, (t3_5_frame_available_iff s h0).mp h1⟩
  | poll response0 =>
    simp only [step, poll_frame_available] at h1
    exact absurd h1 (by decide)

theorem run_append_singleton (s : ModbusSlave) (es : List Event) (e : Event) :
    run s (es ++ [e]) = step (run s es) e := by
  simp [run, List.foldl_append]

/-- Whenever frame_available is set after a run from a state in which it was clear,
the run passed a 3.5t event taken in CONTROL_AND_WAITING with frame_ok true, and the
flag has been set ever since. -/
theorem run_latch (s : ModbusSlave) (h0 : s.frame_available = false) (es : List Event) :
    (run s es).frame_available = true →
    ∃ es1 es2, es = es1 ++ Event.t3_5_elapsed :: es2 ∧
      (run s es1).state = CONTROL_AND_WAITING ∧ (run s es1).frame_ok = true ∧
      (run s es1).frame_available = false ∧
      ∀ p, p <+: es2 → (run s (es1 ++ Event.t3_5_elapsed :: p)).frame_available = true := by
  induction es using List.reverseRecOn with
  | nil =>
    intro h
    simp [run, h0] at h
  | append_singleton es e ih =>
    intro h
    rw [run_append_singleton] at h
    by_cases hb : (run s es).frame_available = true
    · obtain ⟨es1, es2, he, h1, h2, h3, h4⟩ := ih hb
      refine ⟨es1, es2 ++ [e], by rw [he]; simp, h1, h2, h3, ?_⟩
      intro p hp
      rcases List.prefix_concat_iff.mp hp with hp | hp
      · rw [hp, ← List.cons_append, ← List.append_assoc, run_append_singleton, ← he]
        exact h
      · exact h4 p hp
    · have hb : (run s es).frame_available = false := by simpa using hb
      obtain ⟨he, h1, h2⟩ := step_latch (run s es) e hb h
      refine ⟨es, [], by rw [he], h1, h2, hb, ?_⟩
      intro p hp
      rw [List.prefix_nil] at hp
      rw [hp, ← he, run_append_singleton]
      exact h

/-- C30 as stated fails: the initialised instance of the tests receives one byte, then
the 1.5t and the 3.5t event; frame_available is set although frame_len is 1. -/
theorem C30_frame_available_counterexample :
    modbus_slave_init (some zeroed_slave) (some test_config) =
      (0, some (init_slave test_config)) ∧
    (run (init_slave test_config)
      [Event.rx_byte 0x01, Event.t1_5_elapsed, Event.t3_5_elapsed]).frame_available = true ∧
    (run (init_slave test_config)
      [Event.rx_byte 0x01, Event.t1_5_elapsed, Event.t3_5_elapsed]).frame_len = 1 ∧
    ¬ (4 ≤ (run (init_slave test_config)
      [Event.rx_byte 0x01, Event.t1_5_elapsed, Event.t3_5_elapsed]).frame_len) :=
  ⟨init_slave_eq test_config rfl (by decide), rfl, rfl, by decide⟩

/-- C30 (amended). In every state reachable from a successful modbus_slave_init by any
finite sequence of rx_byte, 1.5t, 3.5t and poll calls, frame_available = true implies
that the sequence contains a 3.5t event that was taken in CONTROL_AND_WAITING with
frame_ok = true and frame_available clear, since which frame_available has stayed set,
and that frame_len <= 256. It does not imply frame_len >= 4: the length floor is
enforced by the validator at the next poll, which for frame_len < 4 invokes no callback,
transmits nothing and clears frame_available. -/
theorem C30_frame_available (slave : Option ModbusSlave) (cfg : Option ModbusSlaveConfig)
    (s : ModbusSlave) (es : List Event)
    (hinit : modbus_slave_init slave cfg = (0, some s))
    (hav : (run s es).frame_available = true) :
    (∃ es1 es2, es = es1 ++ Event.t3_5_elapsed :: es2 ∧
      (run s es1).state = CONTROL_AND_WAITING ∧ (run s es1).frame_ok = true ∧
      (run s es1).frame_available = false ∧
      ∀ p, p <+: es2 → (run s (es1 ++ Event.t3_5_elapsed :: p)).frame_available = true) ∧
    (run s es).frame_len ≤ 256 ∧
    (∀ response0, (run s es).frame_len < 4 →
      (modbus_slave_poll (run s es) response0).2 = [] ∧
      (modbus_slave_poll (run s es) response0).1.frame_available = false) := by
  obtain ⟨s0, c, _, _, _, _, hs⟩ := init_success slave cfg (some s) hinit
  have hs := Option.some.inj hs
  refine ⟨run_latch s (by rw [hs]) es hav, run_frame_len_le es s (by rw [hs]; exact Nat.zero_le _),
    ?_⟩
  intro response0 hlen
  refine ⟨?_, poll_frame_available _ _⟩
  rw [poll_calls _ response0 hav]
  apply process_frame_invalid
  simp [modbus_validate_frame, MODBUS_MIN_FRAME_LENGTH, hlen]

/-- C30 (amended) on the initialised instance of the tests after one byte and the two
timing events (a latched frame of length 1). -/
theorem C30_frame_available_witness :
    (∃ es1 es2, one_byte_session = es1 ++ Event.t3_5_elapsed :: es2 ∧
      (run (init_slave test_config) es1).state = CONTROL_AND_WAITING ∧
      (run (init_slave test_config) es1).frame_ok = true ∧
      (run (init_slave test_config) es1).frame_available = false ∧
      ∀ p, p <+: es2 →
        (run (init_slave test_config) (es1 ++ Event.t3_5_elapsed :: p)).frame_available
          = true) ∧
    (run (init_slave test_config) one_byte_session).frame_len ≤ 256 ∧
    (∀ response0, (run (init_slave test_config) one_byte_session).frame_len < 4 →
      (modbus_slave_poll (run (init_slave test_config) one_byte_session) response0).2 = [] ∧
      (modbus_slave_poll (run (init_slave test_config) one_byte_session)
        response0).1.frame_available = false) :=
  C30_frame_available (some zeroed_slave) (some test_config) (init_slave test_config)
    one_byte_session (init_slave_eq test_config rfl (by decide)) rfl

/-- C31. Only the 3.5t event produces frame_available: from every instance with
frame_available = false, modbus_slave_rx_byte (any byte), modbus_slave_1_5t_elapsed and
modbus_slave_poll leave frame_available = false, and modbus_slave_3_5t_elapsed sets it
exactly when the state is CONTROL_AND_WAITING and frame_ok = true. -/
theorem C31_only_3_5t_sets_frame_available (s : ModbusSlave)
    (h : s.frame_available = false) :
    (∀ byte, (modbus_slave_rx_byte s byte).frame_available = false) ∧
    (modbus_slave_1_5t_elapsed s).frame_available = false ∧
    (∀ response0, (modbus_slave_poll s response0).1.frame_available = false) ∧
    ((modbus_slave_3_5t_elapsed s).frame_available = true ↔
      s.state = CONTROL_AND_WAITING ∧ s.frame_ok = true) := by
  refine ⟨?_, ?_, ?_, t3_5_frame_available_iff s h⟩
  · intro byte
    rw [rx_byte_frame_available, h]
  · rw [t1_5_frame_available, h]
  · intro response0
    exact poll_frame_available s response0

/-- C31 on the initialised instance of the tests after it received the request of
test_complete_frame_processing and the 1.5t event (CONTROL_AND_WAITING, frame_ok
true): only the 3.5t event sets the flag. -/
theorem C31_only_3_5t_sets_frame_available_witness :
    (∀ byte, (modbus_slave_rx_byte (modbus_slave_1_5t_elapsed
      (read_request.foldl modbus_slave_rx_byte (init_slave test_config))) byte).frame_available
        = false) ∧
    (modbus_slave_1_5t_elapsed (modbus_slave_1_5t_elapsed
      (read_request.foldl modbus_slave_rx_byte (init_slave test_config)))).frame_available
        = false ∧
    (∀ response0, (modbus_slave_poll (modbus_slave_1_5t_elapsed
      (read_request.foldl modbus_slave_rx_byte (init_slave test_config)))
        response0).1.frame_available = false) ∧
    (modbus_slave_3_5t_elapsed (modbus_slave_1_5t_elapsed
      (read_request.foldl modbus_slave_rx_byte (init_slave test_config)))).frame_available
        = true :=
  ⟨(C31_only_3_5t_sets_frame_available _ rfl).1,
   (C31_only_3_5t_sets_frame_available _ rfl).2.1,
   (C31_only_3_5t_sets_frame_available _ rfl).2.2.1,
   (C31_only_3_5t_sets_frame_available (modbus_slave_1_5t_elapsed
      (read_request.foldl modbus_slave_rx_byte (init_slave test_config))) rfl).2.2.2.mpr
      ⟨rfl, rfl⟩⟩

/-- C35 as stated fails: the initialised instance of the tests receives the request of
test_complete_frame_processing and the 1.5t event (CONTROL_AND_WAITING, frame_ok
true), then one more byte before the 3.5t event; the 3.5t event sets frame_available
and the 8 bytes of the request are latched. -/
theorem C35_gap_violation_counterexample :
    (modbus_slave_1_5t_elapsed
      (read_request.foldl modbus_slave_rx_byte (init_slave test_config))).state
        = CONTROL_AND_WAITING ∧
    (modbus_slave_1_5t_elapsed
      (read_request.foldl modbus_slave_rx_byte (init_slave test_config))).frame_ok = true ∧
    (modbus_slave_3_5t_elapsed (modbus_slave_rx_byte (modbus_slave_1_5t_elapsed
      (read_request.foldl modbus_slave_rx_byte (init_slave test_config))) 0x55)).frame_available
        = true ∧
    (modbus_slave_3_5t_elapsed (modbus_slave_rx_byte (modbus_slave_1_5t_elapsed
      (read_request.foldl modbus_slave_rx_byte (init_slave test_config))) 0x55)).frame_len
        = 8 :=
  ⟨rfl, rfl, rfl, rfl⟩

/-- C35 (amended). A byte received after the 1.5t event has moved the receiver to
CONTROL_AND_WAITING with frame_ok = true does not discard the frame: the byte is
dropped, frame_ok stays true, and the following 3.5t event returns the state to IDLE
and sets frame_available, latching frame and frame_len as they were before the byte.
The same holds for any number of such bytes. -/
theorem C35_gap_violation (s : ModbusSlave) (b : List Nat)
    (hs : s.state = CONTROL_AND_WAITING) (hk : s.frame_ok = true) :
    (b.foldl modbus_slave_rx_byte s).frame_ok = true ∧
    (modbus_slave_3_5t_elapsed (b.foldl modbus_slave_rx_byte s)).state = IDLE ∧
    (modbus_slave_3_5t_elapsed (b.foldl modbus_slave_rx_byte s)).frame_available = true ∧
    (modbus_slave_3_5t_elapsed (b.foldl modbus_slave_rx_byte s)).frame = s.frame ∧
    (modbus_slave_3_5t_elapsed (b.foldl modbus_slave_rx_byte s)).frame_len = s.frame_len := by
  rw [rx_bytes_control_and_waiting b s hs]
  simp [modbus_slave_3_5t_elapsed, hs, hk]

/-- C35 (amended) on the instance of the counterexample, with the bytes 0x55 0x66
received between the 1.5t and the 3.5t event. -/
theorem C35_gap_violation_witness :
    ([0x55, 0x66].foldl modbus_slave_rx_byte (modbus_slave_1_5t_elapsed
      (read_request.foldl modbus_slave_rx_byte (init_slave test_config)))).frame_ok = true ∧
    (modbus_slave_3_5t_elapsed ([0x55, 0x66].foldl modbus_slave_rx_byte
      (modbus_slave_1_5t_elapsed
        (read_request.foldl modbus_slave_rx_byte (init_slave test_config))))).state = IDLE ∧
    (modbus_slave_3_5t_elapsed ([0x55, 0x66].foldl modbus_slave_rx_byte
      (modbus_slave_1_5t_elapsed
        (read_request.foldl modbus_slave_rx_byte (init_slave test_config))))).frame_available
        = true :=
  ⟨(C35_gap_violation _ [0x55, 0x66] rfl rfl).1,
   (C35_gap_violation _ [0x55, 0x66] rfl rfl).2.1,
   (C35_gap_violation (modbus_slave_1_5t_elapsed
      (read_request.foldl modbus_slave_rx_byte (init_slave test_config)))
      [0x55, 0x66] rfl rfl).2.2.1⟩

/-! ## A latched frame and the bytes that follow it -/

set_option maxRecDepth 100000 in
/-- C39 as stated fails: the initialised instance of the tests has latched the request
of test_complete_frame_processing (frame_available = true, processing_frame = false,
frame_len = 8) and receives one byte before poll is called: frame_len becomes 1 and
frame[0] the new byte, and the next poll invokes no callback, whereas a poll before
the byte answers the request. -/
theorem C39_latched_frame_counterexample :
    (receive_frame (init_slave test_config) read_request).frame_available = true ∧
    (receive_frame (init_slave test_config) read_request).processing_frame = false ∧
    (receive_frame (init_slave test_config) read_request).frame_len = 8 ∧
    (receive_frame (init_slave test_config) read_request).frame 0 = 0x01 ∧
    (modbus_slave_rx_byte (receive_frame (init_slave test_config) read_request) 0x55).frame_len
      = 1 ∧
    (modbus_slave_rx_byte (receive_frame (init_slave test_config) read_request) 0x55).frame 0
      = 0x55 ∧
    (modbus_slave_poll (receive_frame (init_slave test_config) read_request)
      (fun _ => 0)).2 =
      [Call.read_holding_registers 0 2 2,
       Call.write [0x01, 0x03, 0x04, 0x01, 0xF4, 0x01, 0xF5, 0x7B, 0xEA]] ∧
    (modbus_slave_poll
      (modbus_slave_rx_byte (receive_frame (init_slave test_config) read_request) 0x55)
      (fun _ => 0)).2 = [] := by
  refine ⟨rfl, rfl, rfl, rfl, rfl, rfl, ?_, ?_⟩
  · decide
  · decide

/-- C39 (amended). A latched frame (frame_available = true, processing_frame = false)
survives the two timing events, and survives modbus_slave_rx_byte in the states
CONTROL_AND_WAITING and UNINITIALIZED; but in state IDLE, the state the latching 3.5t
event leaves, the first byte received restarts reception over the latched frame:
frame_len becomes 1 and frame[0] the byte while frame_available stays true, so the next
modbus_slave_poll validates that 1-byte frame, invokes no callback, transmits nothing
and clears frame_available. -/
theorem C39_latched_frame (s : ModbusSlave) (byte : Nat)
    (hav : s.frame_available = true) (hp : s.processing_frame = false) :
    (s.state = IDLE →
      modbus_slave_rx_byte s byte =
        { s with state := RECEPTION, frame_len := 1, frame_ok := true,
                 frame := s.frame.set 0 byte } ∧
      ∀ response0,
        (modbus_slave_poll (modbus_slave_rx_byte s byte) response0).2 = [] ∧
        (modbus_slave_poll (modbus_slave_rx_byte s byte) response0).1.frame_available
          = false) ∧
    (s.state = CONTROL_AND_WAITING ∨ s.state = UNINITIALIZED →
      modbus_slave_rx_byte s byte = s) ∧
    ((modbus_slave_1_5t_elapsed s).frame = s.frame ∧
      (modbus_slave_1_5t_elapsed s).frame_len = s.frame_len ∧
      (modbus_slave_1_5t_elapsed s).frame_available = true) ∧
    ((modbus_slave_3_5t_elapsed s).frame = s.frame ∧
      (modbus_slave_3_5t_elapsed s).frame_len = s.frame_len ∧
      (modbus_slave_3_5t_elapsed s).frame_available = true) := by
  refine ⟨?_, ?_, ?_, ?_⟩
  · intro hs
    have hrx := rx_byte_idle s byte hp hs
    refine ⟨hrx, ?_⟩
    intro response0
    refine ⟨?_, poll_frame_available _ _⟩
    rw [poll_calls _ response0 (by rw [rx_byte_frame_available, hav])]
    apply process_frame_invalid
    rw [hrx]
    simp [modbus_validate_frame, MODBUS_MIN_FRAME_LENGTH]
  · intro hs
    rcases hs with hs | hs
    · exact rx_byte_control_and_waiting s byte hs
    · simp [modbus_slave_rx_byte, hp, hs]
  · unfold modbus_slave_1_5t_elapsed
    split_ifs <;> simp [hav]
  · unfold modbus_slave_3_5t_elapsed
    split_ifs <;> simp [hav]

/-- C39 (amended) on the instance of the tests holding the latched request of
test_complete_frame_processing, with the byte 0x55 received before poll. -/
theorem C39_latched_frame_witness :
    modbus_slave_rx_byte (receive_frame (init_slave test_config) read_request) 0x55 =
      { receive_frame (init_slave test_config) read_request with
        state := RECEPTION, frame_len := 1, frame_ok := true,
        frame := (receive_frame (init_slave test_config) read_request).frame.set 0 0x55 } ∧
    ∀ response0,
      (modbus_slave_poll
        (modbus_slave_rx_byte (receive_frame (init_slave test_config) read_request) 0x55)
        response0).2 = [] ∧
      (modbus_slave_poll
        (modbus_slave_rx_byte (receive_frame (init_slave test_config) read_request) 0x55)
        response0).1.frame_available = false :=
  (C39_latched_frame (receive_frame (init_slave test_config) read_request) 0x55 rfl rfl).1 rfl

/-! ## CRC-16 reference values and the byte-order helpers -/

set_option maxRecDepth 100000 in
/-- C32. CRC-16 reference values: modbus_crc16 (initial value 0xFFFF, reflected
polynomial 0xA001, each byte XORed into the low byte followed by 8
shift-and-conditional-XOR steps, no final XOR) returns 0xFFFF for the empty input,
0x0A84 for 01 03 00 00 00 01, 0xCAD5 for 01 03 00 01 00 01 and 0x713F for the single
byte 0x42. -/
theorem C32_crc16_reference_values :
    modbus_crc16 [] = 0xFFFF ∧
    modbus_crc16 [0x01, 0x03, 0x00, 0x00, 0x00, 0x01] = 0x0A84 ∧
    modbus_crc16 [0x01, 0x03, 0x00, 0x01, 0x00, 0x01] = 0xCAD5 ∧
    modbus_crc16 [0x42] = 0x713F := by
  decide

theorem be16_split (a b : Nat) (ha : a < 256) (hb : b < 256) :
    ((((a <<< 8) ||| b) % 65536) >>> 8) % 256 = a ∧
    ((((a <<< 8) ||| b) % 65536) &&& 0xFF) % 256 = b := by
  have h3 : a <<< 8 = 2 ^ 8 * a := by rw [Nat.shiftLeft_eq, Nat.mul_comm]
  have h4 : b < 2 ^ 8 := by omega
  have h1 : ∀ w : Nat, w &&& 0xFF = w % 256 := fun w => Nat.and_pow_two_sub_one_eq_mod w 8
  have h2 : ∀ w : Nat, w >>> 8 = w / 256 := fun w => Nat.shiftRight_eq_div_pow w 8
  rw [h1, h2, h3, ← Nat.mul_add_lt_is_or h4]
  constructor <;> omega

theorem bytes_two (buf : Buf) (k : Nat) : (buf.offset k).bytes 2 = [buf k, buf (k + 1)] := by
  simp [Buf.bytes, Buf.offset, List.range_succ]

/-- C33. Byte-order helpers round-trip: for every 16-bit value v, modbus_be16_get
after modbus_be16_set(v) returns v and the stored bytes are [v >> 8, v & 0xFF];
modbus_le16_get after modbus_le16_set(v) returns v and the stored bytes are
[v & 0xFF, v >> 8]; hence the big-endian and little-endian encodings of the same value
are byte-reversals of each other; no other byte is stored; and for every two-byte
buffer p, set(get(p)) reproduces p, for either byte order. -/
theorem C33_byte_order_round_trip (buf : Buf) (k v : Nat) (hv : v < 65536) :
    modbus_be16_get (modbus_be16_set buf k v) k = v ∧
    ((modbus_be16_set buf k v).offset k).bytes 2 = [v >>> 8, v &&& 0xFF] ∧
    modbus_le16_get (modbus_le16_set buf k v) k = v ∧
    ((modbus_le16_set buf k v).offset k).bytes 2 = [v &&& 0xFF, v >>> 8] ∧
    ((modbus_be16_set buf k v).offset k).bytes 2 =
      (((modbus_le16_set buf k v).offset k).bytes 2).reverse ∧
    (∀ i, i ≠ k → i ≠ k + 1 →
      modbus_be16_set buf k v i = buf i ∧ modbus_le16_set buf k v i = buf i) ∧
    (buf k < 256 → buf (k + 1) < 256 →
      modbus_be16_set buf k (modbus_be16_get buf k) = buf ∧
      modbus_le16_set buf k (modbus_le16_get buf k) = buf) := by
  have hlo : (v &&& 0xFF) % 256 = v &&& 0xFF := by
    have h1 : v &&& 0xFF = v % 256 := Nat.and_pow_two_sub_one_eq_mod v 8
    rw [h1]; omega
  have hhi : (v >>> 8) % 256 = v >>> 8 := by
    have h2 : v >>> 8 = v / 256 := Nat.shiftRight_eq_div_pow v 8
    rw [h2]; omega
  have hbe : ((modbus_be16_set buf k v).offset k).bytes 2 = [v >>> 8, v &&& 0xFF] := by
    rw [bytes_two]
    unfold modbus_be16_set
    rw [Buf.set_other _ _ _ _ (by omega), Buf.set_same, Buf.set_same, hlo, hhi]
  have hle : ((modbus_le16_set buf k v).offset k).bytes 2 = [v &&& 0xFF, v >>> 8] := by
    rw [bytes_two]
    unfold modbus_le16_set
    rw [Buf.set_other _ _ _ _ (by omega), Buf.set_same, Buf.set_same, hlo, hhi]
  refine ⟨?_, hbe, modbus_le16_get_set buf k v hv, hle, ?_, ?_, ?_⟩
  · unfold modbus_be16_get modbus_be16_set
    rw [Buf.set_other _ _ _ _ (by omega), Buf.set_same, Buf.set_same]
    exact le16_join v hv
  · rw [hbe, hle]; rfl
  · intro i h1 h2
    unfold modbus_be16_set modbus_le16_set
    rw [Buf.set_other _ _ _ _ h2, Buf.set_other _ _ _ _ h1, Buf.set_other _ _ _ _ h2,
      Buf.set_other _ _ _ _ h1]
    exact ⟨rfl, rfl⟩
  · intro ha hb
    obtain ⟨hb1, hb2⟩ := be16_split (buf k) (buf (k + 1)) ha hb
    obtain ⟨hl1, hl2⟩ := be16_split (buf (k + 1)) (buf k) hb ha
    constructor
    · funext i
      unfold modbus_be16_set modbus_be16_get
      rw [hb1, hb2]
      unfold Buf.set
      split_ifs with h1 h2 <;> simp_all
    · funext i
      unfold modbus_le16_set modbus_le16_get
      rw [hl1, hl2]
      unfold Buf.set
      split_ifs with h1 h2 <;> simp_all

/-- C33 on the values of test_modbus_bytes.c: 0x1234, 0xFFFF and 0xABCD stored at the
start of a zeroed buffer, and the buffer 12 34 re-encoded. -/
theorem C33_byte_order_round_trip_witness :
    (modbus_be16_get (modbus_be16_set (fun _ => 0) 0 0x1234) 0 = 0x1234 ∧
      ((modbus_be16_set (fun _ => 0) 0 0x1234).offset 0).bytes 2 =
        [0x1234 >>> 8, 0x1234 &&& 0xFF]) ∧
    modbus_le16_get (modbus_le16_set (fun _ => 0) 0 0xFFFF) 0 = 0xFFFF ∧
    ((modbus_be16_set (fun _ => 0) 0 0xABCD).offset 0).bytes 2 =
      (((modbus_le16_set (fun _ => 0) 0 0xABCD).offset 0).bytes 2).reverse ∧
    modbus_be16_set (Buf.ofList [0x12, 0x34]) 0 (modbus_be16_get (Buf.ofList [0x12, 0x34]) 0) =
      Buf.ofList [0x12, 0x34] :=
  ⟨⟨(C33_byte_order_round_trip (fun _ => 0) 0 0x1234 (by decide)).1,
    (C33_byte_order_round_trip (fun _ => 0) 0 0x1234 (by decide)).2.1⟩,
   (C33_byte_order_round_trip (fun _ => 0) 0 0xFFFF (by decide)).2.2.1,
   (C33_byte_order_round_trip (fun _ => 0) 0 0xABCD (by decide)).2.2.2.2.1,
   ((C33_byte_order_round_trip (Buf.ofList [0x12, 0x34]) 0 0 (by decide)).2.2.2.2.2.2
      (by decide) (by decide)).1⟩

/-! ## The echoing handlers as tested -/

theorem echo_result (s : ModbusSlave) (response : Buf) (response_len n : Nat)
    (c : List Call) (hn : response_len + n < 65536) :
    EchoResult s response response_len n
      ⟨MODBUS_EX_NONE, echo_request s response n, (response_len + n) % 65536, c⟩ := by
  refine ⟨rfl, ?_, ?_, ?_⟩
  · intro i hi
    simp only [echo_request_apply, if_pos hi]
  · intro i hi
    simp only [echo_request_apply, if_neg (Nat.not_lt.mpr hi)]
  · exact Nat.mod_eq_of_lt hn

/-- C34. Echo handlers as tested: on every request for which the checks pass and the
callback returns MODBUS_EX_NONE, handle_write_single_coil, handle_write_single_register,
handle_write_multiple_coils and handle_write_multiple_registers each write
response[i] = frame[1+i] for i in 0..3 and increase *response_len by exactly 4, and
handle_mask_write_register writes response[i] = frame[1+i] for i in 0..5 and increases
*response_len by exactly 6; no other response byte is written. The length is a
uint16_t, so the sum is assumed to fit. -/
theorem C34_echo_handlers_as_tested (s : ModbusSlave) (response : Buf) (response_len : Nat)
    (hlen : response_len + 6 < 65536) :
    (∀ cb, s.config.write_single_coil = some cb →
      (modbus_be16_get s.frame 4 = 0x0000 ∨ modbus_be16_get s.frame 4 = 0xFF00) →
      cb (modbus_be16_get s.frame 2) (if modbus_be16_get s.frame 4 = 0xFF00 then 1 else 0)
        = MODBUS_EX_NONE →
      EchoResult s response response_len 4
        (handle_write_single_coil s response response_len)) ∧
    (∀ cb, s.config.write_single_register = some cb →
      cb (modbus_be16_get s.frame 2) (modbus_be16_get s.frame 4) = MODBUS_EX_NONE →
      EchoResult s response response_len 4
        (handle_write_single_register s response response_len)) ∧
    (∀ cb, s.config.write_multiple_coils = some cb →
      1 ≤ modbus_be16_get s.frame 4 → modbus_be16_get s.frame 4 ≤ 0x07B0 →
      s.frame 6 = (modbus_be16_get s.frame 4 + 7) / 8 →
      cb (modbus_be16_get s.frame 2) (modbus_be16_get s.frame 4) (s.frame.offset 7)
        = MODBUS_EX_NONE →
      EchoResult s response response_len 4
        (handle_write_multiple_coils s response response_len)) ∧
    (∀ cb, s.config.write_multiple_registers = some cb →
      1 ≤ modbus_be16_get s.frame 4 → modbus_be16_get s.frame 4 ≤ 0x007B →
      s.frame 6 = modbus_be16_get s.frame 4 * 2 →
      cb (modbus_be16_get s.frame 2) (modbus_be16_get s.frame 4) (s.frame.offset 7)
        = MODBUS_EX_NONE →
      EchoResult s response response_len 4
        (handle_write_multiple_registers s response response_len)) ∧
    (∀ cb, s.config.mask_write_register = some cb →
      cb (modbus_be16_get s.frame 2) (modbus_be16_get s.frame 4) (modbus_be16_get s.frame 6)
        = MODBUS_EX_NONE →
      EchoResult s response response_len 6
        (handle_mask_write_register s response response_len)) := by
  have h4 : response_len + 4 < 65536 := by omega
  refine ⟨?_, ?_, ?_, ?_, ?_⟩
  · intro cb hc hv he
    have hv2 : ¬ (modbus_be16_get s.frame 4 ≠ 0x0000 ∧ modbus_be16_get s.frame 4 ≠ 0xFF00) := by
      rcases hv with hv | hv <;> simp [hv]
    simp only [handle_write_single_coil, hc]
    rw [if_neg hv2, he, if_neg (by simp)]
    exact echo_result s response response_len 4 _ h4
  · intro cb hc he
    simp only [handle_write_single_register, hc]
    rw [he, if_neg (by simp)]
    exact echo_result s response response_len 4 _ h4
  · intro cb hc h1 h2 hb he
    have hq : ¬ (modbus_be16_get s.frame 4 < 0x0001 ∨ modbus_be16_get s.frame 4 > 0x07B0) := by
      omega
    simp only [handle_write_multiple_coils, hc]
    rw [if_neg hq, if_neg (by simp [hb]), he, if_neg (by simp)]
    exact echo_result s response response_len 4 _ h4
  · intro cb hc h1 h2 hb he
    have hq : ¬ (modbus_be16_get s.frame 4 < 0x0001 ∨ modbus_be16_get s.frame 4 > 0x007B) := by
      omega
    simp only [handle_write_multiple_registers, hc]
    rw [if_neg hq, if_neg (by simp [hb]), he, if_neg (by simp)]
    exact echo_result s response response_len 4 _ h4
  · intro cb hc he
    simp only [handle_mask_write_register, hc]
    rw [he, if_neg (by simp)]
    exact echo_result s response response_len 6 _ hlen

/-- C34 on the requests of test_handle_write_single_register_valid,
test_handle_mask_write_register_valid and test_handle_write_multiple_registers_valid,
with callbacks that return MODBUS_EX_NONE, response_len 0 and a response array filled
with 0xEE. -/
theorem C34_echo_handlers_as_tested_witness :
    EchoResult (latched full_config [0x01, 0x06, 0x03, 0x00, 0x12, 0x34]) (fun _ => 0xEE) 0 4
      (handle_write_single_register (latched full_config [0x01, 0x06, 0x03, 0x00, 0x12, 0x34])
        (fun _ => 0xEE) 0) ∧
    EchoResult (latched full_config [0x01, 0x16, 0x01, 0x00, 0x00, 0xFF, 0x12, 0x34])
      (fun _ => 0xEE) 0 6
      (handle_mask_write_register
        (latched full_config [0x01, 0x16, 0x01, 0x00, 0x00, 0xFF, 0x12, 0x34])
        (fun _ => 0xEE) 0) ∧
    EchoResult
      (latched full_config [0x01, 0x10, 0x00, 0x64, 0x00, 0x02, 0x04, 0x12, 0x34, 0x56, 0x78])
      (fun _ => 0xEE) 0 4
      (handle_write_multiple_registers
        (latched full_config [0x01, 0x10, 0x00, 0x64, 0x00, 0x02, 0x04, 0x12, 0x34, 0x56, 0x78])
        (fun _ => 0xEE) 0) :=
  ⟨(C34_echo_handlers_as_tested (latched full_config [0x01, 0x06, 0x03, 0x00, 0x12, 0x34])
      (fun _ => 0xEE) 0 (by decide)).2.1 (fun _ _ => MODBUS_EX_NONE) rfl rfl,
   (C34_echo_handlers_as_tested
      (latched full_config [0x01, 0x16, 0x01, 0x00, 0x00, 0xFF, 0x12, 0x34])
      (fun _ => 0xEE) 0 (by decide)).2.2.2.2 (fun _ _ _ => MODBUS_EX_NONE) rfl rfl,
   (C34_echo_handlers_as_tested
      (latched full_config [0x01, 0x10, 0x00, 0x64, 0x00, 0x02, 0x04, 0x12, 0x34, 0x56, 0x78])
      (fun _ => 0xEE) 0 (by decide)).2.2.2.1 (fun _ _ _ => MODBUS_EX_NONE) rfl
      (by decide) (by decide) (by decide) rfl⟩

/-! ## Response size -/

theorem response_bound_fail (s : ModbusSlave) (e : ModbusExceptionCode) (r : Buf)
    (cs : List Call) (he : e ≠ MODBUS_EX_NONE) (hcs : ∀ c ∈ cs, c.read_data_end ≤ 253) :
    ResponseBound s ⟨e, r, 0, cs⟩ := by
  refine ⟨Nat.zero_le _, fun h => absurd h he, fun _ => rfl, ?_⟩
  intro c hc
  exact ⟨hcs c hc, fun h => absurd h he⟩

theorem response_bound_ok (s : ModbusSlave) (r : Buf) (n : Nat) (cs : List Call)
    (h3 : 3 ≤ n) (hn : n ≤ 252) (h0 : r 0 = s.frame 1)
    (hcs : ∀ c ∈ cs, c.read_data_end ≤ 253 ∧
      (c.read_data_end ≠ 0 → c.read_data_end = 1 + n)) :
    ResponseBound s ⟨MODBUS_EX_NONE, r, n, cs⟩ := by
  refine ⟨hn, fun _ => ⟨h3, h0⟩, fun h => absurd rfl h, ?_⟩
  intro c hc
  exact ⟨(hcs c hc).1, fun _ => (hcs c hc).2⟩

theorem handle_read_coils_response_bound (s : ModbusSlave) (r : Buf) :
    ResponseBound s (handle_read_coils s r 0) := by
  unfold handle_read_coils
  cases s.config.read_coils with
  | none => exact response_bound_fail s _ r [] (by decide) (by simp)
  | some cb =>
    simp only []
    by_cases hq : modbus_be16_get s.frame 4 < 0x0001 ∨ modbus_be16_get s.frame 4 > 0x07D0
    · rw [if_pos hq]
      exact response_bound_fail s _ r [] (by decide) (by simp)
    · rw [if_neg hq]
      by_cases he : (cb (modbus_be16_get s.frame 2) (modbus_be16_get s.frame 4)
          (r.offset 2)).1 ≠ MODBUS_EX_NONE
      · rw [if_pos he]
        apply response_bound_fail s _ _ _ he
        simp [Call.read_data_end]
        omega
      · rw [if_neg he]
        apply response_bound_ok
        · simp; omega
        · simp; omega
        · simp [Buf.set]
        · simp [Call.read_data_end]
          omega

theorem handle_read_discrete_inputs_response_bound (s : ModbusSlave) (r : Buf) :
    ResponseBound s (handle_read_discrete_inputs s r 0) := by
  unfold handle_read_discrete_inputs
  cases s.config.read_discrete_inputs with
  | none => exact response_bound_fail s _ r [] (by decide) (by simp)
  | some cb =>
    simp only []
    by_cases hq : modbus_be16_get s.frame 4 < 0x0001 ∨ modbus_be16_get s.frame 4 > 0x07D0
    · rw [if_pos hq]
      exact response_bound_fail s _ r [] (by decide) (by simp)
    · rw [if_neg hq]
      by_cases he : (cb (modbus_be16_get s.frame 2) (modbus_be16_get s.frame 4)
          (r.offset 2)).1 ≠ MODBUS_EX_NONE
      · rw [if_pos he]
        apply response_bound_fail s _ _ _ he
        simp [Call.read_data_end]
        omega
      · rw [if_neg he]
        apply response_bound_ok
        · simp; omega
        · simp; omega
        · simp [Buf.set]
        · simp [Call.read_data_end]
          omega

theorem handle_read_holding_registers_response_bound (s : ModbusSlave) (r : Buf) :
    ResponseBound s (handle_read_holding_registers s r 0) := by
  unfold handle_read_holding_registers
  cases s.config.read_holding_registers with
  | none => exact response_bound_fail s _ r [] (by decide) (by simp)
  | some cb =>
    simp only []
    by_cases hq : modbus_be16_get s.frame 4 < 0x0001 ∨ modbus_be16_get s.frame 4 > 0x007D
    · rw [if_pos hq]
      exact response_bound_fail s _ r [] (by decide) (by simp)
    · rw [if_neg hq]
      by_cases he : (cb (modbus_be16_get s.frame 2) (modbus_be16_get s.frame 4)
          (r.offset 2)).1 ≠ MODBUS_EX_NONE
      · rw [if_pos he]
        apply response_bound_fail s _ _ _ he
        simp [Call.read_data_end]
        omega
      · rw [if_neg he]
        apply response_bound_ok
        · simp; omega
        · simp; omega
        · simp [Buf.set]
        · simp [Call.read_data_end]
          omega

theorem handle_read_input_registers_response_bound (s : ModbusSlave) (r : Buf) :
    ResponseBound s (handle_read_input_registers s r 0) := by
  unfold handle_read_input_registers
  cases s.config.read_input_registers with
  | none => exact response_bound_fail s _ r [] (by decide) (by simp)
  | some cb =>
    simp only []
    by_cases hq : modbus_be16_get s.frame 4 < 0x0001 ∨ modbus_be16_get s.frame 4 > 0x007D
    · rw [if_pos hq]
      exact response_bound_fail s _ r [] (by decide) (by simp)
    · rw [if_neg hq]
      by_cases he : (cb (modbus_be16_get s.frame 2) (modbus_be16_get s.frame 4)
          (r.offset 2)).1 ≠ MODBUS_EX_NONE
      · rw [if_pos he]
        apply response_bound_fail s _ _ _ he
        simp [Call.read_data_end]
        omega
      · rw [if_neg he]
        apply response_bound_ok
        · simp; omega
        · simp; omega
        · simp [Buf.set]
        · simp [Call.read_data_end]
          omega

theorem handle_write_single_coil_response_bound (s : ModbusSlave) (r : Buf) :
    ResponseBound s (handle_write_single_coil s r 0) := by
  unfold handle_write_single_coil
  cases s.config.write_single_coil with
  | none => exact response_bound_fail s _ r [] (by decide) (by simp)
  | some cb =>
    simp only []
    by_cases hq : modbus_be16_get s.frame 4 ≠ 0x0000 ∧ modbus_be16_get s.frame 4 ≠ 0xFF00
    · rw [if_pos hq]
      exact response_bound_fail s _ r [] (by decide) (by simp)
    · rw [if_neg hq]
      by_cases he : cb (modbus_be16_get s.frame 2)
          (if modbus_be16_get s.frame 4 = 0xFF00 then 1 else 0) ≠ MODBUS_EX_NONE
      · rw [if_pos he]
        apply response_bound_fail s _ _ _ he
        simp [Call.read_data_end]
      · rw [if_neg he]
        apply response_bound_ok
        · simp
        · simp
        · simp [echo_request_apply]
        · simp [Call.read_data_end]

theorem handle_write_single_register_response_bound (s : ModbusSlave) (r : Buf) :
    ResponseBound s (handle_write_single_register s r 0) := by
  unfold handle_write_single_register
  cases s.config.write_single_register with
  | none => exact response_bound_fail s _ r [] (by decide) (by simp)
  | some cb =>
    simp only []
    by_cases he : cb (modbus_be16_get s.frame 2) (modbus_be16_get s.frame 4) ≠ MODBUS_EX_NONE
    · rw [if_pos he]
      apply response_bound_fail s _ _ _ he
      simp [Call.read_data_end]
    · rw [if_neg he]
      apply response_bound_ok
      · simp
      · simp
      · simp [echo_request_apply]
      · simp [Call.read_data_end]

theorem handle_write_multiple_coils_response_bound (s : ModbusSlave) (r : Buf) :
    ResponseBound s (handle_write_multiple_coils s r 0) := by
  unfold handle_write_multiple_coils
  cases s.config.write_multiple_coils with
  | none => exact response_bound_fail s _ r [] (by decide) (by simp)
  | some cb =>
    simp only []
    by_cases hq : modbus_be16_get s.frame 4 < 0x0001 ∨ modbus_be16_get s.frame 4 > 0x07B0
    · rw [if_pos hq]
      exact response_bound_fail s _ r [] (by decide) (by simp)
    · rw [if_neg hq]
      by_cases hb : s.frame 6 ≠ (modbus_be16_get s.frame 4 + 7) / 8
      · rw [if_pos hb]
        exact response_bound_fail s _ r [] (by decide) (by simp)
      · rw [if_neg hb]
        by_cases he : cb (modbus_be16_get s.frame 2) (modbus_be16_get s.frame 4)
            (s.frame.offset 7) ≠ MODBUS_EX_NONE
        · rw [if_pos he]
          apply response_bound_fail s _ _ _ he
          simp [Call.read_data_end]
        · rw [if_neg he]
          apply response_bound_ok
          · simp
          · simp
          · simp [echo_request_apply]
          · simp [Call.read_data_end]

theorem handle_write_multiple_registers_response_bound (s : ModbusSlave) (r : Buf) :
    ResponseBound s (handle_write_multiple_registers s r 0) := by
  unfold handle_write_multiple_registers
  cases s.config.write_multiple_registers with
  | none => exact response_bound_fail s _ r [] (by decide) (by simp)
  | some cb =>
    simp only []
    by_cases hq : modbus_be16_get s.frame 4 < 0x0001 ∨ modbus_be16_get s.frame 4 > 0x007B
    · rw [if_pos hq]
      exact response_bound_fail s _ r [] (by decide) (by simp)
    · rw [if_neg hq]
      by_cases hb : s.frame 6 ≠ modbus_be16_get s.frame 4 * 2
      · rw [if_pos hb]
        exact response_bound_fail s _ r [] (by decide) (by simp)
      · rw [if_neg hb]
        by_cases he : cb (modbus_be16_get s.frame 2) (modbus_be16_get s.frame 4)
            (s.frame.offset 7) ≠ MODBUS_EX_NONE
        · rw [if_pos he]
          apply response_bound_fail s _ _ _ he
          simp [Call.read_data_end]
        · rw [if_neg he]
          apply response_bound_ok
          · simp
          · simp
          · simp [echo_request_apply]
          · simp [Call.read_data_end]

theorem handle_mask_write_register_response_bound (s : ModbusSlave) (r : Buf) :
    ResponseBound s (handle_mask_write_register s r 0) := by
  unfold handle_mask_write_register
  cases s.config.mask_write_register with
  | none => exact response_bound_fail s _ r [] (by decide) (by simp)
  | some cb =>
    simp only []
    by_cases he : cb (modbus_be16_get s.frame 2) (modbus_be16_get s.frame 4)
        (modbus_be16_get s.frame 6) ≠ MODBUS_EX_NONE
    · rw [if_pos he]
      apply response_bound_fail s _ _ _ he
      simp [Call.read_data_end]
    · rw [if_neg he]
      apply response_bound_ok
      · simp
      · simp
      · simp [echo_request_apply]
      · simp [Call.read_data_end]

theorem handle_read_write_multiple_registers_response_bound (s : ModbusSlave) (r : Buf) :
    ResponseBound s (handle_read_write_multiple_registers s r 0) := by
  unfold handle_read_write_multiple_registers
  cases s.config.read_write_multiple_registers with
  | none => exact response_bound_fail s _ r [] (by decide) (by simp)
  | some cb =>
    simp only []
    by_cases hq : modbus_be16_get s.frame 4 < 0x0001 ∨ modbus_be16_get s.frame 4 > 0x007D
    · rw [if_pos hq]
      exact response_bound_fail s _ r [] (by decide) (by simp)
    · rw [if_neg hq]
      by_cases hw : modbus_be16_get s.frame 8 < 0x0001 ∨ modbus_be16_get s.frame 8 > 0x0079
      · rw [if_pos hw]
        exact response_bound_fail s _ r [] (by decide) (by simp)
      · rw [if_neg hw]
        by_cases hb : s.frame 10 ≠ modbus_be16_get s.frame 8 * 2
        · rw [if_pos hb]
          exact response_bound_fail s _ r [] (by decide) (by simp)
        · rw [if_neg hb]
          by_cases he : (cb (modbus_be16_get s.frame 2) (modbus_be16_get s.frame 4)
              (modbus_be16_get s.frame 6) (modbus_be16_get s.frame 8) (s.frame.offset 11)
              (r.offset 2)).1 ≠ MODBUS_EX_NONE
          · rw [if_pos he]
            apply response_bound_fail s _ _ _ he
            simp [Call.read_data_end]
            omega
          · rw [if_neg he]
            apply response_bound_ok
            · simp; omega
            · simp; omega
            · simp [Buf.set]
            · simp [Call.read_data_end]
              omega

theorem dispatch_response_bound (s : ModbusSlave) (r : Buf) :
    ResponseBound s (dispatch s r 0) := by
  apply dispatch_cases (ResponseBound s)
  · exact handle_read_coils_response_bound s r
  · exact handle_read_discrete_inputs_response_bound s r
  · exact handle_read_holding_registers_response_bound s r
  · exact handle_read_input_registers_response_bound s r
  · exact handle_write_single_coil_response_bound s r
  · exact handle_write_single_register_response_bound s r
  · exact handle_write_multiple_coils_response_bound s r
  · exact handle_write_multiple_registers_response_bound s r
  · exact handle_mask_write_register_response_bound s r
  · exact handle_read_write_multiple_registers_response_bound s r
  · exact response_bound_fail s _ r [] (by decide) (by simp)

/-- The length of the assembled response: 5 for an exception, PDU length + 3
otherwise. -/
theorem frame_response_length (s : ModbusSlave) (response : Buf) (h : HandlerResult)
    (hl : h.response_len ≤ 252) :
    (frame_response s response h).length =
      if h.ex ≠ MODBUS_EX_NONE then 5 else 1 + h.response_len + 2 := by
  unfold frame_response
  simp only [Buf.bytes_length]
  by_cases he : h.ex ≠ MODBUS_EX_NONE
  · simp [he]
  · have h1 : (h.response_len + 1) % 65536 = h.response_len + 1 := by omega
    rw [if_neg he, if_neg he, h1]
    omega

/-- A callback invoked by poll is one of the switch, or the transmit callback. -/
theorem poll_mem (s : ModbusSlave) (response0 : Buf) (c : Call)
    (hc : c ∈ (modbus_slave_poll s response0).2) :
    c ∈ (dispatch s (response0.offset 1) 0).calls ∨ ∃ d, c = Call.write d := by
  by_cases ha : s.frame_available = true
  · rw [poll_calls s response0 ha] at hc
    by_cases hv : modbus_validate_frame s = 0
    · by_cases hb : s.frame 0 = 0
      · rw [process_frame_broadcast s response0 hv hb] at hc
        exact Or.inl hc
      · rw [process_frame_unicast s response0 hv hb] at hc
        rcases List.mem_append.mp hc with h | h
        · exact Or.inl h
        · exact Or.inr ⟨_, List.mem_singleton.mp h⟩
    · rw [process_frame_invalid s response0 hv] at hc
      simp at hc
  · have ha : s.frame_available = false := by simpa using ha
    simp [modbus_slave_poll, ha] at hc

/-- C36. Response size bound: every byte sequence that modbus_slave_poll hands to the
transmit callback has length between 5 and 255 (hence at most 256), its PDU part
(between the address byte and the two CRC bytes) is at most 252 bytes (hence at most
253), and for every read callback poll invokes, the data region reserved for it in the
local response array (byte-count bytes from PDU offset 2) ends at or before index 253,
so that with the two CRC bytes appended right after it on success it lies inside the
256-byte array. -/
theorem C36_response_size_bound (s : ModbusSlave) (response0 : Buf) :
    (∀ data, Call.write data ∈ (modbus_slave_poll s response0).2 →
      5 ≤ data.length ∧ data.length ≤ 255 ∧
      ∃ pdu, data.length = 1 + pdu + 2 ∧ pdu ≤ 252) ∧
    (∀ c ∈ (modbus_slave_poll s response0).2, c.read_data_end + 2 ≤ 256) ∧
    (∀ c ∈ (modbus_slave_poll s response0).2, ∀ data,
      Call.write data ∈ (modbus_slave_poll s response0).2 →
      (dispatch s (response0.offset 1) 0).ex = MODBUS_EX_NONE → c.read_data_end ≠ 0 →
      data.length = c.read_data_end + 2) := by
  obtain ⟨b1, b2, b3, b4⟩ := dispatch_response_bound s (response0.offset 1)
  refine ⟨?_, ?_, ?_⟩
  · intro data hd
    obtain ⟨_, _, _, hr⟩ := poll_write_mem s response0 data hd
    have hlen := frame_response_length s
      (response0.splice 1 (dispatch s (response0.offset 1) 0).response)
      (dispatch s (response0.offset 1) 0) b1
    rw [← hr] at hlen
    by_cases he : (dispatch s (response0.offset 1) 0).ex ≠ MODBUS_EX_NONE
    · rw [if_pos he] at hlen
      exact ⟨by omega, by omega, 2, by omega, by omega⟩
    · rw [if_neg he] at hlen
      have h3 := (b2 (by simpa using he)).1
      exact ⟨by omega, by omega, _, hlen, b1⟩
  · intro c hc
    rcases poll_mem s response0 c hc with h | ⟨d, h⟩
    · have := (b4 c h).1
      omega
    · rw [h]
      simp [Call.read_data_end]
  · intro c hc data hd he hne
    obtain ⟨_, _, _, hr⟩ := poll_write_mem s response0 data hd
    have hlen := frame_response_length s
      (response0.splice 1 (dispatch s (response0.offset 1) 0).response)
      (dispatch s (response0.offset 1) 0) b1
    rw [← hr, if_neg (by simp [he])] at hlen
    rcases poll_mem s response0 c hc with h | ⟨d, h⟩
    · have := (b4 c h).2 he hne
      omega
    · rw [h] at hne
      simp [Call.read_data_end] at hne

set_option maxRecDepth 100000 in
/-- C36 on the request of test_complete_frame_processing: the response of 9 bytes, and
the data region of the read callback, which ends at index 7 of the response array. -/
theorem C36_response_size_bound_witness :
    (5 ≤ [0x01, 0x03, 0x04, 0x01, 0xF4, 0x01, 0xF5, 0x7B, 0xEA].length ∧
      [0x01, 0x03, 0x04, 0x01, 0xF4, 0x01, 0xF5, 0x7B, 0xEA].length ≤ 255 ∧
      ∃ pdu, [0x01, 0x03, 0x04, 0x01, 0xF4, 0x01, 0xF5, 0x7B, 0xEA].length = 1 + pdu + 2 ∧
        pdu ≤ 252) ∧
    (Call.read_holding_registers 0 2 2).read_data_end + 2 ≤ 256 :=
  ⟨(C36_response_size_bound (receive_frame (init_slave test_config) read_request)
      (fun _ => 0)).1 [0x01, 0x03, 0x04, 0x01, 0xF4, 0x01, 0xF5, 0x7B, 0xEA] (by decide),
   (C36_response_size_bound (receive_frame (init_slave test_config) read_request)
      (fun _ => 0)).2.1 (Call.read_holding_registers 0 2 2) (by decide)⟩

/-- C37. Every valid unicast request is answered exactly once: for every latched frame
accepted by the validator whose address byte equals the non-zero own address,
modbus_slave_poll invokes, after the data-access callbacks of the switch, the transmit
callback exactly one time, and the transmitted sequence starts with the own address
followed by the request's function code when the switch succeeds, or by the function
code with bit 0x80 set when it yields an exception. -/
theorem C37_unicast_answered_once (s : ModbusSlave) (response0 : Buf)
    (havail : s.frame_available = true) (hvalid : modbus_validate_frame s = 0)
    (hown : s.frame 0 = s.config.address) (hnz : s.config.address ≠ 0)
    (hfc : s.frame 1 < 256) :
    ∃ data,
      (modbus_slave_poll s response0).2 =
        (dispatch s (response0.offset 1) 0).calls ++ [Call.write data] ∧
      (modbus_slave_poll s response0).2.filter Call.isWrite = [Call.write data] ∧
      data[0]? = some s.config.address ∧
      data[1]? = some (if (dispatch s (response0.offset 1) 0).ex = MODBUS_EX_NONE
        then s.frame 1 else s.frame 1 ||| 0x80) := by
  have hu : s.frame 0 ≠ 0 := by rw [hown]; exact hnz
  have hp := poll_calls s response0 havail
  rw [process_frame_unicast s response0 hvalid hu] at hp
  obtain ⟨b1, b2, _, _⟩ := dispatch_response_bound s (response0.offset 1)
  refine ⟨_, hp, ?_, ?_, ?_⟩
  · rw [hp]
    exact filter_isWrite_append _ _ (dispatch_not_write s _ _)
  · by_cases he : (dispatch s (response0.offset 1) 0).ex = MODBUS_EX_NONE
    · rw [frame_response_success s _ _ he (by omega), ← hown]
      simp
    · rw [frame_response_exception s _ _ he hfc, ← hown]
      simp
  · by_cases he : (dispatch s (response0.offset 1) 0).ex = MODBUS_EX_NONE
    · obtain ⟨h3, h0⟩ := b2 he
      obtain ⟨m, hm⟩ : ∃ m, (dispatch s (response0.offset 1) 0).response_len = m + 1 :=
        ⟨(dispatch s (response0.offset 1) 0).response_len - 1, by omega⟩
      rw [frame_response_success s _ _ he (by omega), if_pos he, Buf.splice_offset, hm,
        Buf.bytes_cons, h0]
      simp
    · rw [frame_response_exception s _ _ he hfc, if_neg he]
      simp

set_option maxRecDepth 100000 in
/-- C37 on the request of test_complete_frame_processing (answered with function code
0x03) and on the same request for an address beyond the mock's range (answered with
0x83). -/
theorem C37_unicast_answered_once_witness :
    (∃ data,
      (modbus_slave_poll (receive_frame (init_slave test_config) read_request)
        (fun _ => 0)).2 =
        (dispatch (receive_frame (init_slave test_config) read_request)
          (Buf.offset (fun _ => 0) 1) 0).calls ++ [Call.write data] ∧
      (modbus_slave_poll (receive_frame (init_slave test_config) read_request)
        (fun _ => 0)).2.filter Call.isWrite = [Call.write data] ∧
      data[0]? = some (receive_frame (init_slave test_config) read_request).config.address ∧
      data[1]? = some (if (dispatch (receive_frame (init_slave test_config) read_request)
          (Buf.offset (fun _ => 0) 1) 0).ex = MODBUS_EX_NONE
        then (receive_frame (init_slave test_config) read_request).frame 1
        else (receive_frame (init_slave test_config) read_request).frame 1 ||| 0x80)) ∧
    (modbus_slave_poll (receive_frame (init_slave test_config) read_request)
      (fun _ => 0)).2.filter Call.isWrite =
      [Call.write [0x01, 0x03, 0x04, 0x01, 0xF4, 0x01, 0xF5, 0x7B, 0xEA]] ∧
    (modbus_slave_poll (receive_frame (init_slave test_config)
      (with_crc [0x01, 0x03, 0x07, 0xD0, 0x00, 0x02])) (fun _ => 0)).2.filter Call.isWrite =
      [Call.write (with_crc [0x01, 0x83, 0x02])] :=
  ⟨C37_unicast_answered_once (receive_frame (init_slave test_config) read_request)
      (fun _ => 0) rfl (by decide) rfl (by decide) (by decide),
   by decide, by decide⟩

/-! ## The source region of the multiple-write callbacks -/

/-- C40. Write-data region stays inside the frame buffer: whenever
handle_write_multiple_coils, handle_write_multiple_registers or
handle_read_write_multiple_registers invokes the user callback (the request passed the
bounds and byte-count checks), the source pointer is frame offset 7 (offset 11 for
0x17), the byte count of the request equals ceil(q/8), respectively 2*q, which is at
most 255 (in fact 246, 246 and 242), and the region of byte-count bytes from that
offset ends at or before index 253, inside the 256-byte frame buffer. -/
theorem C40_write_data_region (s : ModbusSlave) (response : Buf) (response_len : Nat) :
    (∀ addr count src, Call.write_multiple_coils addr count src ∈
        (handle_write_multiple_coils s response response_len).calls →
      src = 7 ∧ count = modbus_be16_get s.frame 4 ∧ 1 ≤ count ∧ count ≤ 0x07B0 ∧
      s.frame 6 = (count + 7) / 8 ∧ (count + 7) / 8 ≤ 255 ∧ src + s.frame 6 ≤ 253) ∧
    (∀ addr count src, Call.write_multiple_registers addr count src ∈
        (handle_write_multiple_registers s response response_len).calls →
      src = 7 ∧ count = modbus_be16_get s.frame 4 ∧ 1 ≤ count ∧ count ≤ 0x007B ∧
      s.frame 6 = count * 2 ∧ count * 2 ≤ 255 ∧ src + s.frame 6 ≤ 253) ∧
    (∀ read_addr read_count write_addr write_count write_data read_data,
      Call.read_write_multiple_registers read_addr read_count write_addr write_count
          write_data read_data ∈
        (handle_read_write_multiple_registers s response response_len).calls →
      write_data = 11 ∧ write_count = modbus_be16_get s.frame 8 ∧ 1 ≤ write_count ∧
      write_count ≤ 0x0079 ∧ s.frame 10 = write_count * 2 ∧ write_count * 2 ≤ 255 ∧
      write_data + s.frame 10 ≤ 253) := by
  refine ⟨?_, ?_, ?_⟩
  · intro addr count src hmem
    unfold handle_write_multiple_coils at hmem
    cases hc : s.config.write_multiple_coils with
    | none => simp [hc] at hmem
    | some cb =>
      simp only [hc] at hmem
      by_cases hq : modbus_be16_get s.frame 4 < 0x0001 ∨ modbus_be16_get s.frame 4 > 0x07B0
      · rw [if_pos hq] at hmem
        simp at hmem
      · rw [if_neg hq] at hmem
        by_cases hb : s.frame 6 ≠ (modbus_be16_get s.frame 4 + 7) / 8
        · rw [if_pos hb] at hmem
          simp at hmem
        · rw [if_neg hb, (pass_on _ _ _ _ _ _).1] at hmem
          simp at hmem
          obtain ⟨_, h2, h3⟩ := hmem
          subst h2 h3
          have hb : s.frame 6 = (modbus_be16_get s.frame 4 + 7) / 8 := by simpa using hb
          refine ⟨rfl, rfl, ?_, ?_, hb, ?_, ?_⟩ <;> omega
  · intro addr count src hmem
    unfold handle_write_multiple_registers at hmem
    cases hc : s.config.write_multiple_registers with
    | none => simp [hc] at hmem
    | some cb =>
      simp only [hc] at hmem
      by_cases hq : modbus_be16_get s.frame 4 < 0x0001 ∨ modbus_be16_get s.frame 4 > 0x007B
      · rw [if_pos hq] at hmem
        simp at hmem
      · rw [if_neg hq] at hmem
        by_cases hb : s.frame 6 ≠ modbus_be16_get s.frame 4 * 2
        · rw [if_pos hb] at hmem
          simp at hmem
        · rw [if_neg hb, (pass_on _ _ _ _ _ _).1] at hmem
          simp at hmem
          obtain ⟨_, h2, h3⟩ := hmem
          subst h2 h3
          have hb : s.frame 6 = modbus_be16_get s.frame 4 * 2 := by simpa using hb
          refine ⟨rfl, rfl, ?_, ?_, hb, ?_, ?_⟩ <;> omega
  · intro read_addr read_count write_addr write_count write_data read_data hmem
    unfold handle_read_write_multiple_registers at hmem
    cases hc : s.config.read_write_multiple_registers with
    | none => simp [hc] at hmem
    | some cb =>
      simp only [hc] at hmem
      by_cases hq : modbus_be16_get s.frame 4 < 0x0001 ∨ modbus_be16_get s.frame 4 > 0x007D
      · rw [if_pos hq] at hmem
        simp at hmem
      · rw [if_neg hq] at hmem
        by_cases hw : modbus_be16_get s.frame 8 < 0x0001 ∨ modbus_be16_get s.frame 8 > 0x0079
        · rw [if_pos hw] at hmem
          simp at hmem
        · rw [if_neg hw] at hmem
          by_cases hb : s.frame 10 ≠ modbus_be16_get s.frame 8 * 2
          · rw [if_pos hb] at hmem
            simp at hmem
          · rw [if_neg hb, (pass_on _ _ _ _ _ _).1] at hmem
            simp at hmem
            obtain ⟨_, _, _, h4, h5, _⟩ := hmem
            subst h4 h5
            have hb : s.frame 10 = modbus_be16_get s.frame 8 * 2 := by simpa using hb
            refine ⟨rfl, rfl, ?_, ?_, hb, ?_, ?_⟩ <;> omega

/-- C40 on the largest Write Multiple Coils request (1968 coils, byte count 246, the
region ends at index 253), on the request of
test_handle_write_multiple_registers_valid, and on a Read/Write Multiple Registers
request writing the maximum of 121 registers (byte count 242, from offset 11). -/
theorem C40_write_data_region_witness :
    ((7 : Nat) = 7 ∧ 1968 = modbus_be16_get
        (latched full_config [0x01, 0x0F, 0x00, 0x00, 0x07, 0xB0, 0xF6]).frame 4 ∧
      1 ≤ 1968 ∧ 1968 ≤ 0x07B0 ∧
      (latched full_config [0x01, 0x0F, 0x00, 0x00, 0x07, 0xB0, 0xF6]).frame 6 =
        (1968 + 7) / 8 ∧
      (1968 + 7) / 8 ≤ 255 ∧
      7 + (latched full_config [0x01, 0x0F, 0x00, 0x00, 0x07, 0xB0, 0xF6]).frame 6 ≤ 253) ∧
    7 + (latched full_config
      [0x01, 0x10, 0x00, 0x64, 0x00, 0x02, 0x04, 0x12, 0x34, 0x56, 0x78]).frame 6 ≤ 253 ∧
    11 + (latched full_config
      [0x01, 0x17, 0x00, 0x00, 0x00, 0x01, 0x00, 0x00, 0x00, 0x79, 0xF2]).frame 10 ≤ 253 :=
  ⟨(C40_write_data_region (latched full_config [0x01, 0x0F, 0x00, 0x00, 0x07, 0xB0, 0xF6])
      (fun _ => 0) 0).1 0 1968 7 (by decide),
   ((C40_write_data_region (latched full_config
      [0x01, 0x10, 0x00, 0x64, 0x00, 0x02, 0x04, 0x12, 0x34, 0x56, 0x78])
      (fun _ => 0) 0).2.1 100 2 7 (by decide)).2.2.2.2.2.2,
   ((C40_write_data_region (latched full_config
      [0x01, 0x17, 0x00, 0x00, 0x00, 0x01, 0x00, 0x00, 0x00, 0x79, 0xF2])
      (fun _ => 0) 0).2.2 0 1 0 121 11 2 (by decide)).2.2.2.2.2.2⟩

/-! ## Bytes beyond the received frame -/

set_option maxRecDepth 100000 in
/-- C38 on the code: two instances with the configuration of the integration tests both
hold the latched 4-byte frame 01 03 40 21 (valid: own address, correct CRC); the first
was freshly initialised, the second had received and answered the request of
test_complete_frame_processing before. They agree on config, frame_available,
frame_len and the first frame_len bytes of the frame buffer, yet poll on the first
invokes no data-access callback and transmits the exception 01 83 03, while poll on the
second invokes read_holding_registers with start address 0x4021 (the CRC bytes) and
quantity 2 (bytes 4 and 5 left by the earlier request) and transmits 01 83 02. -/
theorem C38_stale_bytes_on_code :
    (run (init_slave test_config) (frame_events short_request)).frame_available = true ∧
    (run (init_slave test_config)
      (frame_events read_request ++ [Event.poll (fun _ => 0)] ++
        frame_events short_request)).frame_available = true ∧
    (run (init_slave test_config) (frame_events short_request)).frame_len = 4 ∧
    (run (init_slave test_config)
      (frame_events read_request ++ [Event.poll (fun _ => 0)] ++
        frame_events short_request)).frame_len = 4 ∧
    (run (init_slave test_config) (frame_events short_request)).frame.bytes 4 =
      (run (init_slave test_config)
        (frame_events read_request ++ [Event.poll (fun _ => 0)] ++
          frame_events short_request)).frame.bytes 4 ∧
    modbus_validate_frame (run (init_slave test_config) (frame_events short_request)) = 0 ∧
    (modbus_slave_poll (run (init_slave test_config) (frame_events short_request))
      (fun _ => 0)).2 = [Call.write (with_crc [0x01, 0x83, 0x03])] ∧
    (modbus_slave_poll
      (run (init_slave test_config)
        (frame_events read_request ++ [Event.poll (fun _ => 0)] ++
          frame_events short_request))
      (fun _ => 0)).2 =
      [Call.read_holding_registers 0x4021 2 2, Call.write (with_crc [0x01, 0x83, 0x02])] := by
  refine ⟨rfl, rfl, rfl, rfl, ?_, ?_, ?_, ?_⟩ <;> decide

end OpenModbus
